import Mathlib

/-
  Verification development for the feishu-to-ruoyi-sync repository.

  The definitions below are a shallow embedding of the three Python sources:
    * fetch_feishu_data.py  (identity mapper, extraction validation)
    * sync_to_ruoyi_db.py   (database-direct reconciliation engine)
    * sync_to_ruoyi.py      (REST reconciliation engine; only referenced)

  Machine integers are modelled as Nat (with explicit `% 2 ^ 32` where SHA-1
  overflow matters), Python dictionaries as insertion-ordered association
  lists, database rows as records, and each print/SQL call of the engine as an
  event in an explicit trace.
-/

/- ===================== Identity Mapper (fetch_feishu_data.py) ============ -/

/-- Ambiguous surname characters and their surname-context pinyin readings:
the `SURNAME_PINYIN` table of `fetch_feishu_data.py`. -/
def SURNAME_PINYIN : List (Char × String) :=
  [('曾', "zeng"), ('卜', "bu"), ('区', "ou"), ('查', "zha"), ('单', "shan"),
   ('朴', "piao"), ('仇', "qiu"), ('黑', "he"), ('盖', "ge"), ('种', "chong"),
   ('繁', "po"), ('召', "shao")]

/-- Default (non-surname) pinyin readings used to model the external library
call `lazy_pinyin(name, style=Style.NORMAL)` on the characters this
development exercises.  The table lists the default reading pypinyin gives for
each character of `SURNAME_PINYIN` together with a few ordinary name
characters; characters outside the table are treated as non-Chinese input and
passed through verbatim, which is pypinyin's documented behaviour. -/
def PINYIN_DEFAULT : List (Char × String) :=
  [('曾', "ceng"), ('卜', "bo"), ('区', "qu"), ('查', "cha"), ('单', "dan"),
   ('朴', "pu"), ('仇', "chou"), ('黑', "hei"), ('盖', "gai"), ('种', "zhong"),
   ('繁', "fan"), ('召', "zhao"),
   ('王', "wang"), ('李', "li"), ('张', "zhang"), ('小', "xiao"),
   ('明', "ming"), ('华', "hua"), ('文', "wen")]

/-- Default reading lookup of the pypinyin model. -/
def pinyin_default (c : Char) : Option String :=
  (PINYIN_DEFAULT.find? (fun p => p.1 == c)).map (·.2)

/-- Flush the pending (reversed) run of non-Chinese characters into a single
token, as pypinyin groups maximal non-Chinese runs. -/
def flush_run (pending : List Char) : List String :=
  match pending with
  | [] => []
  | r => [String.mk r.reverse]

/-- Worker for the pypinyin model: Chinese characters (those in
`PINYIN_DEFAULT`) become one token each, carrying their default reading;
maximal runs of other characters are passed through verbatim as one token. -/
def lazy_pinyin_aux : List Char → List Char → List String
  | pending, [] => flush_run pending
  | pending, c :: cs =>
    match pinyin_default c with
    | some py => flush_run pending ++ py :: lazy_pinyin_aux [] cs
    | none => lazy_pinyin_aux (c :: pending) cs

/-- Model of the external `lazy_pinyin(name, style=Style.NORMAL)` call. -/
def lazy_pinyin (s : List Char) : List String := lazy_pinyin_aux [] s

/-- Expand every occurrence of the single character `c` into `repl`: Python's
`str.replace` for a one-character pattern. -/
def replace_char (c : Char) (repl : List Char) (s : List Char) : List Char :=
  s.flatMap (fun x => if x = c then repl else [x])

/-- The replacement text `[py]` that `name_to_pinyin` substitutes for an
ambiguous character before transliteration. -/
def bracketed (py : String) : List Char := '[' :: (py.toList ++ [']'])

/-- The pre-transliteration replacement loop of `name_to_pinyin`:
`for char, pinyin in SURNAME_PINYIN.items(): name = name.replace(char, f'[{pinyin}]')`. -/
def surname_replace (name : List Char) : List Char :=
  SURNAME_PINYIN.foldl (fun s p => replace_char p.1 (bracketed p.2) s) name

/-- Bracket character test for Python's `p.strip('[]')`. -/
def is_bracket (c : Char) : Bool := c = '[' || c = ']'

/-- Python `p.strip('[]')`: remove leading and trailing characters drawn from
the set containing the two bracket characters. -/
def strip_brackets (s : String) : String :=
  String.mk (((s.toList.dropWhile is_bracket).reverse.dropWhile is_bracket).reverse)

/-- Lowercase a string character by character, modelling Python's `.lower()`
on the ASCII data this system feeds it. -/
def lower_ascii (s : String) : String := String.mk (s.toList.map Char.toLower)

/-- Translation of `name_to_pinyin` from `fetch_feishu_data.py`: replace the
ambiguous characters, transliterate, strip the protection brackets, then
format as `<given-name>.<surname>` (single unit: just that unit; empty name:
empty string). -/
def name_to_pinyin (name : String) : String :=
  if name = "" then ""
  else
    let replaced := surname_replace name.toList
    let pinyin_list := (lazy_pinyin replaced).map strip_brackets
    match pinyin_list with
    | [] => ""
    | [p] => lower_ascii p
    | p :: rest => lower_ascii (String.join rest) ++ "." ++ lower_ascii p

/- ===================== Correlation key (uuid5 over SHA-1) ================ -/

/-- UTF-8 encoding of one code point, byte values as Nat. -/
def utf8_encode_char (n : Nat) : List Nat :=
  if n < 128 then [n]
  else if n < 2048 then [192 + n / 64, 128 + n % 64]
  else if n < 65536 then [224 + n / 4096, 128 + (n / 64) % 64, 128 + n % 64]
  else [240 + n / 262144, 128 + (n / 4096) % 64, 128 + (n / 64) % 64, 128 + n % 64]

/-- UTF-8 bytes of a string (Python `name.encode('utf-8')` inside uuid5). -/
def utf8_bytes (s : String) : List Nat :=
  (s.toList.map (fun c => utf8_encode_char c.toNat)).flatten

/-- Truncate to a 32-bit word. -/
def w32 (x : Nat) : Nat := x % 4294967296

/-- Rotate a 32-bit word left by `k` bits (for `x < 2 ^ 32`). -/
def rotl (k x : Nat) : Nat := w32 (x * 2 ^ k) + x / 2 ^ (32 - k)

/-- SHA-1 round function. -/
def sha1_f (t b c d : Nat) : Nat :=
  if t < 20 then (b &&& c) ||| ((4294967295 - b) &&& d)
  else if t < 40 then b ^^^ c ^^^ d
  else if t < 60 then (b &&& c) ||| (b &&& d) ||| (c &&& d)
  else b ^^^ c ^^^ d

/-- SHA-1 round constants. -/
def sha1_k (t : Nat) : Nat :=
  if t < 20 then 1518500249
  else if t < 40 then 1859775393
  else if t < 60 then 2400959708
  else 3395469782

/-- Big-endian byte decomposition of `n` into `k` bytes. -/
def be_bytes (k n : Nat) : List Nat :=
  (List.range k).map (fun i => (n / 2 ^ (8 * (k - 1 - i))) % 256)

/-- SHA-1 padding: a 0x80 byte, zeros to 56 mod 64, then the 64-bit bit
length, big-endian. -/
def sha1_pad (msg : List Nat) : List Nat :=
  msg ++ [128] ++ List.replicate ((119 - msg.length % 64) % 64) 0
      ++ be_bytes 8 (8 * msg.length)

/-- Split a byte list into successive 64-byte blocks (fuelled recursion; the
fuel is an upper bound on the number of blocks). -/
def chunk_blocks : Nat → List Nat → List (List Nat)
  | 0, _ => []
  | Nat.succ fuel, l => if l = [] then [] else l.take 64 :: chunk_blocks fuel (l.drop 64)

/-- The sixteen 32-bit words of a 64-byte block, big-endian. -/
def words16 (block : List Nat) : List Nat :=
  (List.range 16).map (fun i =>
    (block.getD (4 * i) 0) * 16777216 + (block.getD (4 * i + 1) 0) * 65536 +
    (block.getD (4 * i + 2) 0) * 256 + block.getD (4 * i + 3) 0)

/-- The 80-entry SHA-1 message schedule of a block. -/
def sha1_schedule (ws16 : List Nat) : List Nat :=
  (List.range 80).foldl (fun ws t =>
    if t < 16 then ws ++ [ws16.getD t 0]
    else ws ++ [rotl 1 (((ws.getD (t - 3) 0) ^^^ (ws.getD (t - 8) 0)) ^^^
                        ((ws.getD (t - 14) 0) ^^^ (ws.getD (t - 16) 0)))]) []

/-- One SHA-1 block compression. -/
def sha1_compress (h : Nat × Nat × Nat × Nat × Nat) (block : List Nat) :
    Nat × Nat × Nat × Nat × Nat :=
  let ws := sha1_schedule (words16 block)
  let st := (List.range 80).foldl (fun st t =>
    let a := st.1
    let b := st.2.1
    let c := st.2.2.1
    let d := st.2.2.2.1
    let e := st.2.2.2.2
    let tmp := w32 (rotl 5 a + sha1_f t b c d + e + sha1_k t + ws.getD t 0)
    (tmp, a, rotl 30 b, c, d)) h
  (w32 (h.1 + st.1), w32 (h.2.1 + st.2.1), w32 (h.2.2.1 + st.2.2.1),
   w32 (h.2.2.2.1 + st.2.2.2.1), w32 (h.2.2.2.2 + st.2.2.2.2))

/-- SHA-1 digest (20 bytes) of a byte list. -/
def sha1 (msg : List Nat) : List Nat :=
  let padded := sha1_pad msg
  let blocks := chunk_blocks (padded.length + 1) padded
  let h := blocks.foldl sha1_compress
    (1732584193, 4023233417, 2562383102, 271733878, 3285377520)
  be_bytes 4 h.1 ++ be_bytes 4 h.2.1 ++ be_bytes 4 h.2.2.1 ++
  be_bytes 4 h.2.2.2.1 ++ be_bytes 4 h.2.2.2.2

/-- The sixteen bytes of `uuid.NAMESPACE_DNS`
(6ba7b810-9dad-11d1-80b4-00c04fd430c8). -/
def NAMESPACE_DNS_BYTES : List Nat :=
  [107, 167, 184, 16, 157, 173, 17, 209, 128, 180, 0, 192, 79, 212, 48, 200]

/-- Lower-case hexadecimal digit. -/
def hex_digit (n : Nat) : Char := if n < 10 then Char.ofNat (48 + n) else Char.ofNat (87 + n)

/-- Two hex characters of one byte. -/
def byte_hex (b : Nat) : List Char := [hex_digit (b / 16), hex_digit (b % 16)]

/-- Canonical 8-4-4-4-12 textual form of sixteen UUID bytes. -/
def uuid_of_bytes (bs : List Nat) : String :=
  let hx := fun (l : List Nat) => String.mk (l.flatMap byte_hex)
  hx (bs.take 4) ++ "-" ++ hx ((bs.drop 4).take 2) ++ "-" ++
  hx ((bs.drop 6).take 2) ++ "-" ++ hx ((bs.drop 8).take 2) ++ "-" ++
  hx ((bs.drop 10).take 6)

/-- Model of Python `uuid.uuid5(namespace, name)`: SHA-1 of the namespace
bytes followed by the UTF-8 name, truncated to 16 bytes, with the version
nibble forced to 5 and the variant bits to 10. -/
def uuid5 (ns_bytes : List Nat) (name : String) : String :=
  let digest := (sha1 (ns_bytes ++ utf8_bytes name)).take 16
  let b6 := ((digest.getD 6 0) % 16) + 80
  let b8 := ((digest.getD 8 0) % 64) + 128
  uuid_of_bytes ((digest.set 6 b6).set 8 b8)

/-- Translation of `generate_uuid_from_email` from `fetch_feishu_data.py`:
empty email yields the empty key, otherwise the name-based UUID of the
lowercased email under the fixed DNS namespace. -/
def generate_uuid_from_email (email : String) : String :=
  if email = "" then "" else uuid5 NAMESPACE_DNS_BYTES (lower_ascii email)

/- ============== Extraction validation (fetch_feishu_data.py main) ======== -/

/-- Observable outcome of the extraction script: its exit code and whether
each intermediate extract CSV file exists afterwards. -/
structure FetchOutcome where
  exitCode : Nat
  usersCsvExists : Bool
  deptsCsvExists : Bool
deriving Repr, DecidableEq

/-- Translation of the validation section of `fetch_feishu_data.py`'s main
block, entered after both CSV files have been exported: zero departments or
zero users raise, then a deduplicated user count differing from the source's
authoritative total raises; the exception handler deletes both CSV files and
exits with code 1, and the success path leaves both files and exits 0. -/
def fetch_main_validate (deptCount userCount : Nat)
    (total_user_count : Option Nat) : FetchOutcome :=
  if deptCount = 0 ∨ userCount = 0 then ⟨1, false, false⟩
  else
    match total_user_count with
    | some t => if userCount ≠ t then ⟨1, false, false⟩ else ⟨0, true, true⟩
    | none => ⟨0, true, true⟩

/-- Translation of step 0 of `sync_to_ruoyi_db.py`'s main block: when the
extraction subprocess exits nonzero the sync terminates (`sys.exit(1)`) before
the database connection is even opened, so no target-system write happens;
`none` models that abort, `some ()` reaching the sync phases. -/
def sync_db_main_gate (fetchExitCode : Nat) : Option Unit :=
  if fetchExitCode ≠ 0 then none else some ()

/- ============== Data model (sync_to_ruoyi_db.py) ========================= -/

/-- One row of `output/feishu_departments.csv` as read by `sync_departments`
(the `level` column is parsed with `int(...)`). -/
structure FeishuDept where
  dept_id : String
  dept_name : String
  parent_dept_id : String
  level : Nat
deriving Repr, DecidableEq

/-- One row of `output/feishu_users.csv` as read by `sync_users` (only the
columns the engine touches). -/
structure FeishuUser where
  union_id : String
  open_id : String
  user_id : String
  name : String
  enterprise_email : String
  dept_id : String
deriving Repr, DecidableEq

/-- A `sys_dept` row, restricted to the columns the engine reads or writes.
The empty string in `feishu_dept_id` stands for SQL NULL, and `none` in
`level` for a NULL level.  Rows appended to the engine's working list for
departments created during the run carry `""` in `del_flag`/`status`,
mirroring the Python dicts that lack those keys. -/
structure RuoYiDept where
  dept_id : Nat
  parent_id : Nat
  ancestors : String
  dept_name : String
  level : Option Nat
  feishu_dept_id : String
  del_flag : String
  status : String
deriving Repr, DecidableEq

/-- A `sys_user` row, restricted to the columns the engine reads or writes. -/
structure RuoYiUser where
  user_id : Nat
  user_name : String
  nick_name : String
  email : String
  phonenumber : String
  sex : String
  dept_id : Nat
  password : String
  feishu_union_id : String
  feishu_open_id : String
  status : String
  del_flag : String
deriving Repr, DecidableEq

/-- The target database: both tables, the role table, and the AUTO_INCREMENT
counters that assign `lastrowid` on insert. -/
structure DBState where
  depts : List RuoYiDept
  users : List RuoYiUser
  user_roles : List (Nat × Nat)
  nextDeptId : Nat
  nextUserId : Nat
deriving Repr, DecidableEq

/-- The BCrypt hash the engine assigns to newly created users
(`DEFAULT_USER_PASSWORD_HASH` default value). -/
def DEFAULT_USER_PASSWORD_HASH : String :=
  "$2a$10$7JB720yubVSZvUI0rEqK/.VqGOZTH.ulu33dHOiBE8ByOhJIrdAu2"

/- ============== Insertion-ordered dictionaries =========================== -/

/-- Lookup in an insertion-ordered association list (Python `dict` access). -/
def alist_find {α : Type} (m : List (String × α)) (k : String) : Option α :=
  (m.find? (fun p => p.1 == k)).map (·.2)

/-- Python `dict` assignment: overwrite in place if the key exists (keeping
its position, as Python dicts do), else append. -/
def alist_insert {α : Type} (m : List (String × α)) (k : String) (v : α) :
    List (String × α) :=
  if (m.find? (fun p => p.1 == k)).isSome then
    m.map (fun p => if p.1 == k then (k, v) else p)
  else m ++ [(k, v)]

/- ============== Engine events and run configuration ====================== -/

/-- Payload of `INSERT INTO sys_dept` (the `dept_data` dict of the create
branch of `create_dept_recursive`). -/
structure DeptCreateData where
  dept_name : String
  parent_id : Nat
  ancestors : String
  order_num : Nat
  level : Nat
  feishu_dept_id : String
deriving Repr, DecidableEq

/-- Payload of `UPDATE sys_dept` (the `dept_data` dict of the matched branch
of `create_dept_recursive`; note it has no `feishu_dept_id` field). -/
structure DeptUpdateData where
  dept_name : String
  parent_id : Nat
  ancestors : String
  level : Nat
deriving Repr, DecidableEq

/-- Payload of the user create/update calls (the `user_data` dict built in
`sync_users`; note it has no password and, for updates, the `user_name` and
`password` columns are not in the UPDATE statement). -/
structure UserData where
  user_name : String
  nick_name : String
  email : String
  phonenumber : String
  sex : String
  dept_id : Nat
  feishu_union_id : String
  feishu_open_id : String
deriving Repr, DecidableEq

/-- One entry of the field-drift list reported for a department update, in
the order the Python code appends them. -/
inductive DeptDiff
  | dname (oldName newName : String)
  | dlevel (oldLevel : Option Nat) (newLevel : Nat)
  | dparent (oldParent newParent : Nat)
  | dancestors
deriving Repr, DecidableEq

/-- One entry of the field-drift list reported for a user update. -/
inductive UserDiff
  | uname (oldName newName : String)
  | uemail (oldEmail newEmail : String)
  | udept (oldDeptName newDeptName : String)
  | uopenid (oldId newId : String)
deriving Repr, DecidableEq

/-- Observable actions of one engine run, in program order: each constructor
corresponds to one adapter call of `sync_departments`/`sync_users` (create,
update, disable), to the `dept_id_map` assignment of the matched branch, or
to the skip warning printed for a user without `union_id`. -/
inductive SyncEvent
  | createDept (feishu_id : String) (data : DeptCreateData) (result : Option Nat)
  | matchedDept (feishu_id : String) (existing : RuoYiDept)
  | updateDept (target_id : Nat) (data : DeptUpdateData) (info : List DeptDiff)
  | disableDept (target_id : Nat) (name : String)
  | skipUser (user_name nick_name : String)
  | createUser (data : UserData) (result : Option Nat)
  | updateUser (target_id : Nat) (data : UserData) (info : List UserDiff)
  | disableUser (target_id : Nat) (user_name nick_name : String)
deriving Repr, DecidableEq

/-- Run configuration: the `--dry-run` flag, the values `random.randint`
returns for the simulated ids of dry-run creates (indexed by how many creates
the phase has already simulated), and, for the real run, whether each write
succeeds: INSERTs keyed by the entity's correlation value (failures model the
per-entity exception handlers that return None), UPDATEs and disables keyed
by the target surrogate id of the statement's WHERE clause (failures model
the `pymysql.Error` handlers that roll back and return False; the dry-run
stubs of all four always return True). -/
structure SyncConfig where
  dryRun : Bool
  randDept : Nat → Nat
  randUser : Nat → Nat
  deptCreateOk : String → Bool
  userCreateOk : String → Bool
  deptUpdateOk : Nat → Bool
  deptDisableOk : Nat → Bool
  userUpdateOk : Nat → Bool
  userDisableOk : Nat → Bool

/- ============== Database adapter (class RuoYiDB) ========================= -/

/-- The INSERT of `RuoYiDB.create_department`: a fresh surrogate id from the
AUTO_INCREMENT counter, status and del_flag columns set to the normal state. -/
def db_insert_dept (db : DBState) (d : DeptCreateData) : Nat × DBState :=
  let id := db.nextDeptId
  (id, { db with
    depts := db.depts ++
      [⟨id, d.parent_id, d.ancestors, d.dept_name, some d.level, d.feishu_dept_id, "0", "0"⟩],
    nextDeptId := id + 1 })

/-- The UPDATE of `RuoYiDB.update_department`: sets `dept_name`, `parent_id`,
`ancestors` and `level` of the addressed row and nothing else. -/
def db_update_dept (db : DBState) (target : Nat) (d : DeptUpdateData) : DBState :=
  { db with depts := db.depts.map (fun r =>
      if r.dept_id == target then
        { r with dept_name := d.dept_name, parent_id := d.parent_id,
                 ancestors := d.ancestors, level := some d.level }
      else r) }

/-- The UPDATE of `RuoYiDB.disable_department`: sets `status = '1'`. -/
def db_disable_dept (db : DBState) (target : Nat) : DBState :=
  { db with depts := db.depts.map (fun r =>
      if r.dept_id == target then { r with status := "1" } else r) }

/-- The two INSERTs of `RuoYiDB.create_user`: the user row with the default
password hash and normal status, plus the default role assignment. -/
def db_insert_user (db : DBState) (u : UserData) : Nat × DBState :=
  let id := db.nextUserId
  (id, { db with
    users := db.users ++
      [⟨id, u.user_name, u.nick_name, u.email, u.phonenumber, u.sex, u.dept_id,
        DEFAULT_USER_PASSWORD_HASH, u.feishu_union_id, u.feishu_open_id, "0", "0"⟩],
    user_roles := db.user_roles ++ [(id, 2)],
    nextUserId := id + 1 })

/-- The UPDATE of `RuoYiDB.update_user`: sets `dept_id`, `nick_name`,
`email`, `phonenumber`, `sex` and `feishu_open_id` of the addressed row;
`user_name`, `password` and `feishu_union_id` are not in the statement. -/
def db_update_user (db : DBState) (target : Nat) (u : UserData) : DBState :=
  { db with users := db.users.map (fun r =>
      if r.user_id == target then
        { r with dept_id := u.dept_id, nick_name := u.nick_name, email := u.email,
                 phonenumber := u.phonenumber, sex := u.sex,
                 feishu_open_id := u.feishu_open_id }
      else r) }

/-- The UPDATE of `RuoYiDB.disable_user`: sets `status = '1'` (a soft
delete; the row is never removed). -/
def db_disable_user (db : DBState) (target : Nat) : DBState :=
  { db with users := db.users.map (fun r =>
      if r.user_id == target then { r with status := "1" } else r) }

/-- `RuoYiDB.get_departments`: all rows, disabled ones included. -/
def db_get_departments (db : DBState) : List RuoYiDept := db.depts

/-- `RuoYiDB.get_users`: rows with `del_flag = '0'` (the status flag is not
filtered). -/
def db_get_users (db : DBState) : List RuoYiUser :=
  db.users.filter (fun u => u.del_flag == "0")


/- ============== Writer-style fold for the engine loops =================== -/

/-- The shape both engine loops share: fold a step function that returns a
new state plus the events it emitted, accumulating the events in program
order. -/
def writer_fold {C A E : Type} (step : C -> A -> C × List E)
    (acc : C × List E) (l : List A) : C × List E :=
  l.foldl (fun acc a => ((step acc.1 a).1, acc.2 ++ (step acc.1 a).2)) acc

/- ============== Department reconciliation (sync_departments) ============= -/

/-- Mutable engine state of `sync_departments`: the growing id mapping, the
local working copy of the target department list (appended, never edited, as
the run creates departments), the `feishu_dept_id`-keyed lookup of that list,
the two counters, the index feeding dry-run's simulated ids, and the database
itself. -/
structure DeptCore where
  dept_id_map : List (String × Nat)
  ruoyi_depts : List RuoYiDept
  ruoyi_dept_map : List (String × RuoYiDept)
  dept_created_count : Nat
  dept_updated_count : Nat
  randIdx : Nat
  db : DBState
deriving Repr, DecidableEq

/-- `RuoYiDB.create_department` as the engine sees it: in dry-run mode it
returns a simulated id from `random.randint` and touches nothing; in real
mode a successful INSERT returns `lastrowid` and a failed one returns None. -/
def create_department (cfg : SyncConfig) (c : DeptCore) (d : DeptCreateData) :
    Option Nat × DeptCore :=
  if cfg.dryRun then
    (some (cfg.randDept c.randIdx), { c with randIdx := c.randIdx + 1 })
  else if cfg.deptCreateOk d.feishu_dept_id then
    let r := db_insert_dept c.db d
    (some r.1, { c with db := r.2 })
  else (none, c)

/-- `RuoYiDB.update_department` as the engine sees it: logged only in
dry-run mode, executed in real mode; on a database error the transaction is
rolled back (no row changes) and False is returned — a return value
`create_dept_recursive` ignores, having already counted the update. -/
def update_department (cfg : SyncConfig) (c : DeptCore) (target : Nat)
    (d : DeptUpdateData) : DeptCore :=
  if cfg.dryRun then c
  else if cfg.deptUpdateOk target then { c with db := db_update_dept c.db target d }
  else c

/-- `RuoYiDB.disable_department` as the engine sees it; on error the rollback
leaves the rows unchanged and the returned False is ignored by the caller. -/
def disable_department (cfg : SyncConfig) (c : DeptCore) (target : Nat) : DeptCore :=
  if cfg.dryRun then c
  else if cfg.deptDisableOk target then { c with db := db_disable_dept c.db target }
  else c

/-- The ancestors-string computation shared by both branches of
`create_dept_recursive`: the fixed seed `"0,100"` under the default root,
otherwise the parent row's ancestors with the parent id appended when that
row is found in the working list with a non-empty ancestors value, and the
seed extended with the parent id as the fallback. -/
def build_ancestors (ruoyi_depts : List RuoYiDept) (parent_ruoyi_id : Nat) : String :=
  if parent_ruoyi_id == 100 then "0,100"
  else
    match ruoyi_depts.find? (fun d => d.dept_id == parent_ruoyi_id) with
    | some p =>
      if p.ancestors ≠ "" then p.ancestors ++ "," ++ toString parent_ruoyi_id
      else "0,100," ++ toString parent_ruoyi_id
    | none => "0,100," ++ toString parent_ruoyi_id

/-- The field-drift check of the matched branch of `create_dept_recursive`,
in the order the Python code appends the messages. -/
def dept_diffs (existing : RuoYiDept) (dept : FeishuDept) (parent_ruoyi_id : Nat) :
    List DeptDiff :=
  (if existing.dept_name ≠ dept.dept_name then
    [DeptDiff.dname existing.dept_name dept.dept_name] else [])
  ++ (if existing.level ≠ some dept.level then
    [DeptDiff.dlevel existing.level dept.level] else [])
  ++ (if existing.parent_id ≠ parent_ruoyi_id then
    [DeptDiff.dparent existing.parent_id parent_ruoyi_id] else [])
  ++ (if existing.ancestors = "" then [DeptDiff.dancestors] else [])

/-- Translation of `create_dept_recursive` from `sync_to_ruoyi_db.py`.  The
fuel argument only serves Lean's termination checker; every run below hands
it `feishu_depts.length + 7`, which the level-order theorems show is never
exhausted on well-formed inputs (the level loop only starts recursions at
source level at most 5, and parents sit at strictly smaller levels).  Returns the resolved target id, the new
state, and the events emitted during the call (parent events first, matching
the recursion into the parent before any action on the child). -/
def create_dept_recursive (cfg : SyncConfig) (dict : List (String × FeishuDept)) :
    Nat → String → DeptCore → Nat × DeptCore × List SyncEvent
  | 0, _, c => (100, c, [])
  | Nat.succ fuel, dept_id, c =>
    match alist_find c.dept_id_map dept_id with
    | some rid => (rid, c, [])
    | none =>
      if dept_id = "0" then (100, c, [])
      else
        match alist_find dict dept_id with
        | none => (100, c, [])
        | some dept =>
          let r := create_dept_recursive cfg dict fuel dept.parent_dept_id c
          let parent_ruoyi_id := r.1
          let c1 := r.2.1
          let ev0 := r.2.2
          match alist_find c1.ruoyi_dept_map dept_id with
          | some existing =>
            let c2 := { c1 with
              dept_id_map := alist_insert c1.dept_id_map dept_id existing.dept_id }
            let info := dept_diffs existing dept parent_ruoyi_id
            if info ≠ [] then
              let anc := build_ancestors c2.ruoyi_depts parent_ruoyi_id
              let d : DeptUpdateData := ⟨dept.dept_name, parent_ruoyi_id, anc, dept.level⟩
              let c3 := { c2 with dept_updated_count := c2.dept_updated_count + 1 }
              let c4 := update_department cfg c3 existing.dept_id d
              (existing.dept_id, c4,
               ev0 ++ [SyncEvent.matchedDept dept_id existing,
                       SyncEvent.updateDept existing.dept_id d info])
            else
              (existing.dept_id, c2, ev0 ++ [SyncEvent.matchedDept dept_id existing])
          | none =>
            let anc := build_ancestors c1.ruoyi_depts parent_ruoyi_id
            let d : DeptCreateData :=
              ⟨dept.dept_name, parent_ruoyi_id, anc, 0, dept.level, dept_id⟩
            let res := create_department cfg c1 d
            let c2 := res.2
            match res.1 with
            | some new_id =>
              if new_id ≠ 0 then
                let new_row : RuoYiDept :=
                  ⟨new_id, parent_ruoyi_id, anc, dept.dept_name, some dept.level,
                   dept_id, "", ""⟩
                let c3 := { c2 with
                  dept_created_count := c2.dept_created_count + 1,
                  dept_id_map := alist_insert c2.dept_id_map dept_id new_id,
                  ruoyi_depts := c2.ruoyi_depts ++ [new_row],
                  ruoyi_dept_map := alist_insert c2.ruoyi_dept_map dept_id new_row }
                (new_id, c3, ev0 ++ [SyncEvent.createDept dept_id d (some new_id)])
              else
                (parent_ruoyi_id, c2, ev0 ++ [SyncEvent.createDept dept_id d (some new_id)])
            | none =>
              (parent_ruoyi_id, c2, ev0 ++ [SyncEvent.createDept dept_id d none])

/-- Result record of `sync_departments` (the tuple it returns, plus the
working structures `sync_users` receives and the event trace). -/
structure DeptSyncResult where
  dept_id_map : List (String × Nat)
  ruoyi_depts : List RuoYiDept
  ruoyi_dept_map : List (String × RuoYiDept)
  dept_created_count : Nat
  dept_updated_count : Nat
  dept_disabled_count : Nat
  db : DBState
  events : List SyncEvent
deriving Repr, DecidableEq

/-- The stale-department filter of `sync_departments`: rows carrying a
feishu id that the current extract no longer contains, still undeleted and
still enabled. -/
def dept_disable_filter (feishu_ids : List String) (d : RuoYiDept) : Bool :=
  d.feishu_dept_id != "" && !(feishu_ids.contains d.feishu_dept_id) &&
  d.del_flag == "0" && d.status == "0"

/-- One iteration of the level loop of `sync_departments`: call
`create_dept_recursive` on the department's id (its returned id is unused by
the loop, as in the Python source). -/
def dept_sync_step (cfg : SyncConfig) (dict : List (String × FeishuDept))
    (fuel : Nat) (c : DeptCore) (dept : FeishuDept) : DeptCore × List SyncEvent :=
  ((create_dept_recursive cfg dict fuel dept.dept_id c).2.1,
   (create_dept_recursive cfg dict fuel dept.dept_id c).2.2)

/-- Translation of `sync_departments` from `sync_to_ruoyi_db.py`: read the
extract, index the target rows by feishu id, walk levels 0 through 5 calling
`create_dept_recursive` on each department of that level, then disable the
stale departments. -/
def sync_departments (cfg : SyncConfig) (feishu_depts : List FeishuDept)
    (db0 : DBState) : DeptSyncResult :=
  let ruoyi_depts0 := db_get_departments db0
  let ruoyi_dept_map0 := ruoyi_depts0.foldl
    (fun m d => if d.feishu_dept_id ≠ "" then alist_insert m d.feishu_dept_id d else m) []
  let dict := feishu_depts.foldl (fun m d => alist_insert m d.dept_id d) []
  let fuel := feishu_depts.length + 7
  let c0 : DeptCore := ⟨[], ruoyi_depts0, ruoyi_dept_map0, 0, 0, 0, db0⟩
  let acc := (List.range 6).foldl
    (fun acc level =>
      writer_fold (dept_sync_step cfg dict fuel)
        acc (feishu_depts.filter (fun d => d.level == level)))
    (c0, [])
  let c := acc.1
  let feishu_ids := feishu_depts.map (·.dept_id)
  let to_disable := c.ruoyi_depts.filter (dept_disable_filter feishu_ids)
  let c2 := to_disable.foldl (fun cc d => disable_department cfg cc d.dept_id) c
  ⟨c2.dept_id_map, c2.ruoyi_depts, c2.ruoyi_dept_map,
   c2.dept_created_count, c2.dept_updated_count, to_disable.length, c2.db,
   acc.2 ++ to_disable.map (fun d => SyncEvent.disableDept d.dept_id d.dept_name)⟩

/- ============== User reconciliation (sync_users) ========================= -/

/-- Mutable engine state of the `sync_users` loop. -/
structure UserCore where
  new_count : Nat
  update_count : Nat
  new_users : List (String × String)
  updated_users : List (String × String × List UserDiff)
  randIdxU : Nat
  db : DBState
deriving Repr, DecidableEq

/-- `RuoYiDB.create_user` as the engine sees it (dry-run: simulated id; real
run: `lastrowid` on success, None on failure). -/
def create_user (cfg : SyncConfig) (c : UserCore) (u : UserData) :
    Option Nat × UserCore :=
  if cfg.dryRun then
    (some (cfg.randUser c.randIdxU), { c with randIdxU := c.randIdxU + 1 })
  else if cfg.userCreateOk u.feishu_union_id then
    let r := db_insert_user c.db u
    (some r.1, { c with db := r.2 })
  else (none, c)

/-- `RuoYiDB.update_user` as the engine sees it: the returned flag is the
method's True/False result — True from the dry-run stub and from a committed
real UPDATE, False from the `pymysql.Error` handler that rolls back (row
unchanged); `sync_users` gates its counter and detail list on this flag. -/
def update_user (cfg : SyncConfig) (c : UserCore) (target : Nat) (u : UserData) :
    Bool × UserCore :=
  if cfg.dryRun then (true, c)
  else if cfg.userUpdateOk target then (true, { c with db := db_update_user c.db target u })
  else (false, c)

/-- `RuoYiDB.disable_user` as the engine sees it: True from the dry-run stub
and from a committed real UPDATE, False on a rolled-back error; `sync_users`
gates `disable_count` and `disabled_users` on this flag. -/
def disable_user (cfg : SyncConfig) (c : UserCore) (target : Nat) : Bool × UserCore :=
  if cfg.dryRun then (true, c)
  else if cfg.userDisableOk target then (true, { c with db := db_disable_user c.db target })
  else (false, c)

/-- The department display-name lookups and field-drift check of the matched
branch of the `sync_users` loop, in the order the Python code appends the
messages. -/
def user_diffs (ruoyi_depts : List RuoYiDept)
    (ruoyi_dept_map : List (String × RuoYiDept)) (existing : RuoYiUser)
    (nick_name email open_id : String) (ruoyi_dept_id : Nat) : List UserDiff :=
  (if existing.nick_name ≠ nick_name then
    [UserDiff.uname existing.nick_name nick_name] else [])
  ++ (if existing.email ≠ email then [UserDiff.uemail existing.email email] else [])
  ++ (if existing.dept_id ≠ ruoyi_dept_id then
    [UserDiff.udept
      (((ruoyi_depts.find? (fun d => d.dept_id == existing.dept_id)).map
        (·.dept_name)).getD "未知部门")
      (((ruoyi_dept_map.find? (fun p => p.2.dept_id == ruoyi_dept_id)).map
        (·.2.dept_name)).getD "未知部门")] else [])
  ++ (if existing.feishu_open_id ≠ open_id then
    [UserDiff.uopenid existing.feishu_open_id open_id] else [])

/-- One iteration of the `for feishu_user in feishu_users` loop of
`sync_users`: skip (with a warning) when the union id is empty, otherwise
diff-and-update a matched user or create an unmatched one. -/
def user_step (cfg : SyncConfig) (dept_id_map : List (String × Nat))
    (ruoyi_depts : List RuoYiDept) (ruoyi_dept_map : List (String × RuoYiDept))
    (ruoyi_user_map : List (String × RuoYiUser)) (c : UserCore) (fu : FeishuUser) :
    UserCore × List SyncEvent :=
  if fu.union_id = "" then (c, [SyncEvent.skipUser fu.user_id fu.name])
  else
    let ruoyi_dept_id := (alist_find dept_id_map fu.dept_id).getD 100
    let user_data : UserData :=
      ⟨fu.user_id, fu.name, fu.enterprise_email, "", "0", ruoyi_dept_id,
       fu.union_id, fu.open_id⟩
    match alist_find ruoyi_user_map fu.union_id with
    | some existing =>
      let info := user_diffs ruoyi_depts ruoyi_dept_map existing fu.name
        fu.enterprise_email fu.open_id ruoyi_dept_id
      if info ≠ [] then
        let r := update_user cfg c existing.user_id user_data
        ((if r.1 then
            { r.2 with update_count := r.2.update_count + 1,
                       updated_users := r.2.updated_users ++ [(fu.name, fu.user_id, info)] }
          else r.2),
         [SyncEvent.updateUser existing.user_id user_data info])
      else (c, [])
    | none =>
      let res := create_user cfg c user_data
      match res.1 with
      | some new_id =>
        if new_id ≠ 0 then
          ({ res.2 with new_count := res.2.new_count + 1,
                        new_users := res.2.new_users ++ [(fu.name, fu.user_id)] },
           [SyncEvent.createUser user_data (some new_id)])
        else (res.2, [SyncEvent.createUser user_data (some new_id)])
      | none => (res.2, [SyncEvent.createUser user_data none])

/-- Result record of `sync_users` (the tuple it returns plus the database and
the event trace). -/
structure UserSyncResult where
  new_count : Nat
  update_count : Nat
  new_users : List (String × String)
  updated_users : List (String × String × List UserDiff)
  disable_count : Nat
  disabled_users : List (String × String)
  db : DBState
  events : List SyncEvent
deriving Repr, DecidableEq

/-- The stale-user filter of `sync_users`: target users carrying a union id
the current extract no longer contains, except the protected admin account.
Unlike the department filter it does not test the status flag. -/
def user_disable_filter (feishu_union_ids : List String) (u : RuoYiUser) : Bool :=
  u.feishu_union_id != "" && !(feishu_union_ids.contains u.feishu_union_id) &&
  u.user_name != "admin"

/-- Translation of `sync_users` from `sync_to_ruoyi_db.py`: index the target
users by union id, run the per-user loop, then call `disable_user` on each
stale user, incrementing `disable_count` and recording the detail entry only
when the call returns True. -/
def sync_users (cfg : SyncConfig) (feishu_users : List FeishuUser)
    (dept_id_map : List (String × Nat)) (ruoyi_depts : List RuoYiDept)
    (ruoyi_dept_map : List (String × RuoYiDept)) (db0 : DBState) : UserSyncResult :=
  let ruoyi_users := db_get_users db0
  let ruoyi_user_map := ruoyi_users.foldl
    (fun m u => if u.feishu_union_id ≠ "" then alist_insert m u.feishu_union_id u else m) []
  let c0 : UserCore := ⟨0, 0, [], [], 0, db0⟩
  let acc := writer_fold
    (user_step cfg dept_id_map ruoyi_depts ruoyi_dept_map ruoyi_user_map)
    (c0, []) feishu_users
  let feishu_union_ids := (feishu_users.map (·.union_id)).filter (· ≠ "")
  let to_disable := ruoyi_users.filter (user_disable_filter feishu_union_ids)
  let fin := to_disable.foldl
    (fun (p : UserCore × Nat × List (String × String)) u =>
      let r := disable_user cfg p.1 u.user_id
      (r.2, (if r.1 then p.2.1 + 1 else p.2.1),
       (if r.1 then p.2.2 ++ [(u.nick_name, u.user_name)] else p.2.2)))
    (acc.1, 0, [])
  ⟨fin.1.new_count, fin.1.update_count, fin.1.new_users, fin.1.updated_users,
   fin.2.1, fin.2.2, fin.1.db,
   acc.2 ++ to_disable.map (fun u => SyncEvent.disableUser u.user_id u.user_name u.nick_name)⟩

/- ============== Orchestrator (main of sync_to_ruoyi_db.py) =============== -/

/-- Aggregated observables of one full run: the department mapping, all six
counters, the final database, and the combined event trace. -/
structure RunResult where
  dept_id_map : List (String × Nat)
  dept_created : Nat
  dept_updated : Nat
  dept_disabled : Nat
  user_new : Nat
  user_update : Nat
  user_disable : Nat
  db : DBState
  events : List SyncEvent
deriving Repr, DecidableEq

/-- One full reconciliation run, departments then users, as the main block of
`sync_to_ruoyi_db.py` drives it. -/
def run_sync (cfg : SyncConfig) (feishu_depts : List FeishuDept)
    (feishu_users : List FeishuUser) (db0 : DBState) : RunResult :=
  let dr := sync_departments cfg feishu_depts db0
  let ur := sync_users cfg feishu_users dr.dept_id_map dr.ruoyi_depts dr.ruoyi_dept_map dr.db
  ⟨dr.dept_id_map, dr.dept_created_count, dr.dept_updated_count, dr.dept_disabled_count,
   ur.new_count, ur.update_count, ur.disable_count, ur.db, dr.events ++ ur.events⟩

/- ============== Trace predicates for the department phase =============== -/

/-- An event that resolves a source department id: its creation or the
lookup of its existing target record (the `dept_id_map` assignment of the
matched branch). -/
def resolves_dept (k : String) (e : SyncEvent) : Prop :=
  (∃ data res, e = SyncEvent.createDept k data res) ∨
  (∃ row, e = SyncEvent.matchedDept k row)

/-- The rows the engine appends to its working department list, read off the
create events of a trace (a successful create appends the row built from the
INSERT payload and the assigned id, with the del_flag/status keys absent,
modelled as empty strings). -/
def created_rows (ev : List SyncEvent) : List RuoYiDept :=
  ev.filterMap (fun e => match e with
    | SyncEvent.createDept fid data (some id) =>
      some ⟨id, data.parent_id, data.ancestors, data.dept_name, some data.level, fid, "", ""⟩
    | _ => none)

/-- Well-ordering and ancestor-path obligations of a department trace,
checked event by event against the events already seen.  For every create
event: (a) if the department's source parent resolves to another source
department, some earlier event resolved that parent; (b) a child attached to
the default root carries the fixed seed path; (c) if the assigned parent id
is the id of a department created earlier, the ancestor path is that
creation's path with the parent id appended; (d) if the assigned parent id is
the surrogate id of an earlier matched target row (other than the root), the
ancestor path extends the row's recorded path when that is non-empty and
falls back to the seed path extended with the parent id when the recorded
path is empty — the fallback fires even when the row's path was corrected by
an update in this same run, because the engine consults its stale local copy. -/
def dept_trace_ok (dict : List (String × FeishuDept)) :
    List SyncEvent → List SyncEvent → Prop
  | _, [] => True
  | seen, e :: rest =>
    ((∀ X data res, e = SyncEvent.createDept X data res →
        (∀ d, alist_find dict X = some d → d.parent_dept_id ≠ "0" →
          ∀ p, alist_find dict d.parent_dept_id = some p →
            ∃ er ∈ seen, resolves_dept d.parent_dept_id er) ∧
        data.ancestors ≠ "" ∧
        (data.parent_id = 100 → data.ancestors = "0,100") ∧
        (∀ P dataP idP, SyncEvent.createDept P dataP (some idP) ∈ seen →
          idP = data.parent_id →
          data.ancestors = dataP.ancestors ++ "," ++ toString data.parent_id) ∧
        (∀ P row, SyncEvent.matchedDept P row ∈ seen → row.dept_id = data.parent_id →
          data.parent_id ≠ 100 →
          data.ancestors = (if row.ancestors = "" then
            "0,100," ++ toString data.parent_id
          else row.ancestors ++ "," ++ toString data.parent_id)))) ∧
    dept_trace_ok dict (seen ++ [e]) rest

/-- Run invariant of the department phase, relating the engine state to the
trace emitted so far (with `db0` the database at phase start). -/
structure DeptTraceInv (dict : List (String × FeishuDept)) (db0 : DBState)
    (c : DeptCore) (ev : List SyncEvent) : Prop where
  depts_eq : c.ruoyi_depts = db0.depts ++ created_rows ev
  ids_nodup : (c.ruoyi_depts.map (fun r => r.dept_id)).Nodup
  ids_lt : ∀ r ∈ c.ruoyi_depts, r.dept_id < c.db.nextDeptId
  next_pos : 100 < c.db.nextDeptId
  map_vals : ∀ p ∈ c.ruoyi_dept_map, p.2 ∈ c.ruoyi_depts
  matched_rows : ∀ X row, SyncEvent.matchedDept X row ∈ ev → row ∈ c.ruoyi_depts
  created_anc : ∀ X data res, SyncEvent.createDept X data res ∈ ev → data.ancestors ≠ ""
  created_gt : ∀ X data id, SyncEvent.createDept X data (some id) ∈ ev → 100 < id
  keys_resolved : ∀ k, (alist_find c.dept_id_map k).isSome → ∃ e ∈ ev, resolves_dept k e

/- ===================== Shared concrete run configurations ================ -/

/-- A real-mode run in which every write — INSERT, UPDATE and disable —
succeeds (the dry-run id sources are unused in real mode). -/
def cfg_real_ok : SyncConfig :=
  ⟨false, fun _ => 0, fun _ => 0, fun _ => true, fun _ => true,
   fun _ => true, fun _ => true, fun _ => true, fun _ => true⟩

/-- A dry-mode run whose simulated `random.randint` ids happen to coincide
with the `lastrowid` values the real run would assign, namely the successive
values of the AUTO_INCREMENT counters of `db0`. -/
def cfg_dry_fresh (db0 : DBState) : SyncConfig :=
  ⟨true, fun k => db0.nextDeptId + k, fun k => db0.nextUserId + k,
   fun _ => true, fun _ => true, fun _ => true, fun _ => true,
   fun _ => true, fun _ => true⟩

/-- A target user whose correlation key does not occur in the (empty) source
extract: enabled, not deleted, not the protected admin account. -/
def stale_user : RuoYiUser :=
  ⟨2, "alice", "Alice", "a@x.com", "", "0", 100, "pw", "u-stale", "o1", "0", "0"⟩

/-- Target state for the idempotence failing input. -/
def stale_db : DBState := ⟨[], [stale_user], [], 1, 3⟩

/-- Target state for the dry-run divergence: one department row whose stored
parent id 1234 happens to equal the id the dry run will simulate. -/
def db_c2 : DBState := ⟨[⟨5000, 1234, "0,100", "C", some 1, "c", "0", "0"⟩], [], [], 5001, 1⟩

/-- Source extract for the dry-run divergence: a new parent and an existing
child. -/
def depts_c2 : List FeishuDept := [⟨"p", "P", "0", 0⟩, ⟨"c", "C", "p", 1⟩]

/-- A dry run in which `random.randint(1000, 9999)` happens to return 1234
for the simulated id of the first created department. -/
def cfg_dry_1234 : SyncConfig :=
  ⟨true, fun _ => 1234, fun _ => 0, fun _ => true, fun _ => true,
   fun _ => true, fun _ => true, fun _ => true, fun _ => true⟩

/-- A run in which the INSERT for department `a` fails. -/
def cfg_fail_a : SyncConfig :=
  ⟨false, fun _ => 0, fun _ => 0, fun fid => fid != "a", fun _ => true,
   fun _ => true, fun _ => true, fun _ => true, fun _ => true⟩

/-- Source extract for the coverage counterexample: department `a` whose
creation will fail, and its child `b` at source level 6 (beyond the engine's
fixed 0..5 level loop). -/
def depts_c3 : List FeishuDept := [⟨"a", "A", "0", 0⟩, ⟨"b", "B", "a", 6⟩]

/-- Target state for the stale-ancestors counterexample: grandparent `g`
with a correct ancestor path, parent `p` with an empty one. -/
def db_c4 : DBState :=
  ⟨[⟨200, 100, "0,100", "G", some 0, "g", "0", "0"⟩,
    ⟨300, 200, "", "P", some 1, "p", "0", "0"⟩], [], [], 1000, 1⟩

/-- Source extract for the stale-ancestors counterexample: the chain
`g → p → c` with only `c` new. -/
def depts_c4 : List FeishuDept :=
  [⟨"g", "G", "0", 0⟩, ⟨"p", "P", "g", 1⟩, ⟨"c", "C", "p", 2⟩]

/-- A source user without a union id. -/
def empty_union_user : FeishuUser := ⟨"", "o-e", "e1", "Nameless", "e@x.com", "d1"⟩

/-- The `feishu_dict` index built at the top of `sync_departments` (keyed by
source department id, later entries overwriting earlier ones in place). -/
def dept_dict (feishu_depts : List FeishuDept) : List (String × FeishuDept) :=
  feishu_depts.foldl (fun m d => alist_insert m d.dept_id d) []

/-- Simulation relation of the department phase between a dry run whose
simulated ids are the successive AUTO_INCREMENT values of `db0` and a real
all-success run: all visible working state coincides, the dry run has not
written, and the real run has consumed exactly one AUTO_INCREMENT value per
simulated id the dry run drew. -/
structure DeptSim (db0 : DBState) (cD cR : DeptCore) : Prop where
  map_eq : cD.dept_id_map = cR.dept_id_map
  rows_eq : cD.ruoyi_depts = cR.ruoyi_depts
  rmap_eq : cD.ruoyi_dept_map = cR.ruoyi_dept_map
  created_eq : cD.dept_created_count = cR.dept_created_count
  updated_eq : cD.dept_updated_count = cR.dept_updated_count
  dry_db : cD.db = db0
  next_dept : cR.db.nextDeptId = db0.nextDeptId + cD.randIdx
  users_eq : cR.db.users = db0.users
  roles_eq : cR.db.user_roles = db0.user_roles
  next_user : cR.db.nextUserId = db0.nextUserId

/-- Simulation relation of the user phase between the same two runs. -/
structure UserSim (db0 : DBState) (cD cR : UserCore) : Prop where
  new_eq : cD.new_count = cR.new_count
  upd_eq : cD.update_count = cR.update_count
  newl_eq : cD.new_users = cR.new_users
  updl_eq : cD.updated_users = cR.updated_users
  dry_db : cD.db = db0
  next_user : cR.db.nextUserId = db0.nextUserId + cD.randIdxU

/- ===================== C10: extraction fails closed ====================== -/

/-- C10: on a data-integrity failure (zero departments, zero users, or a
deduplicated user count that disagrees with the source's authoritative
total), the extraction exits with code 1, both intermediate CSV files are
deleted, and the sync orchestrator's step-0 gate aborts before any target
write. -/
theorem integrity_failure_fails_closed (deptCount userCount : Nat)
    (total : Option Nat)
    (h : deptCount = 0 ∨ userCount = 0 ∨ ∃ t, total = some t ∧ userCount ≠ t) :
    (fetch_main_validate deptCount userCount total).exitCode = 1 ∧
    (fetch_main_validate deptCount userCount total).usersCsvExists = false ∧
    (fetch_main_validate deptCount userCount total).deptsCsvExists = false ∧
    sync_db_main_gate (fetch_main_validate deptCount userCount total).exitCode = none := by
  by_cases h0 : deptCount = 0 ∨ userCount = 0
  · simp [fetch_main_validate, h0, sync_db_main_gate]
  · rcases h with h | h | ⟨t, ht, hne⟩
    · exact absurd (Or.inl h) h0
    · exact absurd (Or.inr h) h0
    · subst ht
      simp [fetch_main_validate, h0, hne, sync_db_main_gate]

/-- Witness for C10: the spec's own scenario, 97 deduplicated users against
an authoritative total of 100. -/
theorem integrity_failure_fails_closed_witness :
    (fetch_main_validate 40 97 (some 100)).exitCode = 1 ∧
    (fetch_main_validate 40 97 (some 100)).usersCsvExists = false ∧
    (fetch_main_validate 40 97 (some 100)).deptsCsvExists = false ∧
    sync_db_main_gate (fetch_main_validate 40 97 (some 100)).exitCode = none :=
  integrity_failure_fails_closed 40 97 (some 100)
    (Or.inr (Or.inr ⟨100, rfl, by decide⟩))

/- ===================== C9: update frame conditions ======================= -/

/-- C9: the department UPDATE leaves the persisted `feishu_dept_id`
correlation column of every row unchanged, and the user UPDATE leaves the
`feishu_union_id` correlation column and additionally the `user_name` and
`password` columns of every row unchanged: those columns are written only by
the INSERTs at creation. -/
theorem update_preserves_correlation_fields (db : DBState) (dtarget : Nat)
    (dd : DeptUpdateData) (utarget : Nat) (ud : UserData) :
    (db_update_dept db dtarget dd).depts.map (·.feishu_dept_id) =
      db.depts.map (·.feishu_dept_id) ∧
    (db_update_user db utarget ud).users.map
        (fun r => (r.feishu_union_id, r.user_name, r.password)) =
      db.users.map (fun r => (r.feishu_union_id, r.user_name, r.password)) := by
  constructor
  · simp only [db_update_dept, List.map_map]
    apply List.map_congr_left
    intro r _
    simp only [Function.comp_apply]
    split <;> rfl
  · simp only [db_update_user, List.map_map]
    apply List.map_congr_left
    intro r _
    simp only [Function.comp_apply]
    split <;> rfl

/- ===================== C8: correlation key determinism =================== -/

/-- C8: `generate_uuid_from_email` gives the same key to any two emails that
agree up to letter case (it is a pure function of the lowercased email, hence
deterministic across calls, runs and processes), and the empty email yields
the empty key. -/
theorem correlation_key_deterministic (e1 e2 : String)
    (h : lower_ascii e1 = lower_ascii e2) :
    generate_uuid_from_email e1 = generate_uuid_from_email e2 ∧
    generate_uuid_from_email "" = "" := by
  refine ⟨?_, rfl⟩
  have hemp : ∀ e : String, lower_ascii e = lower_ascii "" → e = "" := by
    intro e he
    have hdata : e.toList.map Char.toLower = [] := by
      have := congrArg String.toList he
      simpa [lower_ascii] using this
    have : e.toList = [] := List.map_eq_nil_iff.mp hdata
    exact String.ext (by simpa [String.toList] using this)
  by_cases h1 : e1 = ""
  · have h2 : e2 = "" := hemp e2 (by rw [← h, h1])
    rw [h1, h2]
  · have h2 : e2 ≠ "" := fun hh => h1 (hemp e1 (by rw [h, hh]))
    simp only [generate_uuid_from_email, if_neg h1, if_neg h2, h]

/-- Witness for C8: a concrete differently-cased pair. -/
theorem correlation_key_deterministic_witness :
    generate_uuid_from_email "A@B.com" = generate_uuid_from_email "a@b.com" ∧
    generate_uuid_from_email "" = "" :=
  correlation_key_deterministic "A@B.com" "a@b.com" (by decide)

/- ===================== C1: idempotence failing input ===================== -/

/-- C1 failing input: the first run issues one disable for the stale user
(setting `status = '1'`), but because the stale-user filter of `sync_users`,
unlike the department filter, never tests the status flag — and
`get_users` filters only on `del_flag` — the second run over the unchanged
source and the first run's output state issues the same disable again (and
every later run would too), refuting the zero-disables-on-second-run claim;
the second run's create and update counts are all zero as claimed. -/
theorem second_run_reissues_stale_user_disable :
    (run_sync cfg_real_ok [] [] stale_db).user_disable = 1 ∧
    (run_sync cfg_real_ok [] []
      (run_sync cfg_real_ok [] [] stale_db).db).user_disable = 1 ∧
    (run_sync cfg_real_ok [] []
      (run_sync cfg_real_ok [] [] stale_db).db).events =
      [SyncEvent.disableUser 2 "alice" "Alice"] ∧
    (run_sync cfg_real_ok [] []
      (run_sync cfg_real_ok [] [] stale_db).db).dept_created = 0 ∧
    (run_sync cfg_real_ok [] []
      (run_sync cfg_real_ok [] [] stale_db).db).dept_updated = 0 ∧
    (run_sync cfg_real_ok [] []
      (run_sync cfg_real_ok [] [] stale_db).db).dept_disabled = 0 ∧
    (run_sync cfg_real_ok [] []
      (run_sync cfg_real_ok [] [] stale_db).db).user_new = 0 ∧
    (run_sync cfg_real_ok [] []
      (run_sync cfg_real_ok [] [] stale_db).db).user_update = 0 := by
  decide

/- ===================== C2: dry-run divergence counterexample ============ -/

/-- C2 counterexample: with identical inputs, the real run classifies the
existing department `c` as an update (its stored parent id 1234 differs from
the freshly assigned 5001) while the dry run, whose simulated id for the new
parent is the in-range value 1234, classifies `c` as unchanged — the two
modes flag different entities for update and compute different changed-field
lists, because the dry-run create returns a `random.randint` id instead of
the id the INSERT would assign. -/
theorem dry_run_collision_divergence :
    (run_sync cfg_real_ok depts_c2 [] db_c2).dept_updated = 1 ∧
    (run_sync cfg_dry_1234 depts_c2 [] db_c2).dept_updated = 0 ∧
    (run_sync cfg_real_ok depts_c2 [] db_c2).events.filter
      (fun e => match e with | SyncEvent.updateDept _ _ _ => true | _ => false) =
      [SyncEvent.updateDept 5000 ⟨"C", 5001, "0,100,5001", 1⟩ [DeptDiff.dparent 1234 5001]] ∧
    (run_sync cfg_dry_1234 depts_c2 [] db_c2).events.filter
      (fun e => match e with | SyncEvent.updateDept _ _ _ => true | _ => false) = [] := by
  decide

/- ===================== C3: mapping coverage counterexample ============== -/

/-- C3 counterexample: after reconciliation the returned mapping has no entry
at all for either source department — `a` because its failed creation inserts
nothing into the mapping (there is no fallback entry with the default
top-level id), and `b` because the engine's level loop stops at level 5 and
never visits it — refuting "contains an entry for every department present in
the source extract". -/
theorem dept_mapping_coverage_gap :
    alist_find (sync_departments cfg_fail_a depts_c3 ⟨[], [], [], 1, 1⟩).dept_id_map "a"
      = none ∧
    alist_find (sync_departments cfg_fail_a depts_c3 ⟨[], [], [], 1, 1⟩).dept_id_map "b"
      = none ∧
    depts_c3.map (·.dept_id) = ["a", "b"] := by
  decide

/- ===================== C4: ancestor path counterexample ================= -/

/-- C4 counterexample: the engine corrects the matched parent `p`'s empty
ancestor path to "0,100,200" in the database, but the child `c` is then
created with ancestor path "0,100,300" — the fallback seed extended with the
parent's id — instead of the parent's path with the parent's id appended
("0,100,200,300"), because the update only wrote the database and the local
working row for `p` still carries the stale empty path. -/
theorem child_ancestors_stale_parent_path :
    (sync_departments cfg_real_ok depts_c4 db_c4).events =
      [SyncEvent.matchedDept "g" ⟨200, 100, "0,100", "G", some 0, "g", "0", "0"⟩,
       SyncEvent.matchedDept "p" ⟨300, 200, "", "P", some 1, "p", "0", "0"⟩,
       SyncEvent.updateDept 300 ⟨"P", 200, "0,100,200", 1⟩ [DeptDiff.dancestors],
       SyncEvent.createDept "c" ⟨"C", 300, "0,100,300", 0, 2, "c"⟩ (some 1000)] ∧
    ("0,100,300" : String) ≠ "0,100,200" ++ "," ++ toString (300 : Nat) := by
  decide

/- ===================== C6: no skip counter counterexample =============== -/

/-- C6 counterexample: running `sync_users` over the one skipped user returns
the very same result as running it over the empty list, except for the one
warning event — every returned counter (created, updated, disabled) and list
is identical, so no component of the engine's output counts the skipped user:
the skip counter the claim asserts does not exist in `sync_users`. -/
theorem empty_union_skip_has_no_counter :
    sync_users cfg_real_ok [empty_union_user] [] [] [] ⟨[], [], [], 1, 1⟩ =
      { sync_users cfg_real_ok [] [] [] [] ⟨[], [], [], 1, 1⟩ with
        events := [SyncEvent.skipUser "e1" "Nameless"] } := by
  decide

/- ===================== C5: surname table application ===================== -/

/-- A character eliminated by its own replacement step cannot reappear when
the replacement text does not contain it. -/
theorem replace_char_no_self {c : Char} {repl s : List Char} (h : c ∉ repl) :
    c ∉ replace_char c repl s := by
  intro hc
  rcases List.mem_flatMap.mp hc with ⟨a, _, hfa⟩
  by_cases hac : a = c
  · rw [if_pos hac] at hfa
    exact h hfa
  · rw [if_neg hac] at hfa
    exact hac (List.mem_singleton.mp hfa ▸ rfl)

/-- A replacement step introduces no character that was in neither the input
nor the replacement text. -/
theorem replace_char_no_new {x c : Char} {repl s : List Char} (hr : x ∉ repl)
    (hs : x ∉ s) : x ∉ replace_char c repl s := by
  intro hx
  rcases List.mem_flatMap.mp hx with ⟨a, ha, hfa⟩
  by_cases hac : a = c
  · rw [if_pos hac] at hfa
    exact hr hfa
  · rw [if_neg hac] at hfa
    exact hs (List.mem_singleton.mp hfa ▸ ha)

/-- Once a character is gone it stays gone through the remaining replacement
steps, provided no replacement text contains it. -/
theorem foldl_replace_keeps_out :
    ∀ (l : List (Char × String)) (s : List Char) (c : Char), c ∉ s →
      (∀ q ∈ l, c ∉ bracketed q.2) →
      c ∉ l.foldl (fun s p => replace_char p.1 (bracketed p.2) s) s := by
  intro l
  induction l with
  | nil => intro s c hs _; simpa using hs
  | cons q t ih =>
    intro s c hs hq
    simp only [List.foldl_cons]
    exact ih _ c (replace_char_no_new (hq q (List.mem_cons_self q t)) hs)
      (fun r hr => hq r (List.mem_cons_of_mem q hr))

/-- Any character that occurs as a key of the replacement table is absent
from the result of the replacement fold, whatever the input. -/
theorem foldl_replace_eliminates :
    ∀ (l : List (Char × String)) (s : List Char) (c : Char) (py : String),
      (c, py) ∈ l → (∀ q ∈ l, c ∉ bracketed q.2) →
      c ∉ l.foldl (fun s p => replace_char p.1 (bracketed p.2) s) s := by
  intro l
  induction l with
  | nil => intro s c py h _; simp at h
  | cons q t ih =>
    intro s c py h hq
    simp only [List.foldl_cons]
    rcases List.mem_cons.mp h with h | h
    · have hc : q.1 = c := by rw [← h]
      rw [hc]
      exact foldl_replace_keeps_out t _ c
        (replace_char_no_self (hc ▸ hq q (List.mem_cons_self q t)))
        (fun r hr => hq r (List.mem_cons_of_mem q hr))
    · exact ih _ c py h (fun r hr => hq r (List.mem_cons_of_mem q hr))

/-- C5 counterexample: in the name `王曾` the ambiguous character `曾` stands
in the second (given-name) position, yet `name_to_pinyin` renders it with the
surname reading `zeng` rather than its default reading `ceng` — the engine
applies the surname table at every position, refuting the only-first-position
claim.  (With the default reading the output would have been `ceng.wang`.) -/
theorem given_name_position_forced_to_surname_reading :
    name_to_pinyin "王曾" = "zeng.wang" ∧
    pinyin_default '曾' = some "ceng" ∧
    name_to_pinyin "王曾" ≠ "ceng.wang" := by
  decide

/-- C5 amended: `name_to_pinyin` forces every ambiguous character of
`SURNAME_PINYIN` to its surname reading at every position of the name, not
only the surname position — after the pre-transliteration replacement no
occurrence of any table character remains anywhere in the string handed to
the transliterator (so no position can receive the default reading), and
concretely a table character in a given-name position also resolves to the
surname reading. -/
theorem ambiguous_chars_replaced_at_every_position (c : Char) (py : String)
    (name : List Char) (h : (c, py) ∈ SURNAME_PINYIN) :
    c ∉ surname_replace name ∧ name_to_pinyin "王曾" = "zeng.wang" := by
  have hall : ∀ p ∈ SURNAME_PINYIN, ∀ q ∈ SURNAME_PINYIN, p.1 ∉ bracketed q.2 := by
    decide
  refine ⟨?_, by decide⟩
  exact foldl_replace_eliminates SURNAME_PINYIN name c py h
    (fun q hq => hall (c, py) h q hq)

/-- Witness for the amended C5: the table entry for `曾` applied to a name
carrying it in the middle position. -/
theorem ambiguous_chars_replaced_at_every_position_witness :
    '曾' ∉ surname_replace ("小曾明".toList) ∧ name_to_pinyin "王曾" = "zeng.wang" :=
  ambiguous_chars_replaced_at_every_position '曾' "zeng" ("小曾明".toList) (by decide)

/- ===================== Writer-fold structure lemmas ====================== -/

/-- Appending input lists composes writer folds. -/
theorem writer_fold_append {C A E : Type} (step : C → A → C × List E)
    (l1 l2 : List A) (acc : C × List E) :
    writer_fold step acc (l1 ++ l2) = writer_fold step (writer_fold step acc l1) l2 := by
  simp [writer_fold, List.foldl_append]

/-- The resulting state of a writer fold does not depend on the event
accumulator, and the emitted events are appended after it. -/
theorem writer_fold_split {C A E : Type} (step : C → A → C × List E) :
    ∀ (l : List A) (c : C) (ev : List E),
      writer_fold step (c, ev) l =
        ((writer_fold step (c, []) l).1, ev ++ (writer_fold step (c, []) l).2) := by
  intro l
  induction l with
  | nil => intro c ev; simp [writer_fold]
  | cons a t ih =>
    intro c ev
    simp only [writer_fold, List.foldl_cons] at *
    rw [ih ((step c a).1) (ev ++ (step c a).2), ih ((step c a).1) ([] ++ (step c a).2)]
    simp

/-- Every event a writer fold emits was emitted by the step function on some
element of the input list. -/
theorem writer_fold_events_from {C A E : Type} (step : C → A → C × List E)
    (P : A → E → Prop) (hstep : ∀ c a, ∀ e ∈ (step c a).2, P a e) :
    ∀ (l : List A) (c : C), ∀ e ∈ (writer_fold step (c, []) l).2, ∃ a ∈ l, P a e := by
  intro l
  induction l with
  | nil => intro c e he; simp [writer_fold] at he
  | cons a t ih =>
    intro c e he
    have hcons : writer_fold step (c, []) (a :: t) =
        writer_fold step ((step c a).1, [] ++ (step c a).2) t := by
      simp [writer_fold]
    rw [hcons, writer_fold_split] at he
    simp only [List.nil_append] at he
    rcases List.mem_append.mp he with h | h
    · exact ⟨a, List.mem_cons_self a t, hstep c a e h⟩
    · rcases ih ((step c a).1) e h with ⟨b, hb, hp⟩
      exact ⟨b, List.mem_cons_of_mem a hb, hp⟩

/- ===================== C6 amended: skip is warning-only ================== -/

/-- The skipped-user step: a user without union id produces exactly the
warning and leaves the engine state untouched. -/
theorem user_step_skip (cfg : SyncConfig) (m : List (String × Nat))
    (rd : List RuoYiDept) (rdm : List (String × RuoYiDept))
    (rum : List (String × RuoYiUser)) (c : UserCore) (u : FeishuUser)
    (hu : u.union_id = "") :
    user_step cfg m rd rdm rum c u = (c, [SyncEvent.skipUser u.user_id u.name]) := by
  simp [user_step, hu]

/-- C6 amended: a source user with empty correlation key is skipped with a
warning and nothing else — the run over a list containing it returns exactly
the run over the list without it (same created/updated/disabled counters,
same detail lists, same database), with the single warning event spliced into
the trace; in particular no create, update or disable is performed for the
user, it is counted nowhere, and no skip counter exists to be incremented. -/
theorem empty_union_user_only_warns (cfg : SyncConfig) (m : List (String × Nat))
    (rd : List RuoYiDept) (rdm : List (String × RuoYiDept)) (db : DBState)
    (pre post : List FeishuUser) (u : FeishuUser) (hu : u.union_id = "") :
    ∃ e1 e2 : List SyncEvent,
      (sync_users cfg (pre ++ post) m rd rdm db).events = e1 ++ e2 ∧
      sync_users cfg (pre ++ u :: post) m rd rdm db =
        { sync_users cfg (pre ++ post) m rd rdm db with
          events := e1 ++ SyncEvent.skipUser u.user_id u.name :: e2 } := by
  have hunions : ((pre ++ u :: post).map (·.union_id)).filter (· ≠ "") =
      ((pre ++ post).map (·.union_id)).filter (· ≠ "") := by
    simp [hu]
  simp only [sync_users]
  set rum := (db_get_users db).foldl
    (fun m u => if u.feishu_union_id ≠ "" then alist_insert m u.feishu_union_id u else m) []
    with hrum
  set c0 : UserCore := ⟨0, 0, [], [], 0, db⟩ with hc0
  set step := user_step cfg m rd rdm rum with hstep
  have heta : writer_fold step (writer_fold step (c0, []) pre) post =
      writer_fold step ((writer_fold step (c0, []) pre).1,
        (writer_fold step (c0, []) pre).2) post := rfl
  have hloop2 : writer_fold step (c0, []) (pre ++ post) =
      ((writer_fold step ((writer_fold step (c0, []) pre).1, []) post).1,
       (writer_fold step (c0, []) pre).2 ++
         (writer_fold step ((writer_fold step (c0, []) pre).1, []) post).2) := by
    rw [writer_fold_append step pre post (c0, []), heta, writer_fold_split step post]
  have hskip : step (writer_fold step (c0, []) pre).1 u =
      ((writer_fold step (c0, []) pre).1, [SyncEvent.skipUser u.user_id u.name]) := by
    rw [hstep]
    exact user_step_skip cfg m rd rdm rum _ u hu
  have hloop1 : writer_fold step (c0, []) (pre ++ u :: post) =
      ((writer_fold step ((writer_fold step (c0, []) pre).1, []) post).1,
       (writer_fold step (c0, []) pre).2 ++
         SyncEvent.skipUser u.user_id u.name ::
           (writer_fold step ((writer_fold step (c0, []) pre).1, []) post).2) := by
    rw [writer_fold_append step pre (u :: post) (c0, [])]
    have hcons : writer_fold step (writer_fold step (c0, []) pre) (u :: post) =
        writer_fold step ((step (writer_fold step (c0, []) pre).1 u).1,
          (writer_fold step (c0, []) pre).2 ++
            (step (writer_fold step (c0, []) pre).1 u).2) post := by
      simp [writer_fold]
    rw [hcons, hskip]
    rw [writer_fold_split step post]
    simp
  refine ⟨(writer_fold step (c0, []) pre).2,
          (writer_fold step ((writer_fold step (c0, []) pre).1, []) post).2 ++
            ((db_get_users db).filter
              (user_disable_filter (((pre ++ post).map (·.union_id)).filter (· ≠ "")))).map
              (fun v => SyncEvent.disableUser v.user_id v.user_name v.nick_name),
          ?_, ?_⟩
  · rw [hloop2]
    simp
  · rw [hloop1, hloop2, hunions]
    simp

/-- Witness for the amended C6: a singleton skipped user against an empty
target. -/
theorem empty_union_user_only_warns_witness :
    ∃ e1 e2 : List SyncEvent,
      (sync_users cfg_real_ok ([] ++ []) [] [] [] ⟨[], [], [], 1, 1⟩).events = e1 ++ e2 ∧
      sync_users cfg_real_ok ([] ++ empty_union_user :: []) [] [] [] ⟨[], [], [], 1, 1⟩ =
        { sync_users cfg_real_ok ([] ++ []) [] [] [] ⟨[], [], [], 1, 1⟩ with
          events := e1 ++
            SyncEvent.skipUser empty_union_user.user_id empty_union_user.name :: e2 } :=
  empty_union_user_only_warns cfg_real_ok [] [] [] ⟨[], [], [], 1, 1⟩ [] []
    empty_union_user rfl

/- ===================== C7: stale-user disable ============================ -/

/-- Structure facts about `alist_insert`: a member of the updated dictionary
is a member of the old one or the inserted pair. -/
theorem mem_alist_insert {α : Type} {m : List (String × α)} {k : String} {v : α}
    {p : String × α} (h : p ∈ alist_insert m k v) : p ∈ m ∨ p = (k, v) := by
  unfold alist_insert at h
  split at h
  · rcases List.mem_map.mp h with ⟨q, hq, hpq⟩
    by_cases hk : q.1 == k
    · right
      rw [if_pos hk] at hpq
      exact hpq.symm
    · left
      rw [if_neg hk] at hpq
      exact hpq ▸ hq
  · rcases List.mem_append.mp h with h | h
    · exact Or.inl h
    · exact Or.inr (List.mem_singleton.mp h)

/-- A successful dictionary lookup returns a stored pair with the looked-up
key. -/
theorem alist_find_mem {α : Type} {m : List (String × α)} {k : String} {v : α}
    (h : alist_find m k = some v) : (k, v) ∈ m := by
  unfold alist_find at h
  rcases hf : m.find? (fun p => p.1 == k) with _ | q
  · rw [hf] at h
    simp at h
  · rw [hf] at h
    have hq := List.find?_some hf
    have hmem := List.mem_of_find?_eq_some hf
    obtain ⟨q1, q2⟩ := q
    have hk : q1 = k := by simpa using hq
    have hv : q2 = v := by simpa using h
    rw [← hk, ← hv]
    exact hmem

/-- Every value stored in the union-id dictionary of `sync_users` is one of
the target users it was built from, keyed by its own union id. -/
theorem user_map_values :
    ∀ (l : List RuoYiUser) (m0 : List (String × RuoYiUser))
      (p : String × RuoYiUser),
      p ∈ l.foldl
        (fun m u => if u.feishu_union_id ≠ "" then alist_insert m u.feishu_union_id u else m)
        m0 →
      p ∈ m0 ∨ (p.2 ∈ l ∧ p.2.feishu_union_id = p.1) := by
  intro l
  induction l with
  | nil => intro m0 p h; exact Or.inl h
  | cons u t ih =>
    intro m0 p h
    simp only [List.foldl_cons] at h
    rcases ih _ p h with h | h
    · by_cases hu : u.feishu_union_id ≠ ""
      · rw [if_pos hu] at h
        rcases mem_alist_insert h with h | h
        · exact Or.inl h
        · right
          rw [h]
          exact ⟨List.mem_cons_self u t, rfl⟩
      · rw [if_neg hu] at h
        exact Or.inl h
    · exact Or.inr ⟨List.mem_cons_of_mem u h.1, h.2⟩

/-- Per-event characterisation of one `sync_users` loop iteration: whatever
the configuration, an update event addresses the user the union-id dictionary
returned for the source user's (non-empty) union id, a create event carries
the source user's union id as its correlation value, and the loop never emits
a disable event. -/
theorem user_step_events_ok (cfg : SyncConfig) (m : List (String × Nat))
    (rd : List RuoYiDept) (rdm : List (String × RuoYiDept))
    (rum : List (String × RuoYiUser)) (c : UserCore) (fu : FeishuUser) :
    ∀ e ∈ (user_step cfg m rd rdm rum c fu).2,
      (match e with
       | SyncEvent.updateUser tid _ _ =>
         ∃ r, alist_find rum fu.union_id = some r ∧ fu.union_id ≠ "" ∧ r.user_id = tid
       | SyncEvent.createUser data _ => data.feishu_union_id = fu.union_id
       | SyncEvent.disableUser _ _ _ => False
       | _ => True) := by
  intro e he
  by_cases hu : fu.union_id = ""
  · simp only [user_step, if_pos hu, List.mem_singleton] at he
    subst he
    trivial
  · simp only [user_step, if_neg hu] at he
    split at he
    · rename_i existing heq
      split at he
      · simp only [List.mem_singleton] at he
        subst he
        exact ⟨existing, heq, hu, rfl⟩
      · simp at he
    · split at he
      · split at he <;> (simp only [List.mem_singleton] at he; subst he; rfl)
      · simp only [List.mem_singleton] at he
        subst he
        rfl

/-- C7: a target user (visible to the engine, i.e. not soft-deleted) whose
persisted correlation field is non-empty, absent from the current source
union-id set, and not the protected admin account receives exactly one
disable call and no update call, and no create call carries its correlation
key; moreover the disable operation itself only flips the status flag of the
addressed rows and never deletes a row. -/
theorem stale_user_single_disable (cfg : SyncConfig) (feishu_users : List FeishuUser)
    (m : List (String × Nat)) (rd : List RuoYiDept) (rdm : List (String × RuoYiDept))
    (db : DBState) (t : RuoYiUser)
    (ht : t ∈ db.users) (hdel : t.del_flag = "0") (hkey : t.feishu_union_id ≠ "")
    (habsent : ∀ fu ∈ feishu_users, fu.union_id ≠ t.feishu_union_id)
    (hadmin : t.user_name ≠ "admin")
    (hnodup : (db.users.map (fun r => r.user_id)).Nodup) :
    (sync_users cfg feishu_users m rd rdm db).events.count
        (SyncEvent.disableUser t.user_id t.user_name t.nick_name) = 1 ∧
    (∀ e ∈ (sync_users cfg feishu_users m rd rdm db).events,
        ∀ data info, e ≠ SyncEvent.updateUser t.user_id data info) ∧
    (∀ e ∈ (sync_users cfg feishu_users m rd rdm db).events,
        ∀ data res, e = SyncEvent.createUser data res →
          data.feishu_union_id ≠ t.feishu_union_id) ∧
    (∀ (dbx : DBState) (target : Nat),
        (db_disable_user dbx target).users.length = dbx.users.length ∧
        (db_disable_user dbx target).users.map (fun r => { r with status := "" }) =
          dbx.users.map (fun r => { r with status := "" })) := by
  have hev : (sync_users cfg feishu_users m rd rdm db).events =
      (writer_fold
        (user_step cfg m rd rdm
          ((db_get_users db).foldl
            (fun mm u => if u.feishu_union_id ≠ "" then alist_insert mm u.feishu_union_id u else mm) []))
        (⟨0, 0, [], [], 0, db⟩, []) feishu_users).2 ++
      ((db_get_users db).filter
        (user_disable_filter ((feishu_users.map (·.union_id)).filter (· ≠ "")))).map
        (fun u => SyncEvent.disableUser u.user_id u.user_name u.nick_name) := rfl
  have htru : t ∈ db_get_users db := by
    simp only [db_get_users]
    exact List.mem_filter.mpr ⟨ht, by simp [hdel]⟩
  have hnmem : t.feishu_union_id ∉ (feishu_users.map (·.union_id)).filter (· ≠ "") := by
    intro hmem
    rcases List.mem_filter.mp hmem with ⟨hmem2, _⟩
    rcases List.mem_map.mp hmem2 with ⟨fu, hfu, hfeq⟩
    exact habsent fu hfu hfeq
  have hpred : user_disable_filter ((feishu_users.map (·.union_id)).filter (· ≠ "")) t = true := by
    simp only [user_disable_filter, Bool.and_eq_true, bne_iff_ne, ne_eq,
      Bool.not_eq_true']
    refine ⟨⟨hkey, ?_⟩, hadmin⟩
    exact Bool.not_eq_true _ ▸ (fun hc => hnmem (List.mem_of_elem_eq_true hc))
  have htd : t ∈ (db_get_users db).filter
      (user_disable_filter ((feishu_users.map (·.union_id)).filter (· ≠ ""))) :=
    List.mem_filter.mpr ⟨htru, hpred⟩
  have hsub : ((db_get_users db).filter
      (user_disable_filter ((feishu_users.map (·.union_id)).filter (· ≠ "")))).Sublist db.users :=
    (List.filter_sublist _).trans (List.filter_sublist _)
  have hnodup_td : (((db_get_users db).filter
      (user_disable_filter ((feishu_users.map (·.union_id)).filter (· ≠ "")))).map
        (fun r => r.user_id)).Nodup :=
    List.Nodup.sublist (List.Sublist.map _ hsub) hnodup
  have hinj := List.inj_on_of_nodup_map hnodup_td
  have hnodup_ev : (((db_get_users db).filter
      (user_disable_filter ((feishu_users.map (·.union_id)).filter (· ≠ "")))).map
        (fun u => SyncEvent.disableUser u.user_id u.user_name u.nick_name)).Nodup := by
    apply List.Nodup.map_on _ (List.Nodup.of_map _ hnodup_td)
    intro x hx y hy hxy
    injection hxy with h1 h2 h3
    exact hinj hx hy h1
  have hloopP := writer_fold_events_from
    (user_step cfg m rd rdm
      ((db_get_users db).foldl
        (fun mm u => if u.feishu_union_id ≠ "" then alist_insert mm u.feishu_union_id u else mm) []))
    (fun fu e =>
      (match e with
       | SyncEvent.updateUser tid _ _ =>
         ∃ r, alist_find ((db_get_users db).foldl
            (fun mm u => if u.feishu_union_id ≠ "" then alist_insert mm u.feishu_union_id u else mm) [])
            fu.union_id = some r ∧ fu.union_id ≠ "" ∧ r.user_id = tid
       | SyncEvent.createUser data _ => data.feishu_union_id = fu.union_id
       | SyncEvent.disableUser _ _ _ => False
       | _ => True))
    (fun c fu => user_step_events_ok cfg m rd rdm _ c fu)
    feishu_users ⟨0, 0, [], [], 0, db⟩
  refine ⟨?_, ?_, ?_, ?_⟩
  · rw [hev, List.count_append]
    have h0 : (writer_fold
        (user_step cfg m rd rdm
          ((db_get_users db).foldl
            (fun mm u => if u.feishu_union_id ≠ "" then alist_insert mm u.feishu_union_id u else mm) []))
        (⟨0, 0, [], [], 0, db⟩, []) feishu_users).2.count
        (SyncEvent.disableUser t.user_id t.user_name t.nick_name) = 0 := by
      apply List.count_eq_zero.mpr
      intro hmem
      rcases hloopP _ hmem with ⟨fu, _, hP⟩
      exact hP
    rw [h0]
    have h1 := List.count_eq_one_of_mem hnodup_ev
      (List.mem_map_of_mem (fun u => SyncEvent.disableUser u.user_id u.user_name u.nick_name) htd)
    rw [h1]
  · intro e hel data info hEq
    subst hEq
    rw [hev] at hel
    rcases List.mem_append.mp hel with hL | hR
    · rcases hloopP _ hL with ⟨fu, hfu, hP⟩
      rcases hP with ⟨r, hfind, _, hrid⟩
      have hrmem := alist_find_mem hfind
      rcases user_map_values (db_get_users db) [] _ hrmem with h | ⟨hrin, hrkey⟩
      · simp at h
      · have hrdb : r ∈ db.users := List.mem_of_mem_filter hrin
        have hrt : r = t := List.inj_on_of_nodup_map hnodup hrdb ht hrid
        rw [hrt] at hrkey
        exact habsent fu hfu hrkey.symm
    · rcases List.mem_map.mp hR with ⟨u, _, h⟩
      simp at h
  · intro e hel data res hEq
    subst hEq
    rw [hev] at hel
    rcases List.mem_append.mp hel with hL | hR
    · rcases hloopP _ hL with ⟨fu, hfu, hP⟩
      rw [hP]
      exact habsent fu hfu
    · rcases List.mem_map.mp hR with ⟨u, _, h⟩
      simp at h
  · intro dbx target
    constructor
    · simp [db_disable_user]
    · simp only [db_disable_user, List.map_map]
      apply List.map_congr_left
      intro r _
      simp only [Function.comp_apply]
      split <;> rfl

/-- Witness for C7: the concrete stale user against an empty source extract. -/
theorem stale_user_single_disable_witness :
    (sync_users cfg_real_ok [] [] [] [] stale_db).events.count
        (SyncEvent.disableUser stale_user.user_id stale_user.user_name
          stale_user.nick_name) = 1 ∧
    (∀ e ∈ (sync_users cfg_real_ok [] [] [] [] stale_db).events,
        ∀ data info, e ≠ SyncEvent.updateUser stale_user.user_id data info) ∧
    (∀ e ∈ (sync_users cfg_real_ok [] [] [] [] stale_db).events,
        ∀ data res, e = SyncEvent.createUser data res →
          data.feishu_union_id ≠ stale_user.feishu_union_id) ∧
    (∀ (dbx : DBState) (target : Nat),
        (db_disable_user dbx target).users.length = dbx.users.length ∧
        (db_disable_user dbx target).users.map (fun r => { r with status := "" }) =
          dbx.users.map (fun r => { r with status := "" })) :=
  stale_user_single_disable cfg_real_ok [] [] [] [] stale_db stale_user
    (by decide) (by decide) (by decide) (by intro fu h; simp at h) (by decide) (by decide)

/- ===================== Dictionary and lookup lemmas ====================== -/

/-- Key search skips a non-matching head pair. -/
theorem find_key_cons_neg {α : Type} (p : String × α) (t : List (String × α))
    (x : String) (h : ¬ (p.1 == x) = true) :
    (p :: t).find? (fun q => q.1 == x) = t.find? (fun q => q.1 == x) :=
  List.find?_cons_of_neg t h

/-- Key search returns a matching head pair. -/
theorem find_key_cons_pos {α : Type} (p : String × α) (t : List (String × α))
    (x : String) (h : (p.1 == x) = true) :
    (p :: t).find? (fun q => q.1 == x) = some p :=
  List.find?_cons_of_pos t h

/-- In the overwrite branch of `alist_insert`, searching the overwritten key
finds the new pair as soon as the key occurs. -/
theorem find_overwrite_self {α : Type} :
    ∀ (m : List (String × α)) (k : String) (v : α), (∃ q ∈ m, q.1 = k) →
      (m.map (fun p => if p.1 == k then (k, v) else p)).find? (fun p => p.1 == k) =
        some (k, v) := by
  intro m k v h
  induction m with
  | nil => simp at h
  | cons p t ih =>
    by_cases hk : (p.1 == k) = true
    · simp only [List.map_cons, if_pos hk]
      exact find_key_cons_pos _ _ _ (by simp)
    · simp only [List.map_cons, if_neg hk]
      rw [find_key_cons_neg _ _ _ hk]
      apply ih
      rcases h with ⟨q, hq, hq1⟩
      rcases List.mem_cons.mp hq with h | h
      · exact absurd (by simp [h ▸ hq1]) hk
      · exact ⟨q, h, hq1⟩

/-- The overwrite branch of `alist_insert` does not affect searches for other
keys. -/
theorem find_overwrite_ne {α : Type} :
    ∀ (m : List (String × α)) (k : String) (v : α) (x : String), x ≠ k →
      (m.map (fun p => if p.1 == k then (k, v) else p)).find? (fun p => p.1 == x) =
        m.find? (fun p => p.1 == x) := by
  intro m k v x hx
  induction m with
  | nil => simp
  | cons p t ih =>
    by_cases hk : (p.1 == k) = true
    · have hp1 : p.1 = k := by simpa using hk
      have hpx : ¬ (p.1 == x) = true := by simp [hp1, Ne.symm hx]
      have hkx : ¬ ((k : String) == x) = true := by simpa using Ne.symm hx
      simp only [List.map_cons, if_pos hk]
      rw [find_key_cons_neg _ _ _ (by simpa using hkx),
        find_key_cons_neg _ _ _ hpx]
      exact ih
    · by_cases hpx : (p.1 == x) = true
      · simp only [List.map_cons, if_neg hk]
        rw [find_key_cons_pos _ _ _ hpx, find_key_cons_pos _ _ _ hpx]
      · simp only [List.map_cons, if_neg hk]
        rw [find_key_cons_neg _ _ _ hpx, find_key_cons_neg _ _ _ hpx]
        exact ih

/-- Searching for a key other than the appended one ignores the appended
pair. -/
theorem find_append_ne {α : Type} (m : List (String × α)) (k : String)
    (v : α) (x : String) (hx : x ≠ k) :
    (m ++ [(k, v)]).find? (fun p => p.1 == x) = m.find? (fun p => p.1 == x) := by
  rw [List.find?_append]
  have h1 : ([((k, v) : String × α)]).find? (fun p => p.1 == x) = none := by
    simp [Ne.symm hx]
  rw [h1, Option.or_none]

/-- Searching the appended key finds the appended pair when the key was
absent. -/
theorem find_append_self {α : Type} (m : List (String × α)) (k : String)
    (v : α) (h : m.find? (fun p => p.1 == k) = none) :
    (m ++ [(k, v)]).find? (fun p => p.1 == k) = some (k, v) := by
  rw [List.find?_append, h, Option.none_or]
  simp

/-- Looking up the inserted key finds the inserted value. -/
theorem alist_find_insert_self {α : Type} (m : List (String × α)) (k : String)
    (v : α) : alist_find (alist_insert m k v) k = some v := by
  unfold alist_insert alist_find
  split
  · rename_i hsome
    rcases Option.isSome_iff_exists.mp hsome with ⟨q, hq⟩
    have hmem := List.mem_of_find?_eq_some hq
    have hpred : q.1 = k := by simpa using List.find?_some hq
    rw [find_overwrite_self m k v ⟨q, hmem, hpred⟩]
    rfl
  · rename_i hnone
    rw [find_append_self m k v (Option.not_isSome_iff_eq_none.mp hnone)]
    rfl

/-- Looking up a different key is unaffected by an insertion. -/
theorem alist_find_insert_ne {α : Type} (m : List (String × α)) (k : String)
    (v : α) (x : String) (hx : x ≠ k) :
    alist_find (alist_insert m k v) x = alist_find m x := by
  unfold alist_insert alist_find
  split
  · rw [find_overwrite_ne m k v x hx]
  · rw [find_append_ne m k v x hx]

/-- Insertion can only add lookup results, never remove them. -/
theorem alist_find_insert_isSome {α : Type} (m : List (String × α)) (k : String)
    (v : α) (x : String) (h : (alist_find m x).isSome) :
    (alist_find (alist_insert m k v) x).isSome := by
  by_cases hx : x = k
  · rw [hx, alist_find_insert_self]
    rfl
  · rw [alist_find_insert_ne m k v x hx]
    exact h

/-- Every pair of the engine's source-department dictionary comes from the
seed dictionary or is a source department keyed by its own id. -/
theorem dept_dict_values :
    ∀ (l : List FeishuDept) (m0 : List (String × FeishuDept)) (p : String × FeishuDept),
      p ∈ l.foldl (fun m d => alist_insert m d.dept_id d) m0 →
      p ∈ m0 ∨ (p.2 ∈ l ∧ p.2.dept_id = p.1) := by
  intro l
  induction l with
  | nil => intro m0 p h; exact Or.inl h
  | cons d t ih =>
    intro m0 p h
    simp only [List.foldl_cons] at h
    rcases ih _ p h with h | h
    · rcases mem_alist_insert h with h | h
      · exact Or.inl h
      · right
        rw [h]
        exact ⟨List.mem_cons_self d t, rfl⟩
    · exact Or.inr ⟨List.mem_cons_of_mem d h.1, h.2⟩

/-- Folding insertions preserves key presence. -/
theorem fold_insert_isSome :
    ∀ (l : List FeishuDept) (m0 : List (String × FeishuDept)) (x : String),
      (alist_find m0 x).isSome →
      (alist_find (l.foldl (fun m d => alist_insert m d.dept_id d) m0) x).isSome := by
  intro l
  induction l with
  | nil => intro m0 x h; exact h
  | cons d t ih =>
    intro m0 x h
    simp only [List.foldl_cons]
    exact ih _ x (alist_find_insert_isSome m0 d.dept_id d x h)

/-- Every source department's id is a key of the engine's dictionary. -/
theorem dict_key_present :
    ∀ (l : List FeishuDept) (m0 : List (String × FeishuDept)) (d : FeishuDept),
      d ∈ l →
      (alist_find (l.foldl (fun m dd => alist_insert m dd.dept_id dd) m0) d.dept_id).isSome := by
  intro l
  induction l with
  | nil => intro m0 d h; simp at h
  | cons d0 t ih =>
    intro m0 d h
    simp only [List.foldl_cons]
    rcases List.mem_cons.mp h with h | h
    · subst h
      exact fold_insert_isSome t _ d.dept_id
        (by rw [alist_find_insert_self]; rfl)
    · exact ih _ d h

/-- Every value of the feishu-id-keyed target-department dictionary is one of
the rows it was built from. -/
theorem ruoyi_map_values :
    ∀ (l : List RuoYiDept) (m0 : List (String × RuoYiDept)) (p : String × RuoYiDept),
      p ∈ l.foldl
        (fun m d => if d.feishu_dept_id ≠ "" then alist_insert m d.feishu_dept_id d else m) m0 →
      p ∈ m0 ∨ p.2 ∈ l := by
  intro l
  induction l with
  | nil => intro m0 p h; exact Or.inl h
  | cons d t ih =>
    intro m0 p h
    simp only [List.foldl_cons] at h
    rcases ih _ p h with h | h
    · by_cases hd : d.feishu_dept_id ≠ ""
      · rw [if_pos hd] at h
        rcases mem_alist_insert h with h | h
        · exact Or.inl h
        · right
          rw [h]
          exact List.mem_cons_self d t
      · rw [if_neg hd] at h
        exact Or.inl h
    · exact Or.inr (List.mem_cons_of_mem d h)

/-- Row search skips a head row with a different id. -/
theorem find_row_cons_neg (r0 : RuoYiDept) (t : List RuoYiDept) (x : Nat)
    (h : ¬ (r0.dept_id == x) = true) :
    (r0 :: t).find? (fun r => r.dept_id == x) = t.find? (fun r => r.dept_id == x) :=
  List.find?_cons_of_neg t h

/-- Row search returns a head row with the searched id. -/
theorem find_row_cons_pos (r0 : RuoYiDept) (t : List RuoYiDept) (x : Nat)
    (h : (r0.dept_id == x) = true) :
    (r0 :: t).find? (fun r => r.dept_id == x) = some r0 :=
  List.find?_cons_of_pos t h

/-- With pairwise-distinct surrogate ids, searching the working list for a
member row's id finds exactly that row. -/
theorem find_row_unique :
    ∀ (l : List RuoYiDept), (l.map (fun r => r.dept_id)).Nodup →
      ∀ row ∈ l, l.find? (fun r => r.dept_id == row.dept_id) = some row := by
  intro l
  induction l with
  | nil => intro _ row h; simp at h
  | cons r0 t ih =>
    intro hnd row hrow
    rcases List.mem_cons.mp hrow with h | h
    · subst h
      exact find_row_cons_pos _ _ _ (by simp)
    · by_cases hr0 : (r0.dept_id == row.dept_id) = true
      · exfalso
        have hb : r0.dept_id = row.dept_id := by simpa using hr0
        have hmem : r0.dept_id ∈ t.map (fun r => r.dept_id) := by
          rw [hb]
          exact List.mem_map_of_mem _ h
        exact (List.nodup_cons.mp (by simpa using hnd)).1 hmem
      · rw [find_row_cons_neg _ _ _ hr0]
        exact ih (List.nodup_cons.mp (by simpa using hnd)).2 row h

/-- A string of the shape `a ++ "," ++ s` is nonempty. -/
theorem string_append_comma_ne (a s : String) : a ++ "," ++ s ≠ "" := by
  intro h
  have hlen := congrArg String.length h
  rw [String.length_append, String.length_append] at hlen
  have hc : ("," : String).length = 1 := rfl
  rw [hc] at hlen
  simp at hlen

/-- A string of the shape `"0,100," ++ s` is nonempty. -/
theorem string_seed_ne (s : String) : "0,100," ++ s ≠ "" := by
  intro h
  have hlen := congrArg String.length h
  rw [String.length_append] at hlen
  have hc : ("0,100," : String).length = 6 := rfl
  rw [hc] at hlen
  simp at hlen

/-- The ancestors string the engine builds is never empty. -/
theorem build_ancestors_ne_empty (l : List RuoYiDept) (p : Nat) :
    build_ancestors l p ≠ "" := by
  unfold build_ancestors
  split
  · decide
  · split
    · split
      · exact string_append_comma_ne _ _
      · exact string_seed_ne _
    · exact string_seed_ne _

/-- The ancestors string built under the default root is the fixed seed. -/
theorem build_ancestors_root (l : List RuoYiDept) : build_ancestors l 100 = "0,100" := by
  unfold build_ancestors
  simp

/-- The ancestors string built for a parent found in a working list with
distinct ids is determined by that row's recorded path. -/
theorem build_ancestors_found (l : List RuoYiDept)
    (hnd : (l.map (fun r => r.dept_id)).Nodup) (row : RuoYiDept) (hrow : row ∈ l)
    (hne : row.dept_id ≠ 100) :
    build_ancestors l row.dept_id =
      (if row.ancestors = "" then "0,100," ++ toString row.dept_id
       else row.ancestors ++ "," ++ toString row.dept_id) := by
  unfold build_ancestors
  rw [if_neg (by simpa using hne), find_row_unique l hnd row hrow]
  try dsimp only
  by_cases h : row.ancestors = ""
  · rw [if_neg (show ¬ row.ancestors ≠ "" from fun hn => hn h), if_pos h]
  · rw [if_pos (show row.ancestors ≠ "" from h), if_neg h]

/- ===================== Trace predicate structure lemmas ================== -/

/-- Created rows distribute over trace concatenation. -/
theorem created_rows_append (e1 e2 : List SyncEvent) :
    created_rows (e1 ++ e2) = created_rows e1 ++ created_rows e2 :=
  List.filterMap_append e1 e2 _

/-- A successful create event contributes its row to the created rows. -/
theorem mem_created_rows {P : String} {dataP : DeptCreateData} {idP : Nat}
    {ev : List SyncEvent} (h : SyncEvent.createDept P dataP (some idP) ∈ ev) :
    (⟨idP, dataP.parent_id, dataP.ancestors, dataP.dept_name, some dataP.level,
      P, "", ""⟩ : RuoYiDept) ∈ created_rows ev :=
  List.mem_filterMap.mpr ⟨_, h, rfl⟩

/-- The ordering predicate distributes over trace concatenation. -/
theorem dept_trace_ok_append (dict : List (String × FeishuDept)) :
    ∀ (l1 l2 seen : List SyncEvent),
      dept_trace_ok dict seen (l1 ++ l2) ↔
        (dept_trace_ok dict seen l1 ∧ dept_trace_ok dict (seen ++ l1) l2) := by
  intro l1
  induction l1 with
  | nil =>
    intro l2 seen
    simp [dept_trace_ok]
  | cons e t ih =>
    intro l2 seen
    simp only [List.cons_append, dept_trace_ok, List.append_eq]
    rw [ih l2 (seen ++ [e])]
    simp [List.append_assoc, and_assoc]

/-- A trace chunk without create events satisfies the ordering predicate
under any history. -/
theorem dept_trace_ok_no_create (dict : List (String × FeishuDept)) :
    ∀ (l seen : List SyncEvent),
      (∀ e ∈ l, ∀ X data res, e ≠ SyncEvent.createDept X data res) →
      dept_trace_ok dict seen l := by
  intro l
  induction l with
  | nil => intro seen _; trivial
  | cons e t ih =>
    intro seen h
    simp only [dept_trace_ok]
    refine ⟨?_, ih _ (fun e2 he2 => h e2 (List.mem_cons_of_mem e he2))⟩
    intro X data res hEq
    exact absurd hEq (h e (List.mem_cons_self e t) X data res)

/-- The real-mode create adapter under the all-success configuration. -/
theorem create_department_real (c : DeptCore) (d : DeptCreateData) :
    create_department cfg_real_ok c d =
      (some c.db.nextDeptId, { c with db := (db_insert_dept c.db d).2 }) := rfl

/-- The real-mode update adapter under the all-success configuration. -/
theorem update_department_real (c : DeptCore) (t : Nat) (d : DeptUpdateData) :
    update_department cfg_real_ok c t d = { c with db := db_update_dept c.db t d } := rfl

/-- Master lemma for `create_dept_recursive` under the all-success real
configuration: the run invariant is preserved, the emitted chunk satisfies
the ordering and ancestor-path obligations against the current history, keys
never disappear from the id mapping, and a visited source department ends up
in the mapping. -/
theorem cdr_master (dict : List (String × FeishuDept)) (db0 : DBState)
    (hlev : ∀ X d, alist_find dict X = some d →
      ∀ p, alist_find dict d.parent_dept_id = some p → p.level < d.level) :
    ∀ (fuel : Nat) (X : String) (c : DeptCore) (ev : List SyncEvent),
      DeptTraceInv dict db0 c ev →
      (∀ d, alist_find dict X = some d → d.level < fuel) →
      DeptTraceInv dict db0 (create_dept_recursive cfg_real_ok dict fuel X c).2.1
        (ev ++ (create_dept_recursive cfg_real_ok dict fuel X c).2.2) ∧
      dept_trace_ok dict ev (create_dept_recursive cfg_real_ok dict fuel X c).2.2 ∧
      (∀ k, (alist_find c.dept_id_map k).isSome →
        (alist_find (create_dept_recursive cfg_real_ok dict fuel X c).2.1.dept_id_map k).isSome) ∧
      (X ≠ "0" → (alist_find dict X).isSome →
        (alist_find (create_dept_recursive cfg_real_ok dict fuel X c).2.1.dept_id_map X).isSome) := by
  intro fuel
  induction fuel with
  | zero =>
    intro X c ev hinv hfuel
    have e0 : create_dept_recursive cfg_real_ok dict 0 X c = (100, c, []) := rfl
    rw [e0]
    refine ⟨by simpa using hinv, trivial, fun k h => h, ?_⟩
    intro _ hsome
    rcases Option.isSome_iff_exists.mp hsome with ⟨d, hd⟩
    exact absurd (hfuel d hd) (Nat.not_lt_zero _)
  | succ fuel ih =>
    intro X c ev hinv hfuel
    rcases hm : alist_find c.dept_id_map X with _ | rid
    · by_cases hX : X = "0"
      · have e2 : create_dept_recursive cfg_real_ok dict (fuel + 1) X c = (100, c, []) := by
          simp only [create_dept_recursive]
          rw [hm, if_pos hX]
        rw [e2]
        exact ⟨by simpa using hinv, trivial, fun k h => h, fun hne _ => absurd hX hne⟩
      · rcases hdict : alist_find dict X with _ | dept
        · have e3 : create_dept_recursive cfg_real_ok dict (fuel + 1) X c = (100, c, []) := by
            simp only [create_dept_recursive]
            rw [hm, if_neg hX, hdict]
          rw [e3]
          refine ⟨by simpa using hinv, trivial, fun k h => h, ?_⟩
          intro _ hsome
          simp at hsome
        · -- the department is a source department not yet processed
          have hparfuel : ∀ p, alist_find dict dept.parent_dept_id = some p → p.level < fuel := by
            intro p hp
            have h1 := hlev X dept hdict p hp
            have h2 := hfuel dept hdict
            omega
          obtain ⟨hinv1, hok1, hmono1, hcov1⟩ := ih dept.parent_dept_id c ev hinv hparfuel
          rcases hmm2 : alist_find
              (create_dept_recursive cfg_real_ok dict fuel dept.parent_dept_id c).2.1.ruoyi_dept_map X
            with _ | existing
          · -- create branch
            have hpos := hinv1.next_pos
            have hid0 : (create_dept_recursive cfg_real_ok dict fuel
                dept.parent_dept_id c).2.1.db.nextDeptId ≠ 0 := by omega
            have e5 : create_dept_recursive cfg_real_ok dict (fuel + 1) X c =
                ((create_dept_recursive cfg_real_ok dict fuel dept.parent_dept_id c).2.1.db.nextDeptId,
                 { (create_dept_recursive cfg_real_ok dict fuel dept.parent_dept_id c).2.1 with
                   dept_created_count := (create_dept_recursive cfg_real_ok dict fuel
                     dept.parent_dept_id c).2.1.dept_created_count + 1,
                   dept_id_map := alist_insert (create_dept_recursive cfg_real_ok dict fuel
                     dept.parent_dept_id c).2.1.dept_id_map X
                     (create_dept_recursive cfg_real_ok dict fuel dept.parent_dept_id c).2.1.db.nextDeptId,
                   ruoyi_depts := (create_dept_recursive cfg_real_ok dict fuel
                     dept.parent_dept_id c).2.1.ruoyi_depts ++
                     [⟨(create_dept_recursive cfg_real_ok dict fuel dept.parent_dept_id c).2.1.db.nextDeptId,
                       (create_dept_recursive cfg_real_ok dict fuel dept.parent_dept_id c).1,
                       build_ancestors (create_dept_recursive cfg_real_ok dict fuel
                         dept.parent_dept_id c).2.1.ruoyi_depts
                         (create_dept_recursive cfg_real_ok dict fuel dept.parent_dept_id c).1,
                       dept.dept_name, some dept.level, X, "", ""⟩],
                   ruoyi_dept_map := alist_insert (create_dept_recursive cfg_real_ok dict fuel
                     dept.parent_dept_id c).2.1.ruoyi_dept_map X
                     ⟨(create_dept_recursive cfg_real_ok dict fuel dept.parent_dept_id c).2.1.db.nextDeptId,
                      (create_dept_recursive cfg_real_ok dict fuel dept.parent_dept_id c).1,
                      build_ancestors (create_dept_recursive cfg_real_ok dict fuel
                        dept.parent_dept_id c).2.1.ruoyi_depts
                        (create_dept_recursive cfg_real_ok dict fuel dept.parent_dept_id c).1,
                      dept.dept_name, some dept.level, X, "", ""⟩,
                   db := (db_insert_dept (create_dept_recursive cfg_real_ok dict fuel
                     dept.parent_dept_id c).2.1.db
                     ⟨dept.dept_name,
                      (create_dept_recursive cfg_real_ok dict fuel dept.parent_dept_id c).1,
                      build_ancestors (create_dept_recursive cfg_real_ok dict fuel
                        dept.parent_dept_id c).2.1.ruoyi_depts
                        (create_dept_recursive cfg_real_ok dict fuel dept.parent_dept_id c).1,
                      0, dept.level, X⟩).2 },
                 (create_dept_recursive cfg_real_ok dict fuel dept.parent_dept_id c).2.2 ++
                   [SyncEvent.createDept X
                     ⟨dept.dept_name,
                      (create_dept_recursive cfg_real_ok dict fuel dept.parent_dept_id c).1,
                      build_ancestors (create_dept_recursive cfg_real_ok dict fuel
                        dept.parent_dept_id c).2.1.ruoyi_depts
                        (create_dept_recursive cfg_real_ok dict fuel dept.parent_dept_id c).1,
                      0, dept.level, X⟩
                     (some (create_dept_recursive cfg_real_ok dict fuel
                       dept.parent_dept_id c).2.1.db.nextDeptId)]) := by
              simp only [create_dept_recursive]
              rw [hm, if_neg hX, hdict]
              simp only [hmm2, create_department_real, if_pos hid0]
            rw [e5]
            set pid := (create_dept_recursive cfg_real_ok dict fuel dept.parent_dept_id c).1 with hpid
            set c1 := (create_dept_recursive cfg_real_ok dict fuel dept.parent_dept_id c).2.1 with hc1
            set ev1 := (create_dept_recursive cfg_real_ok dict fuel dept.parent_dept_id c).2.2 with hev1
            set nid := c1.db.nextDeptId with hnid
            set anc := build_ancestors c1.ruoyi_depts pid with hanc
            set d := (⟨dept.dept_name, pid, anc, 0, dept.level, X⟩ : DeptCreateData) with hd
            set nrow := (⟨nid, pid, anc, dept.dept_name, some dept.level, X, "", ""⟩ : RuoYiDept) with hnrow
            set cEv := SyncEvent.createDept X d (some nid) with hcEv
            have hmemer : ∀ e ∈ ev ++ ev1, e ∈ ev ++ (ev1 ++ [cEv]) := by
              intro e he
              rcases List.mem_append.mp he with h | h
              · exact List.mem_append.mpr (Or.inl h)
              · exact List.mem_append.mpr (Or.inr (List.mem_append.mpr (Or.inl h)))
            have hcEvmem : cEv ∈ ev ++ (ev1 ++ [cEv]) := by
              refine List.mem_append.mpr (Or.inr (List.mem_append.mpr (Or.inr ?_)))
              exact List.mem_singleton.mpr rfl
            have hsplit : ∀ e, e ∈ ev ++ (ev1 ++ [cEv]) → e ∈ ev ++ ev1 ∨ e = cEv := by
              intro e he
              rcases List.mem_append.mp he with h | h
              · exact Or.inl (List.mem_append.mpr (Or.inl h))
              · rcases List.mem_append.mp h with h | h
                · exact Or.inl (List.mem_append.mpr (Or.inr h))
                · exact Or.inr (List.mem_singleton.mp h)
            have hcr1 : created_rows [cEv] = [nrow] := rfl
            have hcr : created_rows (ev ++ (ev1 ++ [cEv])) =
                created_rows (ev ++ ev1) ++ [nrow] := by
              rw [← List.append_assoc, created_rows_append, hcr1]
            refine ⟨⟨?_, ?_, ?_, ?_, ?_, ?_, ?_, ?_, ?_⟩, ?_, ?_, ?_⟩
            · show c1.ruoyi_depts ++ [nrow] = _
              rw [hcr, hinv1.depts_eq, List.append_assoc]
            · show ((c1.ruoyi_depts ++ [nrow]).map (fun r => r.dept_id)).Nodup
              rw [List.map_append]
              refine List.Nodup.append hinv1.ids_nodup (List.nodup_singleton _) ?_
              intro a ha hb
              simp only [List.map_cons, List.map_nil, List.mem_singleton] at hb
              subst hb
              rcases List.mem_map.mp ha with ⟨r, hr, hra⟩
              have hlt : r.dept_id < nid := hinv1.ids_lt r hr
              have hrn : r.dept_id = nid := hra
              exact absurd hrn (Nat.ne_of_lt hlt)
            · intro r hr
              show r.dept_id < nid + 1
              rcases List.mem_append.mp hr with h | h
              · have := hinv1.ids_lt r h
                omega
              · have : r.dept_id = nid := by
                  rw [List.mem_singleton] at h
                  subst h
                  rfl
                omega
            · show 100 < nid + 1
              omega
            · intro p hp
              rcases mem_alist_insert hp with h | h
              · exact List.mem_append_left _ (hinv1.map_vals p h)
              · rw [h]
                exact List.mem_append_right _ (List.mem_singleton.mpr rfl)
            · intro Y row hmemY
              rcases hsplit _ hmemY with h | h
              · exact List.mem_append_left _ (hinv1.matched_rows Y row h)
              · rw [hcEv] at h
                exact SyncEvent.noConfusion h
            · intro Y data res hmemY
              rcases hsplit _ hmemY with h | h
              · exact hinv1.created_anc Y data res h
              · rw [hcEv] at h
                injection h with h1 h2 h3
                subst h2
                exact build_ancestors_ne_empty c1.ruoyi_depts pid
            · intro Y data idY hmemY
              rcases hsplit _ hmemY with h | h
              · exact hinv1.created_gt Y data idY h
              · rw [hcEv] at h
                injection h with h1 h2 h3
                injection h3 with h3
                subst h3
                exact hpos
            · intro k hk
              by_cases hkX : k = X
              · subst hkX
                exact ⟨cEv, hcEvmem, Or.inl ⟨d, some nid, hcEv⟩⟩
              · rw [alist_find_insert_ne c1.dept_id_map X nid k hkX] at hk
                rcases hinv1.keys_resolved k hk with ⟨e, he, hres⟩
                exact ⟨e, hmemer e he, hres⟩
            · rw [dept_trace_ok_append]
              refine ⟨hok1, ?_, trivial⟩
              intro X0 data res heq
              rw [hcEv] at heq
              injection heq with h1 h2 h3
              subst h1
              subst h2
              subst h3
              refine ⟨?_, ?_, ?_, ?_, ?_⟩
              · intro d0 hd0 hne p hp
                rw [hdict] at hd0
                injection hd0 with hd0
                subst hd0
                have hps : (alist_find dict dept.parent_dept_id).isSome := by
                  rw [hp]
                  rfl
                rcases hinv1.keys_resolved _ (hcov1 hne hps) with ⟨e, he, hres⟩
                exact ⟨e, he, hres⟩
              · show build_ancestors c1.ruoyi_depts pid ≠ ""
                exact build_ancestors_ne_empty _ _
              · intro h100
                have hp100 : pid = 100 := h100
                show build_ancestors c1.ruoyi_depts pid = "0,100"
                rw [hp100]
                exact build_ancestors_root _
              · intro P dataP idP hmemP hidP
                have hrowP2 : (⟨idP, dataP.parent_id, dataP.ancestors, dataP.dept_name,
                    some dataP.level, P, "", ""⟩ : RuoYiDept) ∈ c1.ruoyi_depts := by
                  rw [hinv1.depts_eq]
                  exact List.mem_append_right _ (mem_created_rows hmemP)
                have hgt := hinv1.created_gt P dataP idP hmemP
                have hanc2 := hinv1.created_anc P dataP (some idP) hmemP
                have hb := build_ancestors_found c1.ruoyi_depts hinv1.ids_nodup _ hrowP2
                  (show (⟨idP, dataP.parent_id, dataP.ancestors, dataP.dept_name,
                    some dataP.level, P, "", ""⟩ : RuoYiDept).dept_id ≠ 100 by
                    show idP ≠ 100
                    omega)
                dsimp only at hb
                rw [if_neg hanc2] at hb
                have hidP2 : idP = pid := hidP
                rw [hidP2] at hb
                show build_ancestors c1.ruoyi_depts pid =
                  dataP.ancestors ++ "," ++ toString pid
                exact hb
              · intro P row hmemP hrowid hne100
                have hrow2 : row ∈ c1.ruoyi_depts := hinv1.matched_rows P row hmemP
                have hb := build_ancestors_found c1.ruoyi_depts hinv1.ids_nodup row hrow2
                  (by rw [hrowid]; exact hne100)
                have hidP2 : row.dept_id = pid := hrowid
                rw [hidP2] at hb
                show build_ancestors c1.ruoyi_depts pid =
                  if row.ancestors = "" then "0,100," ++ toString pid
                  else row.ancestors ++ "," ++ toString pid
                exact hb
            · intro k hk
              exact alist_find_insert_isSome c1.dept_id_map X nid k (hmono1 k hk)
            · intro _ _
              show (alist_find (alist_insert c1.dept_id_map X nid) X).isSome
              rw [alist_find_insert_self]
              rfl
          · -- matched branch
            by_cases hinfo : dept_diffs existing dept
                (create_dept_recursive cfg_real_ok dict fuel dept.parent_dept_id c).1 ≠ []
            · have e6 : create_dept_recursive cfg_real_ok dict (fuel + 1) X c =
                  (existing.dept_id,
                   { (create_dept_recursive cfg_real_ok dict fuel dept.parent_dept_id c).2.1 with
                     dept_id_map := alist_insert (create_dept_recursive cfg_real_ok dict fuel
                       dept.parent_dept_id c).2.1.dept_id_map X existing.dept_id,
                     dept_updated_count := (create_dept_recursive cfg_real_ok dict fuel
                       dept.parent_dept_id c).2.1.dept_updated_count + 1,
                     db := db_update_dept (create_dept_recursive cfg_real_ok dict fuel
                       dept.parent_dept_id c).2.1.db existing.dept_id
                       ⟨dept.dept_name,
                        (create_dept_recursive cfg_real_ok dict fuel dept.parent_dept_id c).1,
                        build_ancestors (create_dept_recursive cfg_real_ok dict fuel
                          dept.parent_dept_id c).2.1.ruoyi_depts
                          (create_dept_recursive cfg_real_ok dict fuel dept.parent_dept_id c).1,
                        dept.level⟩ },
                   (create_dept_recursive cfg_real_ok dict fuel dept.parent_dept_id c).2.2 ++
                     [SyncEvent.matchedDept X existing,
                      SyncEvent.updateDept existing.dept_id
                        ⟨dept.dept_name,
                         (create_dept_recursive cfg_real_ok dict fuel dept.parent_dept_id c).1,
                         build_ancestors (create_dept_recursive cfg_real_ok dict fuel
                           dept.parent_dept_id c).2.1.ruoyi_depts
                           (create_dept_recursive cfg_real_ok dict fuel dept.parent_dept_id c).1,
                         dept.level⟩
                        (dept_diffs existing dept
                          (create_dept_recursive cfg_real_ok dict fuel dept.parent_dept_id c).1)]) := by
                simp only [create_dept_recursive]
                rw [hm, if_neg hX, hdict]
                simp only [hmm2, update_department_real]
                rw [if_pos hinfo]
              rw [e6]
              set pid := (create_dept_recursive cfg_real_ok dict fuel dept.parent_dept_id c).1 with hpid
              set c1 := (create_dept_recursive cfg_real_ok dict fuel dept.parent_dept_id c).2.1 with hc1
              set ev1 := (create_dept_recursive cfg_real_ok dict fuel dept.parent_dept_id c).2.2 with hev1
              set anc := build_ancestors c1.ruoyi_depts pid with hanc
              set dU := (⟨dept.dept_name, pid, anc, dept.level⟩ : DeptUpdateData) with hdU
              set mEv := SyncEvent.matchedDept X existing with hmEv
              set uEv := SyncEvent.updateDept existing.dept_id dU
                (dept_diffs existing dept pid) with huEv
              have hmemer : ∀ e ∈ ev ++ ev1, e ∈ ev ++ (ev1 ++ [mEv, uEv]) := by
                intro e he
                rcases List.mem_append.mp he with h | h
                · exact List.mem_append.mpr (Or.inl h)
                · exact List.mem_append.mpr (Or.inr (List.mem_append.mpr (Or.inl h)))
              have hmEvmem : mEv ∈ ev ++ (ev1 ++ [mEv, uEv]) := by
                refine List.mem_append.mpr (Or.inr (List.mem_append.mpr (Or.inr ?_)))
                exact List.mem_cons.mpr (Or.inl rfl)
              have hsplit : ∀ e, e ∈ ev ++ (ev1 ++ [mEv, uEv]) →
                  e ∈ ev ++ ev1 ∨ e = mEv ∨ e = uEv := by
                intro e he
                rcases List.mem_append.mp he with h | h
                · exact Or.inl (List.mem_append.mpr (Or.inl h))
                · rcases List.mem_append.mp h with h | h
                  · exact Or.inl (List.mem_append.mpr (Or.inr h))
                  · rcases List.mem_cons.mp h with h | h
                    · exact Or.inr (Or.inl h)
                    · exact Or.inr (Or.inr (List.mem_singleton.mp h))
              have hcr1 : created_rows [mEv, uEv] = [] := rfl
              have hcr : created_rows (ev ++ (ev1 ++ [mEv, uEv])) =
                  created_rows (ev ++ ev1) := by
                rw [← List.append_assoc, created_rows_append, hcr1, List.append_nil]
              have hex : existing ∈ c1.ruoyi_depts :=
                hinv1.map_vals (X, existing) (alist_find_mem hmm2)
              refine ⟨⟨?_, ?_, ?_, ?_, ?_, ?_, ?_, ?_, ?_⟩, ?_, ?_, ?_⟩
              · show c1.ruoyi_depts = _
                rw [hcr]
                exact hinv1.depts_eq
              · exact hinv1.ids_nodup
              · exact hinv1.ids_lt
              · exact hinv1.next_pos
              · exact hinv1.map_vals
              · intro Y row hmemY
                rcases hsplit _ hmemY with h | h | h
                · exact hinv1.matched_rows Y row h
                · rw [hmEv] at h
                  injection h with hY hrow
                  subst hrow
                  exact hex
                · rw [huEv] at h
                  exact SyncEvent.noConfusion h
              · intro Y data res hmemY
                rcases hsplit _ hmemY with h | h | h
                · exact hinv1.created_anc Y data res h
                · rw [hmEv] at h
                  exact SyncEvent.noConfusion h
                · rw [huEv] at h
                  exact SyncEvent.noConfusion h
              · intro Y data idY hmemY
                rcases hsplit _ hmemY with h | h | h
                · exact hinv1.created_gt Y data idY h
                · rw [hmEv] at h
                  exact SyncEvent.noConfusion h
                · rw [huEv] at h
                  exact SyncEvent.noConfusion h
              · intro k hk
                by_cases hkX : k = X
                · subst hkX
                  exact ⟨mEv, hmEvmem, Or.inr ⟨existing, hmEv⟩⟩
                · rw [alist_find_insert_ne c1.dept_id_map X existing.dept_id k hkX] at hk
                  rcases hinv1.keys_resolved k hk with ⟨e, he, hres⟩
                  exact ⟨e, hmemer e he, hres⟩
              · rw [dept_trace_ok_append]
                refine ⟨hok1, ?_⟩
                refine dept_trace_ok_no_create dict _ _ ?_
                intro e he X0 data res
                rcases List.mem_cons.mp he with h | h
                · subst h
                  rw [hmEv]
                  intro hc
                  exact SyncEvent.noConfusion hc
                · rw [List.mem_singleton] at h
                  subst h
                  rw [huEv]
                  intro hc
                  exact SyncEvent.noConfusion hc
              · intro k hk
                exact alist_find_insert_isSome c1.dept_id_map X existing.dept_id k (hmono1 k hk)
              · intro _ _
                show (alist_find (alist_insert c1.dept_id_map X existing.dept_id) X).isSome
                rw [alist_find_insert_self]
                rfl
            · have e7 : create_dept_recursive cfg_real_ok dict (fuel + 1) X c =
                  (existing.dept_id,
                   { (create_dept_recursive cfg_real_ok dict fuel dept.parent_dept_id c).2.1 with
                     dept_id_map := alist_insert (create_dept_recursive cfg_real_ok dict fuel
                       dept.parent_dept_id c).2.1.dept_id_map X existing.dept_id },
                   (create_dept_recursive cfg_real_ok dict fuel dept.parent_dept_id c).2.2 ++
                     [SyncEvent.matchedDept X existing]) := by
                simp only [create_dept_recursive]
                rw [hm, if_neg hX, hdict]
                simp only [hmm2]
                rw [if_neg hinfo]
              rw [e7]
              set pid := (create_dept_recursive cfg_real_ok dict fuel dept.parent_dept_id c).1 with hpid
              set c1 := (create_dept_recursive cfg_real_ok dict fuel dept.parent_dept_id c).2.1 with hc1
              set ev1 := (create_dept_recursive cfg_real_ok dict fuel dept.parent_dept_id c).2.2 with hev1
              set mEv := SyncEvent.matchedDept X existing with hmEv
              have hmemer : ∀ e ∈ ev ++ ev1, e ∈ ev ++ (ev1 ++ [mEv]) := by
                intro e he
                rcases List.mem_append.mp he with h | h
                · exact List.mem_append.mpr (Or.inl h)
                · exact List.mem_append.mpr (Or.inr (List.mem_append.mpr (Or.inl h)))
              have hmEvmem : mEv ∈ ev ++ (ev1 ++ [mEv]) := by
                refine List.mem_append.mpr (Or.inr (List.mem_append.mpr (Or.inr ?_)))
                exact List.mem_singleton.mpr rfl
              have hsplit : ∀ e, e ∈ ev ++ (ev1 ++ [mEv]) → e ∈ ev ++ ev1 ∨ e = mEv := by
                intro e he
                rcases List.mem_append.mp he with h | h
                · exact Or.inl (List.mem_append.mpr (Or.inl h))
                · rcases List.mem_append.mp h with h | h
                  · exact Or.inl (List.mem_append.mpr (Or.inr h))
                  · exact Or.inr (List.mem_singleton.mp h)
              have hcr1 : created_rows [mEv] = [] := rfl
              have hcr : created_rows (ev ++ (ev1 ++ [mEv])) =
                  created_rows (ev ++ ev1) := by
                rw [← List.append_assoc, created_rows_append, hcr1, List.append_nil]
              have hex : existing ∈ c1.ruoyi_depts :=
                hinv1.map_vals (X, existing) (alist_find_mem hmm2)
              refine ⟨⟨?_, ?_, ?_, ?_, ?_, ?_, ?_, ?_, ?_⟩, ?_, ?_, ?_⟩
              · show c1.ruoyi_depts = _
                rw [hcr]
                exact hinv1.depts_eq
              · exact hinv1.ids_nodup
              · exact hinv1.ids_lt
              · exact hinv1.next_pos
              · exact hinv1.map_vals
              · intro Y row hmemY
                rcases hsplit _ hmemY with h | h
                · exact hinv1.matched_rows Y row h
                · rw [hmEv] at h
                  injection h with hY hrow
                  subst hrow
                  exact hex
              · intro Y data res hmemY
                rcases hsplit _ hmemY with h | h
                · exact hinv1.created_anc Y data res h
                · rw [hmEv] at h
                  exact SyncEvent.noConfusion h
              · intro Y data idY hmemY
                rcases hsplit _ hmemY with h | h
                · exact hinv1.created_gt Y data idY h
                · rw [hmEv] at h
                  exact SyncEvent.noConfusion h
              · intro k hk
                by_cases hkX : k = X
                · subst hkX
                  exact ⟨mEv, hmEvmem, Or.inr ⟨existing, hmEv⟩⟩
                · rw [alist_find_insert_ne c1.dept_id_map X existing.dept_id k hkX] at hk
                  rcases hinv1.keys_resolved k hk with ⟨e, he, hres⟩
                  exact ⟨e, hmemer e he, hres⟩
              · rw [dept_trace_ok_append]
                refine ⟨hok1, ?_⟩
                refine dept_trace_ok_no_create dict _ _ ?_
                intro e he X0 data res
                rw [List.mem_singleton] at he
                subst he
                rw [hmEv]
                intro hc
                exact SyncEvent.noConfusion hc
              · intro k hk
                exact alist_find_insert_isSome c1.dept_id_map X existing.dept_id k (hmono1 k hk)
              · intro _ _
                show (alist_find (alist_insert c1.dept_id_map X existing.dept_id) X).isSome
                rw [alist_find_insert_self]
                rfl
    · have e1 : create_dept_recursive cfg_real_ok dict (fuel + 1) X c = (rid, c, []) := by
        simp only [create_dept_recursive]
        rw [hm]
      rw [e1]
      refine ⟨by simpa using hinv, trivial, fun k h => h, ?_⟩
      intro _ _
      simp [hm]

/-- One level pass of `sync_departments` preserves the run invariant and the
trace obligations, and resolves every visited source department. -/
theorem dept_pass_master (dict : List (String × FeishuDept)) (db0 : DBState)
    (hlev : ∀ X d, alist_find dict X = some d →
      ∀ p, alist_find dict d.parent_dept_id = some p → p.level < d.level)
    (fuel : Nat)
    (hfuel : ∀ X d, alist_find dict X = some d → d.level < fuel) :
    ∀ (l : List FeishuDept) (c : DeptCore) (ev : List SyncEvent),
      DeptTraceInv dict db0 c ev →
      DeptTraceInv dict db0
        (writer_fold (dept_sync_step cfg_real_ok dict fuel) (c, ev) l).1
        (writer_fold (dept_sync_step cfg_real_ok dict fuel) (c, ev) l).2 ∧
      (dept_trace_ok dict [] ev →
        dept_trace_ok dict []
          (writer_fold (dept_sync_step cfg_real_ok dict fuel) (c, ev) l).2) ∧
      (∀ k, (alist_find c.dept_id_map k).isSome →
        (alist_find (writer_fold (dept_sync_step cfg_real_ok dict fuel)
          (c, ev) l).1.dept_id_map k).isSome) ∧
      (∀ d ∈ l, d.dept_id ≠ "0" → (alist_find dict d.dept_id).isSome →
        (alist_find (writer_fold (dept_sync_step cfg_real_ok dict fuel)
          (c, ev) l).1.dept_id_map d.dept_id).isSome) := by
  intro l
  induction l with
  | nil =>
    intro c ev hinv
    exact ⟨hinv, fun h => h, fun k h => h, fun d hd => absurd hd (List.not_mem_nil d)⟩
  | cons d t ih =>
    intro c ev hinv
    obtain ⟨hinv1, hok1, hmono1, hcov1⟩ :=
      cdr_master dict db0 hlev fuel d.dept_id c ev hinv
        (fun d' hd' => hfuel d.dept_id d' hd')
    have hcons : writer_fold (dept_sync_step cfg_real_ok dict fuel) (c, ev) (d :: t) =
        writer_fold (dept_sync_step cfg_real_ok dict fuel)
          ((create_dept_recursive cfg_real_ok dict fuel d.dept_id c).2.1,
           ev ++ (create_dept_recursive cfg_real_ok dict fuel d.dept_id c).2.2) t := rfl
    obtain ⟨hinv2, hok2, hmono2, hcov2⟩ := ih _ _ hinv1
    refine ⟨?_, ?_, ?_, ?_⟩
    · rw [hcons]
      exact hinv2
    · intro h0
      rw [hcons]
      exact hok2 ((dept_trace_ok_append dict ev _ []).mpr ⟨h0, hok1⟩)
    · intro k hk
      rw [hcons]
      exact hmono2 k (hmono1 k hk)
    · intro d0 hd0 hne hsome
      rcases List.mem_cons.mp hd0 with h | h
      · subst h
        rw [hcons]
        exact hmono2 _ (hcov1 hne hsome)
      · rw [hcons]
        exact hcov2 d0 h hne hsome

/-- The 0..5 level loop of `sync_departments` preserves the run invariant and
the trace obligations and resolves every department visited by some pass. -/
theorem dept_levels_master (dict : List (String × FeishuDept)) (db0 : DBState)
    (hlev : ∀ X d, alist_find dict X = some d →
      ∀ p, alist_find dict d.parent_dept_id = some p → p.level < d.level)
    (fuel : Nat)
    (hfuel : ∀ X d, alist_find dict X = some d → d.level < fuel)
    (feishu_depts : List FeishuDept) :
    ∀ (levels : List Nat) (c : DeptCore) (ev : List SyncEvent),
      DeptTraceInv dict db0 c ev →
      DeptTraceInv dict db0
        (levels.foldl (fun acc level => writer_fold (dept_sync_step cfg_real_ok dict fuel)
          acc (feishu_depts.filter (fun d => d.level == level))) (c, ev)).1
        (levels.foldl (fun acc level => writer_fold (dept_sync_step cfg_real_ok dict fuel)
          acc (feishu_depts.filter (fun d => d.level == level))) (c, ev)).2 ∧
      (dept_trace_ok dict [] ev →
        dept_trace_ok dict []
          (levels.foldl (fun acc level => writer_fold (dept_sync_step cfg_real_ok dict fuel)
            acc (feishu_depts.filter (fun d => d.level == level))) (c, ev)).2) ∧
      (∀ k, (alist_find c.dept_id_map k).isSome →
        (alist_find (levels.foldl (fun acc level => writer_fold
          (dept_sync_step cfg_real_ok dict fuel)
          acc (feishu_depts.filter (fun d => d.level == level))) (c, ev)).1.dept_id_map
          k).isSome) ∧
      (∀ level ∈ levels, ∀ d ∈ feishu_depts.filter (fun d => d.level == level),
        d.dept_id ≠ "0" → (alist_find dict d.dept_id).isSome →
        (alist_find (levels.foldl (fun acc level => writer_fold
          (dept_sync_step cfg_real_ok dict fuel)
          acc (feishu_depts.filter (fun d => d.level == level))) (c, ev)).1.dept_id_map
          d.dept_id).isSome) := by
  intro levels
  induction levels with
  | nil =>
    intro c ev hinv
    exact ⟨hinv, fun h => h, fun k h => h,
      fun level hl => absurd hl (List.not_mem_nil level)⟩
  | cons lv t ih =>
    intro c ev hinv
    obtain ⟨hinv1, hok1, hmono1, hcov1⟩ :=
      dept_pass_master dict db0 hlev fuel hfuel
        (feishu_depts.filter (fun d => d.level == lv)) c ev hinv
    have hcons : (lv :: t).foldl (fun acc level => writer_fold
        (dept_sync_step cfg_real_ok dict fuel)
        acc (feishu_depts.filter (fun d => d.level == level))) (c, ev) =
        t.foldl (fun acc level => writer_fold (dept_sync_step cfg_real_ok dict fuel)
          acc (feishu_depts.filter (fun d => d.level == level)))
          (writer_fold (dept_sync_step cfg_real_ok dict fuel) (c, ev)
            (feishu_depts.filter (fun d => d.level == lv))) := rfl
    have heta : writer_fold (dept_sync_step cfg_real_ok dict fuel) (c, ev)
        (feishu_depts.filter (fun d => d.level == lv)) =
        ((writer_fold (dept_sync_step cfg_real_ok dict fuel) (c, ev)
          (feishu_depts.filter (fun d => d.level == lv))).1,
         (writer_fold (dept_sync_step cfg_real_ok dict fuel) (c, ev)
          (feishu_depts.filter (fun d => d.level == lv))).2) := rfl
    obtain ⟨hinv2, hok2, hmono2, hcov2⟩ := ih _ _ hinv1
    rw [heta] at hcons
    refine ⟨?_, ?_, ?_, ?_⟩
    · rw [hcons]
      exact hinv2
    · intro h0
      rw [hcons]
      exact hok2 (hok1 h0)
    · intro k hk
      rw [hcons]
      exact hmono2 k (hmono1 k hk)
    · intro level hlm d hd hne hsome
      rcases List.mem_cons.mp hlm with h | h
      · subst h
        rw [hcons]
        exact hmono2 _ (hcov1 d hd hne hsome)
      · rw [hcons]
        exact hcov2 level h d hd hne hsome

/-- The stale-department disable fold never touches the id mapping. -/
theorem disable_fold_map (cfg : SyncConfig) :
    ∀ (l : List RuoYiDept) (c : DeptCore),
      (l.foldl (fun cc d => disable_department cfg cc d.dept_id) c).dept_id_map =
        c.dept_id_map := by
  intro l
  induction l with
  | nil => intro c; rfl
  | cons d t ih =>
    intro c
    have : (disable_department cfg c d.dept_id).dept_id_map = c.dept_id_map := by
      unfold disable_department
      split
      · rfl
      · split <;> rfl
    rw [List.foldl_cons, ih, this]

/-- The run invariant holds at the start of the department phase. -/
theorem initial_dept_inv (feishu_depts : List FeishuDept) (db0 : DBState)
    (hdbn : (db0.depts.map (fun r => r.dept_id)).Nodup)
    (hdbf : ∀ r ∈ db0.depts, r.dept_id < db0.nextDeptId)
    (h100 : 100 < db0.nextDeptId) :
    DeptTraceInv (dept_dict feishu_depts) db0
      ⟨[], db_get_departments db0,
       (db_get_departments db0).foldl
         (fun m d => if d.feishu_dept_id ≠ "" then alist_insert m d.feishu_dept_id d else m)
         [], 0, 0, 0, db0⟩ [] := by
  refine ⟨?_, ?_, ?_, ?_, ?_, ?_, ?_, ?_, ?_⟩
  · show db0.depts = db0.depts ++ created_rows []
    simp [created_rows]
  · exact hdbn
  · exact hdbf
  · exact h100
  · intro p hp
    rcases ruoyi_map_values _ [] p hp with h | h
    · simp at h
    · exact h
  · intro X row h
    simp at h
  · intro X data res h
    simp at h
  · intro X data id h
    simp at h
  · intro k hk
    simp [alist_find] at hk

/-- Combined result about a real all-success `sync_departments` run on a
well-formed extract over a well-formed target: every source department whose
id is not the root sentinel ends up in the id mapping, and the emitted trace
satisfies the parent-ordering and ancestor-path obligations. -/
theorem sync_departments_master (feishu_depts : List FeishuDept) (db0 : DBState)
    (hlev5 : ∀ d ∈ feishu_depts, d.level ≤ 5)
    (hpar : ∀ d ∈ feishu_depts, ∀ p ∈ feishu_depts,
      p.dept_id = d.parent_dept_id → p.level < d.level)
    (hdbn : (db0.depts.map (fun r => r.dept_id)).Nodup)
    (hdbf : ∀ r ∈ db0.depts, r.dept_id < db0.nextDeptId)
    (h100 : 100 < db0.nextDeptId) :
    (∀ d ∈ feishu_depts, d.dept_id ≠ "0" →
      (alist_find (sync_departments cfg_real_ok feishu_depts db0).dept_id_map
        d.dept_id).isSome) ∧
    dept_trace_ok (dept_dict feishu_depts) []
      (sync_departments cfg_real_ok feishu_depts db0).events := by
  have hvals : ∀ X d, alist_find (dept_dict feishu_depts) X = some d →
      d ∈ feishu_depts ∧ d.dept_id = X := by
    intro X d h
    rcases dept_dict_values feishu_depts [] (X, d) (alist_find_mem h) with h2 | h2
    · simp at h2
    · exact h2
  have hlev : ∀ X d, alist_find (dept_dict feishu_depts) X = some d →
      ∀ p, alist_find (dept_dict feishu_depts) d.parent_dept_id = some p →
        p.level < d.level := by
    intro X d hd p hp
    exact hpar d (hvals X d hd).1 p (hvals _ p hp).1 (hvals _ p hp).2
  have hfuel : ∀ X d, alist_find (dept_dict feishu_depts) X = some d →
      d.level < feishu_depts.length + 7 := by
    intro X d hd
    have := hlev5 d (hvals X d hd).1
    omega
  obtain ⟨hinvL, hokL, hmonoL, hcovL⟩ :=
    dept_levels_master (dept_dict feishu_depts) db0 hlev (feishu_depts.length + 7)
      hfuel feishu_depts (List.range 6)
      ⟨[], db_get_departments db0,
       (db_get_departments db0).foldl
         (fun m d => if d.feishu_dept_id ≠ "" then alist_insert m d.feishu_dept_id d else m)
         [], 0, 0, 0, db0⟩ []
      (initial_dept_inv feishu_depts db0 hdbn hdbf h100)
  set ACC := (List.range 6).foldl (fun acc level => writer_fold
    (dept_sync_step cfg_real_ok (dept_dict feishu_depts) (feishu_depts.length + 7))
    acc (feishu_depts.filter (fun d => d.level == level)))
    ((⟨[], db_get_departments db0,
      (db_get_departments db0).foldl
        (fun m d => if d.feishu_dept_id ≠ "" then alist_insert m d.feishu_dept_id d else m)
        [], 0, 0, 0, db0⟩ : DeptCore), []) with hACC
  have hmapeq : (sync_departments cfg_real_ok feishu_depts db0).dept_id_map =
      ((ACC.1.ruoyi_depts.filter
          (dept_disable_filter (feishu_depts.map (·.dept_id)))).foldl
        (fun cc d => disable_department cfg_real_ok cc d.dept_id)
        ACC.1).dept_id_map := rfl
  rw [disable_fold_map cfg_real_ok] at hmapeq
  have heveq : (sync_departments cfg_real_ok feishu_depts db0).events =
      ACC.2 ++ (ACC.1.ruoyi_depts.filter
        (dept_disable_filter (feishu_depts.map (·.dept_id)))).map
        (fun d => SyncEvent.disableDept d.dept_id d.dept_name) := rfl
  refine ⟨?_, ?_⟩
  · intro d hd hne
    rw [hmapeq]
    have hlv : d.level ∈ List.range 6 := by
      have := hlev5 d hd
      rw [List.mem_range]
      omega
    exact hcovL d.level hlv d (List.mem_filter.mpr ⟨hd, by simp⟩) hne
      (dict_key_present feishu_depts [] d hd)
  · rw [heveq]
    refine (dept_trace_ok_append _ _ _ _).mpr ⟨hokL trivial, ?_⟩
    refine dept_trace_ok_no_create _ _ _ ?_
    intro e he X data res
    rcases List.mem_map.mp he with ⟨r, hr, hre⟩
    rw [← hre]
    intro hc
    exact SyncEvent.noConfusion hc

/-- C3 (amended): after a real department reconciliation in which every
INSERT succeeds, over an extract whose departments all carry source levels at
most 5 (the range the engine's fixed 0..5 level loop visits), non-root ids,
and level-decreasing parents, the returned source-id to surrogate-id mapping
contains an entry for every source department.  (The original claim fails in
general: departments of level 6 or more are never visited, and a department
whose INSERT fails is left without any entry — there is no fallback entry
with the default top-level id 100; the fallback 100 is only what later
lookups of the missing key default to.) -/
theorem dept_mapping_covers_visited (feishu_depts : List FeishuDept) (db0 : DBState)
    (hnz : ∀ d ∈ feishu_depts, d.dept_id ≠ "0")
    (hlev5 : ∀ d ∈ feishu_depts, d.level ≤ 5)
    (hpar : ∀ d ∈ feishu_depts, ∀ p ∈ feishu_depts,
      p.dept_id = d.parent_dept_id → p.level < d.level)
    (hdbn : (db0.depts.map (fun r => r.dept_id)).Nodup)
    (hdbf : ∀ r ∈ db0.depts, r.dept_id < db0.nextDeptId)
    (h100 : 100 < db0.nextDeptId) :
    ∀ d ∈ feishu_depts,
      (alist_find (sync_departments cfg_real_ok feishu_depts db0).dept_id_map
        d.dept_id).isSome :=
  fun d hd =>
    (sync_departments_master feishu_depts db0 hlev5 hpar hdbn hdbf h100).1 d hd (hnz d hd)

/-- Witness for C3's amended theorem at a concrete three-level extract. -/
theorem dept_mapping_covers_visited_witness :
    (alist_find (sync_departments cfg_real_ok depts_c4 db_c4).dept_id_map "c").isSome :=
  dept_mapping_covers_visited depts_c4 db_c4 (by decide) (by decide) (by decide)
    (by decide) (by decide) (by decide) ⟨"c", "C", "p", 2⟩ (by decide)

/-- C4 (amended): in a real all-success department reconciliation over a
well-formed extract (levels at most 5, parents of strictly smaller level)
against a well-formed target (distinct surrogate ids below the
AUTO_INCREMENT counter, which exceeds the default root id 100), the trace
satisfies, at every create event: (a) if the department's source parent
resolves to a source department, an earlier event created or looked up that
parent; (b) a child attached to the default root carries the fixed seed path
"0,100"; (c) a child of a parent created earlier in the run carries that
creation's ancestor path with the parent's assigned surrogate id appended;
(d) a child of a parent matched earlier to an existing target row carries
the row's recorded path with the parent id appended when that recorded path
is non-empty, and otherwise the seed path extended with the parent id — the
engine consults its stale local copy of the row, so the fallback fires even
when the row's path was corrected by an update in this same run.  (The
original claim's unconditional "parent's ancestor path plus parent id" fails
for matched parents with an empty stored path.) -/
theorem parent_resolved_before_child_create (feishu_depts : List FeishuDept)
    (db0 : DBState)
    (hlev5 : ∀ d ∈ feishu_depts, d.level ≤ 5)
    (hpar : ∀ d ∈ feishu_depts, ∀ p ∈ feishu_depts,
      p.dept_id = d.parent_dept_id → p.level < d.level)
    (hdbn : (db0.depts.map (fun r => r.dept_id)).Nodup)
    (hdbf : ∀ r ∈ db0.depts, r.dept_id < db0.nextDeptId)
    (h100 : 100 < db0.nextDeptId) :
    dept_trace_ok (dept_dict feishu_depts) []
      (sync_departments cfg_real_ok feishu_depts db0).events :=
  (sync_departments_master feishu_depts db0 hlev5 hpar hdbn hdbf h100).2

/-- Witness for C4's amended theorem at a concrete three-level extract over
a target holding a matched grandparent and a matched parent. -/
theorem parent_resolved_before_child_create_witness :
    dept_trace_ok (dept_dict depts_c4) []
      (sync_departments cfg_real_ok depts_c4 db_c4).events :=
  parent_resolved_before_child_create depts_c4 db_c4 (by decide) (by decide)
    (by decide) (by decide) (by decide)

/-- The dry-mode create adapter draws the next simulated id. -/
theorem create_department_dry (db0 : DBState) (c : DeptCore) (d : DeptCreateData) :
    create_department (cfg_dry_fresh db0) c d =
      (some (db0.nextDeptId + c.randIdx), { c with randIdx := c.randIdx + 1 }) := rfl

/-- The dry-mode update adapter writes nothing. -/
theorem update_department_dry (db0 : DBState) (c : DeptCore) (t : Nat)
    (d : DeptUpdateData) : update_department (cfg_dry_fresh db0) c t d = c := rfl

/-- The dry-mode disable adapter writes nothing. -/
theorem disable_department_dry (db0 : DBState) (c : DeptCore) (t : Nat) :
    disable_department (cfg_dry_fresh db0) c t = c := rfl

/-- The dry-mode user create adapter draws the next simulated id. -/
theorem create_user_dry (db0 : DBState) (c : UserCore) (u : UserData) :
    create_user (cfg_dry_fresh db0) c u =
      (some (db0.nextUserId + c.randIdxU), { c with randIdxU := c.randIdxU + 1 }) := rfl

/-- The real-mode user create adapter under the all-success configuration. -/
theorem create_user_real (c : UserCore) (u : UserData) :
    create_user cfg_real_ok c u =
      (some c.db.nextUserId, { c with db := (db_insert_user c.db u).2 }) := rfl

/-- The dry-mode user update adapter writes nothing and reports success. -/
theorem update_user_dry (db0 : DBState) (c : UserCore) (t : Nat) (u : UserData) :
    update_user (cfg_dry_fresh db0) c t u = (true, c) := rfl

/-- The real-mode user update adapter under the all-success configuration. -/
theorem update_user_real (c : UserCore) (t : Nat) (u : UserData) :
    update_user cfg_real_ok c t u =
      (true, { c with db := db_update_user c.db t u }) := rfl

/-- The dry-mode user disable adapter writes nothing and reports success. -/
theorem disable_user_dry (db0 : DBState) (c : UserCore) (t : Nat) :
    disable_user (cfg_dry_fresh db0) c t = (true, c) := rfl

/-- The real-mode user disable adapter under the all-success configuration. -/
theorem disable_user_real (c : UserCore) (t : Nat) :
    disable_user cfg_real_ok c t =
      (true, { c with db := db_disable_user c.db t }) := rfl

/-- The department recursion of a dry run whose simulated ids are the
successive AUTO_INCREMENT values runs in lockstep with the real all-success
recursion: same returned id, same events, simulation relation preserved. -/
theorem cdr_lockstep (db0 : DBState) (dict : List (String × FeishuDept)) :
    ∀ (fuel : Nat) (X : String) (cD cR : DeptCore), DeptSim db0 cD cR →
      (create_dept_recursive (cfg_dry_fresh db0) dict fuel X cD).1 =
        (create_dept_recursive cfg_real_ok dict fuel X cR).1 ∧
      DeptSim db0 (create_dept_recursive (cfg_dry_fresh db0) dict fuel X cD).2.1
        (create_dept_recursive cfg_real_ok dict fuel X cR).2.1 ∧
      (create_dept_recursive (cfg_dry_fresh db0) dict fuel X cD).2.2 =
        (create_dept_recursive cfg_real_ok dict fuel X cR).2.2 := by
  intro fuel
  induction fuel with
  | zero =>
    intro X cD cR hsim
    exact ⟨rfl, hsim, rfl⟩
  | succ fuel ih =>
    intro X cD cR hsim
    rcases hm : alist_find cD.dept_id_map X with _ | rid
    · have hmR : alist_find cR.dept_id_map X = none := by
        rw [← hsim.map_eq]
        exact hm
      by_cases hX : X = "0"
      · have eD : create_dept_recursive (cfg_dry_fresh db0) dict (fuel + 1) X cD =
            (100, cD, []) := by
          simp only [create_dept_recursive]
          rw [hm, if_pos hX]
        have eR : create_dept_recursive cfg_real_ok dict (fuel + 1) X cR =
            (100, cR, []) := by
          simp only [create_dept_recursive]
          rw [hmR, if_pos hX]
        rw [eD, eR]
        exact ⟨rfl, hsim, rfl⟩
      · rcases hdict : alist_find dict X with _ | dept
        · have eD : create_dept_recursive (cfg_dry_fresh db0) dict (fuel + 1) X cD =
              (100, cD, []) := by
            simp only [create_dept_recursive]
            rw [hm, if_neg hX, hdict]
          have eR : create_dept_recursive cfg_real_ok dict (fuel + 1) X cR =
              (100, cR, []) := by
            simp only [create_dept_recursive]
            rw [hmR, if_neg hX, hdict]
          rw [eD, eR]
          exact ⟨rfl, hsim, rfl⟩
        · obtain ⟨hret, hsim1, hev⟩ := ih dept.parent_dept_id cD cR hsim
          rcases hmm2 : alist_find (create_dept_recursive (cfg_dry_fresh db0) dict fuel
              dept.parent_dept_id cD).2.1.ruoyi_dept_map X with _ | existing
          · -- both create
            have hmm2R : alist_find (create_dept_recursive cfg_real_ok dict fuel
                dept.parent_dept_id cR).2.1.ruoyi_dept_map X = none := by
              rw [← hsim1.rmap_eq]
              exact hmm2
            by_cases h0 : db0.nextDeptId + (create_dept_recursive (cfg_dry_fresh db0) dict fuel
                dept.parent_dept_id cD).2.1.randIdx ≠ 0
            · have h0R : (create_dept_recursive cfg_real_ok dict fuel
                  dept.parent_dept_id cR).2.1.db.nextDeptId ≠ 0 := by
                rw [hsim1.next_dept]
                exact h0
              have eD : create_dept_recursive (cfg_dry_fresh db0) dict (fuel + 1) X cD =
                  (db0.nextDeptId + (create_dept_recursive (cfg_dry_fresh db0) dict fuel
                     dept.parent_dept_id cD).2.1.randIdx,
                   { (create_dept_recursive (cfg_dry_fresh db0) dict fuel
                       dept.parent_dept_id cD).2.1 with
                     randIdx := (create_dept_recursive (cfg_dry_fresh db0) dict fuel
                       dept.parent_dept_id cD).2.1.randIdx + 1,
                     dept_created_count := (create_dept_recursive (cfg_dry_fresh db0) dict fuel
                       dept.parent_dept_id cD).2.1.dept_created_count + 1,
                     dept_id_map := alist_insert (create_dept_recursive (cfg_dry_fresh db0) dict
                       fuel dept.parent_dept_id cD).2.1.dept_id_map X
                       (db0.nextDeptId + (create_dept_recursive (cfg_dry_fresh db0) dict fuel
                         dept.parent_dept_id cD).2.1.randIdx),
                     ruoyi_depts := (create_dept_recursive (cfg_dry_fresh db0) dict fuel
                       dept.parent_dept_id cD).2.1.ruoyi_depts ++
                       [⟨db0.nextDeptId + (create_dept_recursive (cfg_dry_fresh db0) dict fuel
                           dept.parent_dept_id cD).2.1.randIdx,
                         (create_dept_recursive (cfg_dry_fresh db0) dict fuel
                           dept.parent_dept_id cD).1,
                         build_ancestors (create_dept_recursive (cfg_dry_fresh db0) dict fuel
                           dept.parent_dept_id cD).2.1.ruoyi_depts
                           (create_dept_recursive (cfg_dry_fresh db0) dict fuel
                             dept.parent_dept_id cD).1,
                         dept.dept_name, some dept.level, X, "", ""⟩],
                     ruoyi_dept_map := alist_insert (create_dept_recursive (cfg_dry_fresh db0)
                       dict fuel dept.parent_dept_id cD).2.1.ruoyi_dept_map X
                       ⟨db0.nextDeptId + (create_dept_recursive (cfg_dry_fresh db0) dict fuel
                           dept.parent_dept_id cD).2.1.randIdx,
                        (create_dept_recursive (cfg_dry_fresh db0) dict fuel
                          dept.parent_dept_id cD).1,
                        build_ancestors (create_dept_recursive (cfg_dry_fresh db0) dict fuel
                          dept.parent_dept_id cD).2.1.ruoyi_depts
                          (create_dept_recursive (cfg_dry_fresh db0) dict fuel
                            dept.parent_dept_id cD).1,
                        dept.dept_name, some dept.level, X, "", ""⟩ },
                   (create_dept_recursive (cfg_dry_fresh db0) dict fuel
                     dept.parent_dept_id cD).2.2 ++
                     [SyncEvent.createDept X
                       ⟨dept.dept_name,
                        (create_dept_recursive (cfg_dry_fresh db0) dict fuel
                          dept.parent_dept_id cD).1,
                        build_ancestors (create_dept_recursive (cfg_dry_fresh db0) dict fuel
                          dept.parent_dept_id cD).2.1.ruoyi_depts
                          (create_dept_recursive (cfg_dry_fresh db0) dict fuel
                            dept.parent_dept_id cD).1,
                        0, dept.level, X⟩
                       (some (db0.nextDeptId + (create_dept_recursive (cfg_dry_fresh db0) dict
                         fuel dept.parent_dept_id cD).2.1.randIdx))]) := by
                simp only [create_dept_recursive]
                rw [hm, if_neg hX, hdict]
                simp only [hmm2, create_department_dry, if_pos h0]
              have eR : create_dept_recursive cfg_real_ok dict (fuel + 1) X cR =
                  ((create_dept_recursive cfg_real_ok dict fuel
                     dept.parent_dept_id cR).2.1.db.nextDeptId,
                   { (create_dept_recursive cfg_real_ok dict fuel dept.parent_dept_id cR).2.1 with
                     dept_created_count := (create_dept_recursive cfg_real_ok dict fuel
                       dept.parent_dept_id cR).2.1.dept_created_count + 1,
                     dept_id_map := alist_insert (create_dept_recursive cfg_real_ok dict fuel
                       dept.parent_dept_id cR).2.1.dept_id_map X
                       (create_dept_recursive cfg_real_ok dict fuel
                         dept.parent_dept_id cR).2.1.db.nextDeptId,
                     ruoyi_depts := (create_dept_recursive cfg_real_ok dict fuel
                       dept.parent_dept_id cR).2.1.ruoyi_depts ++
                       [⟨(create_dept_recursive cfg_real_ok dict fuel
                           dept.parent_dept_id cR).2.1.db.nextDeptId,
                         (create_dept_recursive cfg_real_ok dict fuel dept.parent_dept_id cR).1,
                         build_ancestors (create_dept_recursive cfg_real_ok dict fuel
                           dept.parent_dept_id cR).2.1.ruoyi_depts
                           (create_dept_recursive cfg_real_ok dict fuel dept.parent_dept_id cR).1,
                         dept.dept_name, some dept.level, X, "", ""⟩],
                     ruoyi_dept_map := alist_insert (create_dept_recursive cfg_real_ok dict fuel
                       dept.parent_dept_id cR).2.1.ruoyi_dept_map X
                       ⟨(create_dept_recursive cfg_real_ok dict fuel
                          dept.parent_dept_id cR).2.1.db.nextDeptId,
                        (create_dept_recursive cfg_real_ok dict fuel dept.parent_dept_id cR).1,
                        build_ancestors (create_dept_recursive cfg_real_ok dict fuel
                          dept.parent_dept_id cR).2.1.ruoyi_depts
                          (create_dept_recursive cfg_real_ok dict fuel dept.parent_dept_id cR).1,
                        dept.dept_name, some dept.level, X, "", ""⟩,
                     db := (db_insert_dept (create_dept_recursive cfg_real_ok dict fuel
                       dept.parent_dept_id cR).2.1.db
                       ⟨dept.dept_name,
                        (create_dept_recursive cfg_real_ok dict fuel dept.parent_dept_id cR).1,
                        build_ancestors (create_dept_recursive cfg_real_ok dict fuel
                          dept.parent_dept_id cR).2.1.ruoyi_depts
                          (create_dept_recursive cfg_real_ok dict fuel dept.parent_dept_id cR).1,
                        0, dept.level, X⟩).2 },
                   (create_dept_recursive cfg_real_ok dict fuel dept.parent_dept_id cR).2.2 ++
                     [SyncEvent.createDept X
                       ⟨dept.dept_name,
                        (create_dept_recursive cfg_real_ok dict fuel dept.parent_dept_id cR).1,
                        build_ancestors (create_dept_recursive cfg_real_ok dict fuel
                          dept.parent_dept_id cR).2.1.ruoyi_depts
                          (create_dept_recursive cfg_real_ok dict fuel dept.parent_dept_id cR).1,
                        0, dept.level, X⟩
                       (some (create_dept_recursive cfg_real_ok dict fuel
                         dept.parent_dept_id cR).2.1.db.nextDeptId)]) := by
                simp only [create_dept_recursive]
                rw [hmR, if_neg hX, hdict]
                simp only [hmm2R, create_department_real, if_pos h0R]
              rw [eD, eR]
              refine ⟨hsim1.next_dept.symm, ?_, ?_⟩
              · refine ⟨?_, ?_, ?_, ?_, ?_, ?_, ?_, ?_, ?_, ?_⟩
                · dsimp only
                  rw [hsim1.map_eq, hsim1.next_dept]
                · dsimp only
                  rw [hsim1.rows_eq, hret, hsim1.next_dept]
                · dsimp only
                  rw [hsim1.rmap_eq, hsim1.rows_eq, hret, hsim1.next_dept]
                · dsimp only
                  rw [hsim1.created_eq]
                · exact hsim1.updated_eq
                · exact hsim1.dry_db
                · show (create_dept_recursive cfg_real_ok dict fuel
                      dept.parent_dept_id cR).2.1.db.nextDeptId + 1 =
                    db0.nextDeptId + ((create_dept_recursive (cfg_dry_fresh db0) dict fuel
                      dept.parent_dept_id cD).2.1.randIdx + 1)
                  rw [hsim1.next_dept]
                  omega
                · exact hsim1.users_eq
                · exact hsim1.roles_eq
                · exact hsim1.next_user
              · dsimp only
                rw [hev, hsim1.rows_eq, hret, hsim1.next_dept]
            · have h0R : ¬ (create_dept_recursive cfg_real_ok dict fuel
                  dept.parent_dept_id cR).2.1.db.nextDeptId ≠ 0 := by
                rw [hsim1.next_dept]
                exact h0
              have eD : create_dept_recursive (cfg_dry_fresh db0) dict (fuel + 1) X cD =
                  ((create_dept_recursive (cfg_dry_fresh db0) dict fuel
                     dept.parent_dept_id cD).1,
                   { (create_dept_recursive (cfg_dry_fresh db0) dict fuel
                       dept.parent_dept_id cD).2.1 with
                     randIdx := (create_dept_recursive (cfg_dry_fresh db0) dict fuel
                       dept.parent_dept_id cD).2.1.randIdx + 1 },
                   (create_dept_recursive (cfg_dry_fresh db0) dict fuel
                     dept.parent_dept_id cD).2.2 ++
                     [SyncEvent.createDept X
                       ⟨dept.dept_name,
                        (create_dept_recursive (cfg_dry_fresh db0) dict fuel
                          dept.parent_dept_id cD).1,
                        build_ancestors (create_dept_recursive (cfg_dry_fresh db0) dict fuel
                          dept.parent_dept_id cD).2.1.ruoyi_depts
                          (create_dept_recursive (cfg_dry_fresh db0) dict fuel
                            dept.parent_dept_id cD).1,
                        0, dept.level, X⟩
                       (some (db0.nextDeptId + (create_dept_recursive (cfg_dry_fresh db0) dict
                         fuel dept.parent_dept_id cD).2.1.randIdx))]) := by
                simp only [create_dept_recursive]
                rw [hm, if_neg hX, hdict]
                simp only [hmm2, create_department_dry]
                rw [if_neg h0]
              have eR : create_dept_recursive cfg_real_ok dict (fuel + 1) X cR =
                  ((create_dept_recursive cfg_real_ok dict fuel dept.parent_dept_id cR).1,
                   { (create_dept_recursive cfg_real_ok dict fuel dept.parent_dept_id cR).2.1 with
                     db := (db_insert_dept (create_dept_recursive cfg_real_ok dict fuel
                       dept.parent_dept_id cR).2.1.db
                       ⟨dept.dept_name,
                        (create_dept_recursive cfg_real_ok dict fuel dept.parent_dept_id cR).1,
                        build_ancestors (create_dept_recursive cfg_real_ok dict fuel
                          dept.parent_dept_id cR).2.1.ruoyi_depts
                          (create_dept_recursive cfg_real_ok dict fuel dept.parent_dept_id cR).1,
                        0, dept.level, X⟩).2 },
                   (create_dept_recursive cfg_real_ok dict fuel dept.parent_dept_id cR).2.2 ++
                     [SyncEvent.createDept X
                       ⟨dept.dept_name,
                        (create_dept_recursive cfg_real_ok dict fuel dept.parent_dept_id cR).1,
                        build_ancestors (create_dept_recursive cfg_real_ok dict fuel
                          dept.parent_dept_id cR).2.1.ruoyi_depts
                          (create_dept_recursive cfg_real_ok dict fuel dept.parent_dept_id cR).1,
                        0, dept.level, X⟩
                       (some (create_dept_recursive cfg_real_ok dict fuel
                         dept.parent_dept_id cR).2.1.db.nextDeptId)]) := by
                simp only [create_dept_recursive]
                rw [hmR, if_neg hX, hdict]
                simp only [hmm2R, create_department_real]
                rw [if_neg h0R]
              rw [eD, eR]
              refine ⟨hret, ?_, ?_⟩
              · refine ⟨?_, ?_, ?_, ?_, ?_, ?_, ?_, ?_, ?_, ?_⟩
                · exact hsim1.map_eq
                · exact hsim1.rows_eq
                · exact hsim1.rmap_eq
                · exact hsim1.created_eq
                · exact hsim1.updated_eq
                · exact hsim1.dry_db
                · show (create_dept_recursive cfg_real_ok dict fuel
                      dept.parent_dept_id cR).2.1.db.nextDeptId + 1 =
                    db0.nextDeptId + ((create_dept_recursive (cfg_dry_fresh db0) dict fuel
                      dept.parent_dept_id cD).2.1.randIdx + 1)
                  rw [hsim1.next_dept]
                  omega
                · exact hsim1.users_eq
                · exact hsim1.roles_eq
                · exact hsim1.next_user
              · dsimp only
                rw [hev, hsim1.rows_eq, hret, hsim1.next_dept]
          · -- both match an existing target row
            have hmm2R : alist_find (create_dept_recursive cfg_real_ok dict fuel
                dept.parent_dept_id cR).2.1.ruoyi_dept_map X = some existing := by
              rw [← hsim1.rmap_eq]
              exact hmm2
            by_cases hinfo : dept_diffs existing dept
                (create_dept_recursive (cfg_dry_fresh db0) dict fuel dept.parent_dept_id cD).1 ≠ []
            · have hinfoR : dept_diffs existing dept
                  (create_dept_recursive cfg_real_ok dict fuel dept.parent_dept_id cR).1 ≠ [] := by
                rw [← hret]
                exact hinfo
              have eD : create_dept_recursive (cfg_dry_fresh db0) dict (fuel + 1) X cD =
                  (existing.dept_id,
                   { (create_dept_recursive (cfg_dry_fresh db0) dict fuel
                       dept.parent_dept_id cD).2.1 with
                     dept_id_map := alist_insert (create_dept_recursive (cfg_dry_fresh db0) dict
                       fuel dept.parent_dept_id cD).2.1.dept_id_map X existing.dept_id,
                     dept_updated_count := (create_dept_recursive (cfg_dry_fresh db0) dict fuel
                       dept.parent_dept_id cD).2.1.dept_updated_count + 1 },
                   (create_dept_recursive (cfg_dry_fresh db0) dict fuel
                     dept.parent_dept_id cD).2.2 ++
                     [SyncEvent.matchedDept X existing,
                      SyncEvent.updateDept existing.dept_id
                        ⟨dept.dept_name,
                         (create_dept_recursive (cfg_dry_fresh db0) dict fuel
                           dept.parent_dept_id cD).1,
                         build_ancestors (create_dept_recursive (cfg_dry_fresh db0) dict fuel
                           dept.parent_dept_id cD).2.1.ruoyi_depts
                           (create_dept_recursive (cfg_dry_fresh db0) dict fuel
                             dept.parent_dept_id cD).1,
                         dept.level⟩
                        (dept_diffs existing dept (create_dept_recursive (cfg_dry_fresh db0)
                          dict fuel dept.parent_dept_id cD).1)]) := by
                simp only [create_dept_recursive]
                rw [hm, if_neg hX, hdict]
                simp only [hmm2, update_department_dry]
                rw [if_pos hinfo]
              have eR : create_dept_recursive cfg_real_ok dict (fuel + 1) X cR =
                  (existing.dept_id,
                   { (create_dept_recursive cfg_real_ok dict fuel dept.parent_dept_id cR).2.1 with
                     dept_id_map := alist_insert (create_dept_recursive cfg_real_ok dict fuel
                       dept.parent_dept_id cR).2.1.dept_id_map X existing.dept_id,
                     dept_updated_count := (create_dept_recursive cfg_real_ok dict fuel
                       dept.parent_dept_id cR).2.1.dept_updated_count + 1,
                     db := db_update_dept (create_dept_recursive cfg_real_ok dict fuel
                       dept.parent_dept_id cR).2.1.db existing.dept_id
                       ⟨dept.dept_name,
                        (create_dept_recursive cfg_real_ok dict fuel dept.parent_dept_id cR).1,
                        build_ancestors (create_dept_recursive cfg_real_ok dict fuel
                          dept.parent_dept_id cR).2.1.ruoyi_depts
                          (create_dept_recursive cfg_real_ok dict fuel dept.parent_dept_id cR).1,
                        dept.level⟩ },
                   (create_dept_recursive cfg_real_ok dict fuel dept.parent_dept_id cR).2.2 ++
                     [SyncEvent.matchedDept X existing,
                      SyncEvent.updateDept existing.dept_id
                        ⟨dept.dept_name,
                         (create_dept_recursive cfg_real_ok dict fuel dept.parent_dept_id cR).1,
                         build_ancestors (create_dept_recursive cfg_real_ok dict fuel
                           dept.parent_dept_id cR).2.1.ruoyi_depts
                           (create_dept_recursive cfg_real_ok dict fuel dept.parent_dept_id cR).1,
                         dept.level⟩
                        (dept_diffs existing dept (create_dept_recursive cfg_real_ok dict fuel
                          dept.parent_dept_id cR).1)]) := by
                simp only [create_dept_recursive]
                rw [hmR, if_neg hX, hdict]
                simp only [hmm2R, update_department_real]
                rw [if_pos hinfoR]
              rw [eD, eR]
              refine ⟨rfl, ?_, ?_⟩
              · refine ⟨?_, ?_, ?_, ?_, ?_, ?_, ?_, ?_, ?_, ?_⟩
                · dsimp only
                  rw [hsim1.map_eq]
                · exact hsim1.rows_eq
                · exact hsim1.rmap_eq
                · exact hsim1.created_eq
                · dsimp only
                  rw [hsim1.updated_eq]
                · exact hsim1.dry_db
                · exact hsim1.next_dept
                · exact hsim1.users_eq
                · exact hsim1.roles_eq
                · exact hsim1.next_user
              · dsimp only
                rw [hev, hsim1.rows_eq, hret]
            · have hinfoR : ¬ dept_diffs existing dept
                  (create_dept_recursive cfg_real_ok dict fuel dept.parent_dept_id cR).1 ≠ [] := by
                rw [← hret]
                exact hinfo
              have eD : create_dept_recursive (cfg_dry_fresh db0) dict (fuel + 1) X cD =
                  (existing.dept_id,
                   { (create_dept_recursive (cfg_dry_fresh db0) dict fuel
                       dept.parent_dept_id cD).2.1 with
                     dept_id_map := alist_insert (create_dept_recursive (cfg_dry_fresh db0) dict
                       fuel dept.parent_dept_id cD).2.1.dept_id_map X existing.dept_id },
                   (create_dept_recursive (cfg_dry_fresh db0) dict fuel
                     dept.parent_dept_id cD).2.2 ++
                     [SyncEvent.matchedDept X existing]) := by
                simp only [create_dept_recursive]
                rw [hm, if_neg hX, hdict]
                simp only [hmm2]
                rw [if_neg hinfo]
              have eR : create_dept_recursive cfg_real_ok dict (fuel + 1) X cR =
                  (existing.dept_id,
                   { (create_dept_recursive cfg_real_ok dict fuel dept.parent_dept_id cR).2.1 with
                     dept_id_map := alist_insert (create_dept_recursive cfg_real_ok dict fuel
                       dept.parent_dept_id cR).2.1.dept_id_map X existing.dept_id },
                   (create_dept_recursive cfg_real_ok dict fuel dept.parent_dept_id cR).2.2 ++
                     [SyncEvent.matchedDept X existing]) := by
                simp only [create_dept_recursive]
                rw [hmR, if_neg hX, hdict]
                simp only [hmm2R]
                rw [if_neg hinfoR]
              rw [eD, eR]
              refine ⟨rfl, ?_, ?_⟩
              · refine ⟨?_, ?_, ?_, ?_, ?_, ?_, ?_, ?_, ?_, ?_⟩
                · dsimp only
                  rw [hsim1.map_eq]
                · exact hsim1.rows_eq
                · exact hsim1.rmap_eq
                · exact hsim1.created_eq
                · exact hsim1.updated_eq
                · exact hsim1.dry_db
                · exact hsim1.next_dept
                · exact hsim1.users_eq
                · exact hsim1.roles_eq
                · exact hsim1.next_user
              · dsimp only
                rw [hev]
    · have hmR : alist_find cR.dept_id_map X = some rid := by
        rw [← hsim.map_eq]
        exact hm
      have eD : create_dept_recursive (cfg_dry_fresh db0) dict (fuel + 1) X cD =
          (rid, cD, []) := by
        simp only [create_dept_recursive]
        rw [hm]
      have eR : create_dept_recursive cfg_real_ok dict (fuel + 1) X cR =
          (rid, cR, []) := by
        simp only [create_dept_recursive]
        rw [hmR]
      rw [eD, eR]
      exact ⟨rfl, hsim, rfl⟩

/-- One level pass runs in lockstep between the AUTO_INCREMENT-matching dry
run and the real all-success run. -/
theorem dept_fold_lockstep (db0 : DBState) (dict : List (String × FeishuDept))
    (fuel : Nat) :
    ∀ (l : List FeishuDept) (cD cR : DeptCore) (evD evR : List SyncEvent),
      DeptSim db0 cD cR → evD = evR →
      DeptSim db0
        (writer_fold (dept_sync_step (cfg_dry_fresh db0) dict fuel) (cD, evD) l).1
        (writer_fold (dept_sync_step cfg_real_ok dict fuel) (cR, evR) l).1 ∧
      (writer_fold (dept_sync_step (cfg_dry_fresh db0) dict fuel) (cD, evD) l).2 =
        (writer_fold (dept_sync_step cfg_real_ok dict fuel) (cR, evR) l).2 := by
  intro l
  induction l with
  | nil =>
    intro cD cR evD evR hsim hev
    exact ⟨hsim, hev⟩
  | cons d t ih =>
    intro cD cR evD evR hsim hev
    obtain ⟨hret, hsim1, hev1⟩ := cdr_lockstep db0 dict fuel d.dept_id cD cR hsim
    have hconsD : writer_fold (dept_sync_step (cfg_dry_fresh db0) dict fuel)
        (cD, evD) (d :: t) =
        writer_fold (dept_sync_step (cfg_dry_fresh db0) dict fuel)
          ((create_dept_recursive (cfg_dry_fresh db0) dict fuel d.dept_id cD).2.1,
           evD ++ (create_dept_recursive (cfg_dry_fresh db0) dict fuel d.dept_id cD).2.2)
          t := rfl
    have hconsR : writer_fold (dept_sync_step cfg_real_ok dict fuel) (cR, evR) (d :: t) =
        writer_fold (dept_sync_step cfg_real_ok dict fuel)
          ((create_dept_recursive cfg_real_ok dict fuel d.dept_id cR).2.1,
           evR ++ (create_dept_recursive cfg_real_ok dict fuel d.dept_id cR).2.2) t := rfl
    rw [hconsD, hconsR]
    exact ih _ _ _ _ hsim1 (by rw [hev, hev1])

/-- The full 0..5 level loop runs in lockstep. -/
theorem dept_levels_lockstep (db0 : DBState) (dict : List (String × FeishuDept))
    (fuel : Nat) (feishu_depts : List FeishuDept) :
    ∀ (levels : List Nat) (cD cR : DeptCore) (evD evR : List SyncEvent),
      DeptSim db0 cD cR → evD = evR →
      DeptSim db0
        (levels.foldl (fun acc level => writer_fold
          (dept_sync_step (cfg_dry_fresh db0) dict fuel)
          acc (feishu_depts.filter (fun d => d.level == level))) (cD, evD)).1
        (levels.foldl (fun acc level => writer_fold (dept_sync_step cfg_real_ok dict fuel)
          acc (feishu_depts.filter (fun d => d.level == level))) (cR, evR)).1 ∧
      (levels.foldl (fun acc level => writer_fold
        (dept_sync_step (cfg_dry_fresh db0) dict fuel)
        acc (feishu_depts.filter (fun d => d.level == level))) (cD, evD)).2 =
      (levels.foldl (fun acc level => writer_fold (dept_sync_step cfg_real_ok dict fuel)
        acc (feishu_depts.filter (fun d => d.level == level))) (cR, evR)).2 := by
  intro levels
  induction levels with
  | nil =>
    intro cD cR evD evR hsim hev
    exact ⟨hsim, hev⟩
  | cons lv t ih =>
    intro cD cR evD evR hsim hev
    obtain ⟨hsim1, hev1⟩ := dept_fold_lockstep db0 dict fuel
      (feishu_depts.filter (fun d => d.level == lv)) cD cR evD evR hsim hev
    have hconsD : (lv :: t).foldl (fun acc level => writer_fold
        (dept_sync_step (cfg_dry_fresh db0) dict fuel)
        acc (feishu_depts.filter (fun d => d.level == level))) (cD, evD) =
        t.foldl (fun acc level => writer_fold
          (dept_sync_step (cfg_dry_fresh db0) dict fuel)
          acc (feishu_depts.filter (fun d => d.level == level)))
          ((writer_fold (dept_sync_step (cfg_dry_fresh db0) dict fuel) (cD, evD)
            (feishu_depts.filter (fun d => d.level == lv))).1,
           (writer_fold (dept_sync_step (cfg_dry_fresh db0) dict fuel) (cD, evD)
            (feishu_depts.filter (fun d => d.level == lv))).2) := rfl
    have hconsR : (lv :: t).foldl (fun acc level => writer_fold
        (dept_sync_step cfg_real_ok dict fuel)
        acc (feishu_depts.filter (fun d => d.level == level))) (cR, evR) =
        t.foldl (fun acc level => writer_fold (dept_sync_step cfg_real_ok dict fuel)
          acc (feishu_depts.filter (fun d => d.level == level)))
          ((writer_fold (dept_sync_step cfg_real_ok dict fuel) (cR, evR)
            (feishu_depts.filter (fun d => d.level == lv))).1,
           (writer_fold (dept_sync_step cfg_real_ok dict fuel) (cR, evR)
            (feishu_depts.filter (fun d => d.level == lv))).2) := rfl
    rw [hconsD, hconsR]
    exact ih _ _ _ _ hsim1 hev1

/-- The dry-mode stale-department fold is the identity. -/
theorem disable_dept_fold_dry (db0 : DBState) :
    ∀ (l : List RuoYiDept) (c : DeptCore),
      l.foldl (fun cc d => disable_department (cfg_dry_fresh db0) cc d.dept_id) c = c := by
  intro l
  induction l with
  | nil => intro c; rfl
  | cons d t ih =>
    intro c
    rw [List.foldl_cons, disable_department_dry]
    exact ih c

/-- The real-mode stale-department fold only flips status flags in the
database: every engine-visible component and every database component other
than the department rows is unchanged. -/
theorem disable_dept_fold_real_visible :
    ∀ (l : List RuoYiDept) (c : DeptCore),
      (l.foldl (fun cc d => disable_department cfg_real_ok cc d.dept_id) c).dept_id_map =
        c.dept_id_map ∧
      (l.foldl (fun cc d => disable_department cfg_real_ok cc d.dept_id) c).ruoyi_depts =
        c.ruoyi_depts ∧
      (l.foldl (fun cc d => disable_department cfg_real_ok cc d.dept_id) c).ruoyi_dept_map =
        c.ruoyi_dept_map ∧
      (l.foldl (fun cc d => disable_department cfg_real_ok cc d.dept_id)
        c).dept_created_count = c.dept_created_count ∧
      (l.foldl (fun cc d => disable_department cfg_real_ok cc d.dept_id)
        c).dept_updated_count = c.dept_updated_count ∧
      (l.foldl (fun cc d => disable_department cfg_real_ok cc d.dept_id) c).db.users =
        c.db.users ∧
      (l.foldl (fun cc d => disable_department cfg_real_ok cc d.dept_id) c).db.user_roles =
        c.db.user_roles ∧
      (l.foldl (fun cc d => disable_department cfg_real_ok cc d.dept_id) c).db.nextUserId =
        c.db.nextUserId := by
  intro l
  induction l with
  | nil => intro c; exact ⟨rfl, rfl, rfl, rfl, rfl, rfl, rfl, rfl⟩
  | cons d t ih =>
    intro c
    rw [List.foldl_cons]
    exact ih (disable_department cfg_real_ok c d.dept_id)

/-- The department phase runs in lockstep: identical mapping, working lists,
counters and events; the dry run returns the database untouched, and the
real run has not touched the user tables or the user AUTO_INCREMENT. -/
theorem sync_departments_lockstep (feishu_depts : List FeishuDept) (db0 : DBState) :
    (sync_departments (cfg_dry_fresh db0) feishu_depts db0).dept_id_map =
      (sync_departments cfg_real_ok feishu_depts db0).dept_id_map ∧
    (sync_departments (cfg_dry_fresh db0) feishu_depts db0).ruoyi_depts =
      (sync_departments cfg_real_ok feishu_depts db0).ruoyi_depts ∧
    (sync_departments (cfg_dry_fresh db0) feishu_depts db0).ruoyi_dept_map =
      (sync_departments cfg_real_ok feishu_depts db0).ruoyi_dept_map ∧
    (sync_departments (cfg_dry_fresh db0) feishu_depts db0).dept_created_count =
      (sync_departments cfg_real_ok feishu_depts db0).dept_created_count ∧
    (sync_departments (cfg_dry_fresh db0) feishu_depts db0).dept_updated_count =
      (sync_departments cfg_real_ok feishu_depts db0).dept_updated_count ∧
    (sync_departments (cfg_dry_fresh db0) feishu_depts db0).dept_disabled_count =
      (sync_departments cfg_real_ok feishu_depts db0).dept_disabled_count ∧
    (sync_departments (cfg_dry_fresh db0) feishu_depts db0).events =
      (sync_departments cfg_real_ok feishu_depts db0).events ∧
    (sync_departments (cfg_dry_fresh db0) feishu_depts db0).db = db0 ∧
    (sync_departments cfg_real_ok feishu_depts db0).db.users = db0.users ∧
    (sync_departments cfg_real_ok feishu_depts db0).db.user_roles = db0.user_roles ∧
    (sync_departments cfg_real_ok feishu_depts db0).db.nextUserId = db0.nextUserId := by
  have hsim0 : DeptSim db0
      ⟨[], db_get_departments db0,
       (db_get_departments db0).foldl
         (fun m d => if d.feishu_dept_id ≠ "" then alist_insert m d.feishu_dept_id d else m)
         [], 0, 0, 0, db0⟩
      ⟨[], db_get_departments db0,
       (db_get_departments db0).foldl
         (fun m d => if d.feishu_dept_id ≠ "" then alist_insert m d.feishu_dept_id d else m)
         [], 0, 0, 0, db0⟩ :=
    ⟨rfl, rfl, rfl, rfl, rfl, rfl, (Nat.add_zero _).symm, rfl, rfl, rfl⟩
  obtain ⟨hsimL, hevL⟩ := dept_levels_lockstep db0 (dept_dict feishu_depts)
    (feishu_depts.length + 7) feishu_depts (List.range 6)
    ⟨[], db_get_departments db0,
     (db_get_departments db0).foldl
       (fun m d => if d.feishu_dept_id ≠ "" then alist_insert m d.feishu_dept_id d else m)
       [], 0, 0, 0, db0⟩
    ⟨[], db_get_departments db0,
     (db_get_departments db0).foldl
       (fun m d => if d.feishu_dept_id ≠ "" then alist_insert m d.feishu_dept_id d else m)
       [], 0, 0, 0, db0⟩ [] [] hsim0 rfl
  set ACCD := (List.range 6).foldl (fun acc level => writer_fold
    (dept_sync_step (cfg_dry_fresh db0) (dept_dict feishu_depts) (feishu_depts.length + 7))
    acc (feishu_depts.filter (fun d => d.level == level)))
    ((⟨[], db_get_departments db0,
      (db_get_departments db0).foldl
        (fun m d => if d.feishu_dept_id ≠ "" then alist_insert m d.feishu_dept_id d else m)
        [], 0, 0, 0, db0⟩ : DeptCore), []) with hACCD
  set ACCR := (List.range 6).foldl (fun acc level => writer_fold
    (dept_sync_step cfg_real_ok (dept_dict feishu_depts) (feishu_depts.length + 7))
    acc (feishu_depts.filter (fun d => d.level == level)))
    ((⟨[], db_get_departments db0,
      (db_get_departments db0).foldl
        (fun m d => if d.feishu_dept_id ≠ "" then alist_insert m d.feishu_dept_id d else m)
        [], 0, 0, 0, db0⟩ : DeptCore), []) with hACCR
  have htd : ACCD.1.ruoyi_depts.filter
      (dept_disable_filter (feishu_depts.map (·.dept_id))) =
      ACCR.1.ruoyi_depts.filter (dept_disable_filter (feishu_depts.map (·.dept_id))) := by
    rw [hsimL.rows_eq]
  have hdryeq : sync_departments (cfg_dry_fresh db0) feishu_depts db0 =
      ⟨(ACCD.1.ruoyi_depts.filter
          (dept_disable_filter (feishu_depts.map (·.dept_id))) |>.foldl
          (fun cc d => disable_department (cfg_dry_fresh db0) cc d.dept_id)
          ACCD.1).dept_id_map,
       (ACCD.1.ruoyi_depts.filter
          (dept_disable_filter (feishu_depts.map (·.dept_id))) |>.foldl
          (fun cc d => disable_department (cfg_dry_fresh db0) cc d.dept_id)
          ACCD.1).ruoyi_depts,
       (ACCD.1.ruoyi_depts.filter
          (dept_disable_filter (feishu_depts.map (·.dept_id))) |>.foldl
          (fun cc d => disable_department (cfg_dry_fresh db0) cc d.dept_id)
          ACCD.1).ruoyi_dept_map,
       (ACCD.1.ruoyi_depts.filter
          (dept_disable_filter (feishu_depts.map (·.dept_id))) |>.foldl
          (fun cc d => disable_department (cfg_dry_fresh db0) cc d.dept_id)
          ACCD.1).dept_created_count,
       (ACCD.1.ruoyi_depts.filter
          (dept_disable_filter (feishu_depts.map (·.dept_id))) |>.foldl
          (fun cc d => disable_department (cfg_dry_fresh db0) cc d.dept_id)
          ACCD.1).dept_updated_count,
       (ACCD.1.ruoyi_depts.filter
          (dept_disable_filter (feishu_depts.map (·.dept_id)))).length,
       (ACCD.1.ruoyi_depts.filter
          (dept_disable_filter (feishu_depts.map (·.dept_id))) |>.foldl
          (fun cc d => disable_department (cfg_dry_fresh db0) cc d.dept_id)
          ACCD.1).db,
       ACCD.2 ++ (ACCD.1.ruoyi_depts.filter
          (dept_disable_filter (feishu_depts.map (·.dept_id)))).map
          (fun d => SyncEvent.disableDept d.dept_id d.dept_name)⟩ := rfl
  have hrealeq : sync_departments cfg_real_ok feishu_depts db0 =
      ⟨(ACCR.1.ruoyi_depts.filter
          (dept_disable_filter (feishu_depts.map (·.dept_id))) |>.foldl
          (fun cc d => disable_department cfg_real_ok cc d.dept_id)
          ACCR.1).dept_id_map,
       (ACCR.1.ruoyi_depts.filter
          (dept_disable_filter (feishu_depts.map (·.dept_id))) |>.foldl
          (fun cc d => disable_department cfg_real_ok cc d.dept_id)
          ACCR.1).ruoyi_depts,
       (ACCR.1.ruoyi_depts.filter
          (dept_disable_filter (feishu_depts.map (·.dept_id))) |>.foldl
          (fun cc d => disable_department cfg_real_ok cc d.dept_id)
          ACCR.1).ruoyi_dept_map,
       (ACCR.1.ruoyi_depts.filter
          (dept_disable_filter (feishu_depts.map (·.dept_id))) |>.foldl
          (fun cc d => disable_department cfg_real_ok cc d.dept_id)
          ACCR.1).dept_created_count,
       (ACCR.1.ruoyi_depts.filter
          (dept_disable_filter (feishu_depts.map (·.dept_id))) |>.foldl
          (fun cc d => disable_department cfg_real_ok cc d.dept_id)
          ACCR.1).dept_updated_count,
       (ACCR.1.ruoyi_depts.filter
          (dept_disable_filter (feishu_depts.map (·.dept_id)))).length,
       (ACCR.1.ruoyi_depts.filter
          (dept_disable_filter (feishu_depts.map (·.dept_id))) |>.foldl
          (fun cc d => disable_department cfg_real_ok cc d.dept_id)
          ACCR.1).db,
       ACCR.2 ++ (ACCR.1.ruoyi_depts.filter
          (dept_disable_filter (feishu_depts.map (·.dept_id)))).map
          (fun d => SyncEvent.disableDept d.dept_id d.dept_name)⟩ := rfl
  rw [hdryeq, hrealeq]
  rw [disable_dept_fold_dry]
  obtain ⟨hR1, hR2, hR3, hR4, hR5, hR6, hR7, hR8⟩ :=
    disable_dept_fold_real_visible
      (ACCR.1.ruoyi_depts.filter (dept_disable_filter (feishu_depts.map (·.dept_id))))
      ACCR.1
  refine ⟨?_, ?_, ?_, ?_, ?_, ?_, ?_, ?_, ?_, ?_, ?_⟩
  · show ACCD.1.dept_id_map = _
    rw [hR1, hsimL.map_eq]
  · show ACCD.1.ruoyi_depts = _
    rw [hR2, hsimL.rows_eq]
  · show ACCD.1.ruoyi_dept_map = _
    rw [hR3, hsimL.rmap_eq]
  · show ACCD.1.dept_created_count = _
    rw [hR4, hsimL.created_eq]
  · show ACCD.1.dept_updated_count = _
    rw [hR5, hsimL.updated_eq]
  · show (ACCD.1.ruoyi_depts.filter
        (dept_disable_filter (feishu_depts.map (·.dept_id)))).length = _
    rw [htd]
  · show ACCD.2 ++ _ = ACCR.2 ++ _
    rw [hevL, htd]
  · show ACCD.1.db = db0
    exact hsimL.dry_db
  · show (_ : DeptCore).db.users = db0.users
    rw [hR6, hsimL.users_eq]
  · show (_ : DeptCore).db.user_roles = db0.user_roles
    rw [hR7, hsimL.roles_eq]
  · show (_ : DeptCore).db.nextUserId = db0.nextUserId
    rw [hR8, hsimL.next_user]

/-- One iteration of the user loop runs in lockstep between the
AUTO_INCREMENT-matching dry run and the real all-success run. -/
theorem user_step_lockstep (db0 : DBState) (dept_id_map : List (String × Nat))
    (ruoyi_depts : List RuoYiDept) (ruoyi_dept_map : List (String × RuoYiDept))
    (ruoyi_user_map : List (String × RuoYiUser)) :
    ∀ (fu : FeishuUser) (cD cR : UserCore), UserSim db0 cD cR →
      UserSim db0
        (user_step (cfg_dry_fresh db0) dept_id_map ruoyi_depts ruoyi_dept_map
          ruoyi_user_map cD fu).1
        (user_step cfg_real_ok dept_id_map ruoyi_depts ruoyi_dept_map
          ruoyi_user_map cR fu).1 ∧
      (user_step (cfg_dry_fresh db0) dept_id_map ruoyi_depts ruoyi_dept_map
        ruoyi_user_map cD fu).2 =
      (user_step cfg_real_ok dept_id_map ruoyi_depts ruoyi_dept_map
        ruoyi_user_map cR fu).2 := by
  intro fu cD cR hsim
  by_cases hu : fu.union_id = ""
  · have eD : user_step (cfg_dry_fresh db0) dept_id_map ruoyi_depts ruoyi_dept_map
        ruoyi_user_map cD fu = (cD, [SyncEvent.skipUser fu.user_id fu.name]) := by
      unfold user_step
      rw [if_pos hu]
    have eR : user_step cfg_real_ok dept_id_map ruoyi_depts ruoyi_dept_map
        ruoyi_user_map cR fu = (cR, [SyncEvent.skipUser fu.user_id fu.name]) := by
      unfold user_step
      rw [if_pos hu]
    rw [eD, eR]
    exact ⟨hsim, rfl⟩
  · rcases hfind : alist_find ruoyi_user_map fu.union_id with _ | existing
    · -- both create
      by_cases h0 : db0.nextUserId + cD.randIdxU ≠ 0
      · have h0R : cR.db.nextUserId ≠ 0 := by
          rw [hsim.next_user]
          exact h0
        have eD : user_step (cfg_dry_fresh db0) dept_id_map ruoyi_depts ruoyi_dept_map
            ruoyi_user_map cD fu =
            ({ cD with
               randIdxU := cD.randIdxU + 1,
               new_count := cD.new_count + 1,
               new_users := cD.new_users ++ [(fu.name, fu.user_id)] },
             [SyncEvent.createUser
               ⟨fu.user_id, fu.name, fu.enterprise_email, "", "0",
                (alist_find dept_id_map fu.dept_id).getD 100, fu.union_id, fu.open_id⟩
               (some (db0.nextUserId + cD.randIdxU))]) := by
          unfold user_step
          rw [if_neg hu, hfind]
          simp only [create_user_dry]
          rw [if_pos h0]
        have eR : user_step cfg_real_ok dept_id_map ruoyi_depts ruoyi_dept_map
            ruoyi_user_map cR fu =
            ({ cR with
               new_count := cR.new_count + 1,
               new_users := cR.new_users ++ [(fu.name, fu.user_id)],
               db := (db_insert_user cR.db
                 ⟨fu.user_id, fu.name, fu.enterprise_email, "", "0",
                  (alist_find dept_id_map fu.dept_id).getD 100, fu.union_id,
                  fu.open_id⟩).2 },
             [SyncEvent.createUser
               ⟨fu.user_id, fu.name, fu.enterprise_email, "", "0",
                (alist_find dept_id_map fu.dept_id).getD 100, fu.union_id, fu.open_id⟩
               (some cR.db.nextUserId)]) := by
          unfold user_step
          rw [if_neg hu, hfind]
          simp only [create_user_real]
          rw [if_pos h0R]
        rw [eD, eR]
        refine ⟨⟨?_, ?_, ?_, ?_, ?_, ?_⟩, ?_⟩
        · dsimp only
          rw [hsim.new_eq]
        · exact hsim.upd_eq
        · dsimp only
          rw [hsim.newl_eq]
        · exact hsim.updl_eq
        · exact hsim.dry_db
        · show cR.db.nextUserId + 1 = db0.nextUserId + (cD.randIdxU + 1)
          rw [hsim.next_user]
          omega
        · dsimp only
          rw [hsim.next_user]
      · have h0R : ¬ cR.db.nextUserId ≠ 0 := by
          rw [hsim.next_user]
          exact h0
        have eD : user_step (cfg_dry_fresh db0) dept_id_map ruoyi_depts ruoyi_dept_map
            ruoyi_user_map cD fu =
            ({ cD with randIdxU := cD.randIdxU + 1 },
             [SyncEvent.createUser
               ⟨fu.user_id, fu.name, fu.enterprise_email, "", "0",
                (alist_find dept_id_map fu.dept_id).getD 100, fu.union_id, fu.open_id⟩
               (some (db0.nextUserId + cD.randIdxU))]) := by
          unfold user_step
          rw [if_neg hu, hfind]
          simp only [create_user_dry]
          rw [if_neg h0]
        have eR : user_step cfg_real_ok dept_id_map ruoyi_depts ruoyi_dept_map
            ruoyi_user_map cR fu =
            ({ cR with db := (db_insert_user cR.db
                 ⟨fu.user_id, fu.name, fu.enterprise_email, "", "0",
                  (alist_find dept_id_map fu.dept_id).getD 100, fu.union_id,
                  fu.open_id⟩).2 },
             [SyncEvent.createUser
               ⟨fu.user_id, fu.name, fu.enterprise_email, "", "0",
                (alist_find dept_id_map fu.dept_id).getD 100, fu.union_id, fu.open_id⟩
               (some cR.db.nextUserId)]) := by
          unfold user_step
          rw [if_neg hu, hfind]
          simp only [create_user_real]
          rw [if_neg h0R]
        rw [eD, eR]
        refine ⟨⟨?_, ?_, ?_, ?_, ?_, ?_⟩, ?_⟩
        · exact hsim.new_eq
        · exact hsim.upd_eq
        · exact hsim.newl_eq
        · exact hsim.updl_eq
        · exact hsim.dry_db
        · show cR.db.nextUserId + 1 = db0.nextUserId + (cD.randIdxU + 1)
          rw [hsim.next_user]
          omega
        · dsimp only
          rw [hsim.next_user]
    · -- both matched
      by_cases hinfo : user_diffs ruoyi_depts ruoyi_dept_map existing fu.name
          fu.enterprise_email fu.open_id
          ((alist_find dept_id_map fu.dept_id).getD 100) ≠ []
      · have eD : user_step (cfg_dry_fresh db0) dept_id_map ruoyi_depts ruoyi_dept_map
            ruoyi_user_map cD fu =
            ({ cD with
               update_count := cD.update_count + 1,
               updated_users := cD.updated_users ++
                 [(fu.name, fu.user_id,
                   user_diffs ruoyi_depts ruoyi_dept_map existing fu.name
                     fu.enterprise_email fu.open_id
                     ((alist_find dept_id_map fu.dept_id).getD 100))] },
             [SyncEvent.updateUser existing.user_id
               ⟨fu.user_id, fu.name, fu.enterprise_email, "", "0",
                (alist_find dept_id_map fu.dept_id).getD 100, fu.union_id, fu.open_id⟩
               (user_diffs ruoyi_depts ruoyi_dept_map existing fu.name
                 fu.enterprise_email fu.open_id
                 ((alist_find dept_id_map fu.dept_id).getD 100))]) := by
          unfold user_step
          rw [if_neg hu, hfind]
          simp only [update_user_dry]
          rw [if_pos hinfo]
          simp
        have eR : user_step cfg_real_ok dept_id_map ruoyi_depts ruoyi_dept_map
            ruoyi_user_map cR fu =
            ({ cR with
               update_count := cR.update_count + 1,
               updated_users := cR.updated_users ++
                 [(fu.name, fu.user_id,
                   user_diffs ruoyi_depts ruoyi_dept_map existing fu.name
                     fu.enterprise_email fu.open_id
                     ((alist_find dept_id_map fu.dept_id).getD 100))],
               db := db_update_user cR.db existing.user_id
                 ⟨fu.user_id, fu.name, fu.enterprise_email, "", "0",
                  (alist_find dept_id_map fu.dept_id).getD 100, fu.union_id,
                  fu.open_id⟩ },
             [SyncEvent.updateUser existing.user_id
               ⟨fu.user_id, fu.name, fu.enterprise_email, "", "0",
                (alist_find dept_id_map fu.dept_id).getD 100, fu.union_id, fu.open_id⟩
               (user_diffs ruoyi_depts ruoyi_dept_map existing fu.name
                 fu.enterprise_email fu.open_id
                 ((alist_find dept_id_map fu.dept_id).getD 100))]) := by
          unfold user_step
          rw [if_neg hu, hfind]
          simp only [update_user_real]
          rw [if_pos hinfo]
          simp
        rw [eD, eR]
        refine ⟨⟨?_, ?_, ?_, ?_, ?_, ?_⟩, rfl⟩
        · exact hsim.new_eq
        · dsimp only
          rw [hsim.upd_eq]
        · exact hsim.newl_eq
        · dsimp only
          rw [hsim.updl_eq]
        · exact hsim.dry_db
        · exact hsim.next_user
      · have eD : user_step (cfg_dry_fresh db0) dept_id_map ruoyi_depts ruoyi_dept_map
            ruoyi_user_map cD fu = (cD, []) := by
          unfold user_step
          rw [if_neg hu, hfind]
          simp only
          rw [if_neg hinfo]
        have eR : user_step cfg_real_ok dept_id_map ruoyi_depts ruoyi_dept_map
            ruoyi_user_map cR fu = (cR, []) := by
          unfold user_step
          rw [if_neg hu, hfind]
          simp only
          rw [if_neg hinfo]
        rw [eD, eR]
        exact ⟨hsim, rfl⟩

/-- The whole user loop runs in lockstep. -/
theorem user_fold_lockstep (db0 : DBState) (dept_id_map : List (String × Nat))
    (ruoyi_depts : List RuoYiDept) (ruoyi_dept_map : List (String × RuoYiDept))
    (ruoyi_user_map : List (String × RuoYiUser)) :
    ∀ (l : List FeishuUser) (cD cR : UserCore) (evD evR : List SyncEvent),
      UserSim db0 cD cR → evD = evR →
      UserSim db0
        (writer_fold (user_step (cfg_dry_fresh db0) dept_id_map ruoyi_depts
          ruoyi_dept_map ruoyi_user_map) (cD, evD) l).1
        (writer_fold (user_step cfg_real_ok dept_id_map ruoyi_depts
          ruoyi_dept_map ruoyi_user_map) (cR, evR) l).1 ∧
      (writer_fold (user_step (cfg_dry_fresh db0) dept_id_map ruoyi_depts
        ruoyi_dept_map ruoyi_user_map) (cD, evD) l).2 =
      (writer_fold (user_step cfg_real_ok dept_id_map ruoyi_depts
        ruoyi_dept_map ruoyi_user_map) (cR, evR) l).2 := by
  intro l
  induction l with
  | nil =>
    intro cD cR evD evR hsim hev
    exact ⟨hsim, hev⟩
  | cons fu t ih =>
    intro cD cR evD evR hsim hev
    obtain ⟨hsim1, hev1⟩ := user_step_lockstep db0 dept_id_map ruoyi_depts
      ruoyi_dept_map ruoyi_user_map fu cD cR hsim
    have hconsD : writer_fold (user_step (cfg_dry_fresh db0) dept_id_map ruoyi_depts
        ruoyi_dept_map ruoyi_user_map) (cD, evD) (fu :: t) =
        writer_fold (user_step (cfg_dry_fresh db0) dept_id_map ruoyi_depts
          ruoyi_dept_map ruoyi_user_map)
          ((user_step (cfg_dry_fresh db0) dept_id_map ruoyi_depts ruoyi_dept_map
            ruoyi_user_map cD fu).1,
           evD ++ (user_step (cfg_dry_fresh db0) dept_id_map ruoyi_depts ruoyi_dept_map
            ruoyi_user_map cD fu).2) t := rfl
    have hconsR : writer_fold (user_step cfg_real_ok dept_id_map ruoyi_depts
        ruoyi_dept_map ruoyi_user_map) (cR, evR) (fu :: t) =
        writer_fold (user_step cfg_real_ok dept_id_map ruoyi_depts
          ruoyi_dept_map ruoyi_user_map)
          ((user_step cfg_real_ok dept_id_map ruoyi_depts ruoyi_dept_map
            ruoyi_user_map cR fu).1,
           evR ++ (user_step cfg_real_ok dept_id_map ruoyi_depts ruoyi_dept_map
            ruoyi_user_map cR fu).2) t := rfl
    rw [hconsD, hconsR]
    exact ih _ _ _ _ hsim1 (by rw [hev, hev1])

/-- The dry-mode stale-user fold: every disable call reports success, so the
count and detail list grow by one per stale user while the engine state is
untouched. -/
theorem disable_user_fold_dry (db0 : DBState) :
    ∀ (l : List RuoYiUser) (c : UserCore) (n : Nat) (ds : List (String × String)),
      (l.foldl (fun (p : UserCore × Nat × List (String × String)) u =>
          let r := disable_user (cfg_dry_fresh db0) p.1 u.user_id
          (r.2, (if r.1 then p.2.1 + 1 else p.2.1),
           (if r.1 then p.2.2 ++ [(u.nick_name, u.user_name)] else p.2.2)))
        (c, n, ds)).1 = c ∧
      (l.foldl (fun (p : UserCore × Nat × List (String × String)) u =>
          let r := disable_user (cfg_dry_fresh db0) p.1 u.user_id
          (r.2, (if r.1 then p.2.1 + 1 else p.2.1),
           (if r.1 then p.2.2 ++ [(u.nick_name, u.user_name)] else p.2.2)))
        (c, n, ds)).2.1 = n + l.length ∧
      (l.foldl (fun (p : UserCore × Nat × List (String × String)) u =>
          let r := disable_user (cfg_dry_fresh db0) p.1 u.user_id
          (r.2, (if r.1 then p.2.1 + 1 else p.2.1),
           (if r.1 then p.2.2 ++ [(u.nick_name, u.user_name)] else p.2.2)))
        (c, n, ds)).2.2 = ds ++ l.map (fun u => (u.nick_name, u.user_name)) := by
  intro l
  induction l with
  | nil =>
    intro c n ds
    refine ⟨rfl, rfl, ?_⟩
    simp
  | cons u t ih =>
    intro c n ds
    have hcons : List.foldl (fun (p : UserCore × Nat × List (String × String)) u =>
        let r := disable_user (cfg_dry_fresh db0) p.1 u.user_id
        (r.2, (if r.1 then p.2.1 + 1 else p.2.1),
         (if r.1 then p.2.2 ++ [(u.nick_name, u.user_name)] else p.2.2)))
        (c, n, ds) (u :: t) =
        List.foldl (fun (p : UserCore × Nat × List (String × String)) u =>
        let r := disable_user (cfg_dry_fresh db0) p.1 u.user_id
        (r.2, (if r.1 then p.2.1 + 1 else p.2.1),
         (if r.1 then p.2.2 ++ [(u.nick_name, u.user_name)] else p.2.2)))
        (c, n + 1, ds ++ [(u.nick_name, u.user_name)]) t := rfl
    rw [hcons]
    obtain ⟨h1, h2, h3⟩ := ih c (n + 1) (ds ++ [(u.nick_name, u.user_name)])
    refine ⟨h1, ?_, ?_⟩
    · rw [h2, List.length_cons]
      omega
    · rw [h3, List.map_cons, List.append_assoc]
      rfl

/-- The real-mode stale-user fold under the all-success configuration: the
counters and name lists of the loop phase are unchanged, and the count and
detail list grow by one per stale user. -/
theorem disable_user_fold_real_visible :
    ∀ (l : List RuoYiUser) (c : UserCore) (n : Nat) (ds : List (String × String)),
      (l.foldl (fun (p : UserCore × Nat × List (String × String)) u =>
          let r := disable_user cfg_real_ok p.1 u.user_id
          (r.2, (if r.1 then p.2.1 + 1 else p.2.1),
           (if r.1 then p.2.2 ++ [(u.nick_name, u.user_name)] else p.2.2)))
        (c, n, ds)).1.new_count = c.new_count ∧
      (l.foldl (fun (p : UserCore × Nat × List (String × String)) u =>
          let r := disable_user cfg_real_ok p.1 u.user_id
          (r.2, (if r.1 then p.2.1 + 1 else p.2.1),
           (if r.1 then p.2.2 ++ [(u.nick_name, u.user_name)] else p.2.2)))
        (c, n, ds)).1.update_count = c.update_count ∧
      (l.foldl (fun (p : UserCore × Nat × List (String × String)) u =>
          let r := disable_user cfg_real_ok p.1 u.user_id
          (r.2, (if r.1 then p.2.1 + 1 else p.2.1),
           (if r.1 then p.2.2 ++ [(u.nick_name, u.user_name)] else p.2.2)))
        (c, n, ds)).1.new_users = c.new_users ∧
      (l.foldl (fun (p : UserCore × Nat × List (String × String)) u =>
          let r := disable_user cfg_real_ok p.1 u.user_id
          (r.2, (if r.1 then p.2.1 + 1 else p.2.1),
           (if r.1 then p.2.2 ++ [(u.nick_name, u.user_name)] else p.2.2)))
        (c, n, ds)).1.updated_users = c.updated_users ∧
      (l.foldl (fun (p : UserCore × Nat × List (String × String)) u =>
          let r := disable_user cfg_real_ok p.1 u.user_id
          (r.2, (if r.1 then p.2.1 + 1 else p.2.1),
           (if r.1 then p.2.2 ++ [(u.nick_name, u.user_name)] else p.2.2)))
        (c, n, ds)).2.1 = n + l.length ∧
      (l.foldl (fun (p : UserCore × Nat × List (String × String)) u =>
          let r := disable_user cfg_real_ok p.1 u.user_id
          (r.2, (if r.1 then p.2.1 + 1 else p.2.1),
           (if r.1 then p.2.2 ++ [(u.nick_name, u.user_name)] else p.2.2)))
        (c, n, ds)).2.2 = ds ++ l.map (fun u => (u.nick_name, u.user_name)) := by
  intro l
  induction l with
  | nil =>
    intro c n ds
    refine ⟨rfl, rfl, rfl, rfl, rfl, ?_⟩
    simp
  | cons u t ih =>
    intro c n ds
    have hcons : List.foldl (fun (p : UserCore × Nat × List (String × String)) u =>
        let r := disable_user cfg_real_ok p.1 u.user_id
        (r.2, (if r.1 then p.2.1 + 1 else p.2.1),
         (if r.1 then p.2.2 ++ [(u.nick_name, u.user_name)] else p.2.2)))
        (c, n, ds) (u :: t) =
        List.foldl (fun (p : UserCore × Nat × List (String × String)) u =>
        let r := disable_user cfg_real_ok p.1 u.user_id
        (r.2, (if r.1 then p.2.1 + 1 else p.2.1),
         (if r.1 then p.2.2 ++ [(u.nick_name, u.user_name)] else p.2.2)))
        ({ c with db := db_disable_user c.db u.user_id }, n + 1,
         ds ++ [(u.nick_name, u.user_name)]) t := rfl
    rw [hcons]
    obtain ⟨h1, h2, h3, h4, h5, h6⟩ :=
      ih { c with db := db_disable_user c.db u.user_id } (n + 1)
        (ds ++ [(u.nick_name, u.user_name)])
    refine ⟨h1, h2, h3, h4, ?_, ?_⟩
    · rw [h5, List.length_cons]
      omega
    · rw [h6, List.map_cons, List.append_assoc]
      rfl

/-- The user phase runs in lockstep given the department phase left the real
user tables and AUTO_INCREMENT untouched: identical counters and events, and
the dry run returns its database untouched. -/
theorem sync_users_lockstep (feishu_users : List FeishuUser)
    (dept_id_map : List (String × Nat)) (ruoyi_depts : List RuoYiDept)
    (ruoyi_dept_map : List (String × RuoYiDept)) (db0 dbR : DBState)
    (husers : dbR.users = db0.users) (hnu : dbR.nextUserId = db0.nextUserId) :
    (sync_users (cfg_dry_fresh db0) feishu_users dept_id_map ruoyi_depts
      ruoyi_dept_map db0).new_count =
      (sync_users cfg_real_ok feishu_users dept_id_map ruoyi_depts
        ruoyi_dept_map dbR).new_count ∧
    (sync_users (cfg_dry_fresh db0) feishu_users dept_id_map ruoyi_depts
      ruoyi_dept_map db0).update_count =
      (sync_users cfg_real_ok feishu_users dept_id_map ruoyi_depts
        ruoyi_dept_map dbR).update_count ∧
    (sync_users (cfg_dry_fresh db0) feishu_users dept_id_map ruoyi_depts
      ruoyi_dept_map db0).disable_count =
      (sync_users cfg_real_ok feishu_users dept_id_map ruoyi_depts
        ruoyi_dept_map dbR).disable_count ∧
    (sync_users (cfg_dry_fresh db0) feishu_users dept_id_map ruoyi_depts
      ruoyi_dept_map db0).events =
      (sync_users cfg_real_ok feishu_users dept_id_map ruoyi_depts
        ruoyi_dept_map dbR).events ∧
    (sync_users (cfg_dry_fresh db0) feishu_users dept_id_map ruoyi_depts
      ruoyi_dept_map db0).db = db0 := by
  have hru : db_get_users dbR = db_get_users db0 := by
    unfold db_get_users
    rw [husers]
  have hsim0 : UserSim db0 (⟨0, 0, [], [], 0, db0⟩ : UserCore)
      (⟨0, 0, [], [], 0, dbR⟩ : UserCore) :=
    ⟨rfl, rfl, rfl, rfl, rfl, by rw [hnu, Nat.add_zero]⟩
  obtain ⟨hsimF, hevF⟩ := user_fold_lockstep db0 dept_id_map ruoyi_depts ruoyi_dept_map
    ((db_get_users db0).foldl
      (fun m u => if u.feishu_union_id ≠ "" then alist_insert m u.feishu_union_id u else m)
      []) feishu_users ⟨0, 0, [], [], 0, db0⟩ ⟨0, 0, [], [], 0, dbR⟩ [] [] hsim0 rfl
  have hsyncD : sync_users (cfg_dry_fresh db0) feishu_users dept_id_map ruoyi_depts
      ruoyi_dept_map db0 =
      ⟨(((db_get_users db0).filter (user_disable_filter
          ((feishu_users.map (·.union_id)).filter (· ≠ "")))).foldl
          (fun (p : UserCore × Nat × List (String × String)) u =>
            let r := disable_user (cfg_dry_fresh db0) p.1 u.user_id
            (r.2, (if r.1 then p.2.1 + 1 else p.2.1),
             (if r.1 then p.2.2 ++ [(u.nick_name, u.user_name)] else p.2.2)))
          ((writer_fold (user_step (cfg_dry_fresh db0) dept_id_map ruoyi_depts
            ruoyi_dept_map ((db_get_users db0).foldl
              (fun m u => if u.feishu_union_id ≠ "" then
                alist_insert m u.feishu_union_id u else m) []))
            (⟨0, 0, [], [], 0, db0⟩, []) feishu_users).1, 0, [])).1.new_count,
       (((db_get_users db0).filter (user_disable_filter
          ((feishu_users.map (·.union_id)).filter (· ≠ "")))).foldl
          (fun (p : UserCore × Nat × List (String × String)) u =>
            let r := disable_user (cfg_dry_fresh db0) p.1 u.user_id
            (r.2, (if r.1 then p.2.1 + 1 else p.2.1),
             (if r.1 then p.2.2 ++ [(u.nick_name, u.user_name)] else p.2.2)))
          ((writer_fold (user_step (cfg_dry_fresh db0) dept_id_map ruoyi_depts
            ruoyi_dept_map ((db_get_users db0).foldl
              (fun m u => if u.feishu_union_id ≠ "" then
                alist_insert m u.feishu_union_id u else m) []))
            (⟨0, 0, [], [], 0, db0⟩, []) feishu_users).1, 0, [])).1.update_count,
       (((db_get_users db0).filter (user_disable_filter
          ((feishu_users.map (·.union_id)).filter (· ≠ "")))).foldl
          (fun (p : UserCore × Nat × List (String × String)) u =>
            let r := disable_user (cfg_dry_fresh db0) p.1 u.user_id
            (r.2, (if r.1 then p.2.1 + 1 else p.2.1),
             (if r.1 then p.2.2 ++ [(u.nick_name, u.user_name)] else p.2.2)))
          ((writer_fold (user_step (cfg_dry_fresh db0) dept_id_map ruoyi_depts
            ruoyi_dept_map ((db_get_users db0).foldl
              (fun m u => if u.feishu_union_id ≠ "" then
                alist_insert m u.feishu_union_id u else m) []))
            (⟨0, 0, [], [], 0, db0⟩, []) feishu_users).1, 0, [])).1.new_users,
       (((db_get_users db0).filter (user_disable_filter
          ((feishu_users.map (·.union_id)).filter (· ≠ "")))).foldl
          (fun (p : UserCore × Nat × List (String × String)) u =>
            let r := disable_user (cfg_dry_fresh db0) p.1 u.user_id
            (r.2, (if r.1 then p.2.1 + 1 else p.2.1),
             (if r.1 then p.2.2 ++ [(u.nick_name, u.user_name)] else p.2.2)))
          ((writer_fold (user_step (cfg_dry_fresh db0) dept_id_map ruoyi_depts
            ruoyi_dept_map ((db_get_users db0).foldl
              (fun m u => if u.feishu_union_id ≠ "" then
                alist_insert m u.feishu_union_id u else m) []))
            (⟨0, 0, [], [], 0, db0⟩, []) feishu_users).1, 0, [])).1.updated_users,
       (((db_get_users db0).filter (user_disable_filter
          ((feishu_users.map (·.union_id)).filter (· ≠ "")))).foldl
          (fun (p : UserCore × Nat × List (String × String)) u =>
            let r := disable_user (cfg_dry_fresh db0) p.1 u.user_id
            (r.2, (if r.1 then p.2.1 + 1 else p.2.1),
             (if r.1 then p.2.2 ++ [(u.nick_name, u.user_name)] else p.2.2)))
          ((writer_fold (user_step (cfg_dry_fresh db0) dept_id_map ruoyi_depts
            ruoyi_dept_map ((db_get_users db0).foldl
              (fun m u => if u.feishu_union_id ≠ "" then
                alist_insert m u.feishu_union_id u else m) []))
            (⟨0, 0, [], [], 0, db0⟩, []) feishu_users).1, 0, [])).2.1,
       (((db_get_users db0).filter (user_disable_filter
          ((feishu_users.map (·.union_id)).filter (· ≠ "")))).foldl
          (fun (p : UserCore × Nat × List (String × String)) u =>
            let r := disable_user (cfg_dry_fresh db0) p.1 u.user_id
            (r.2, (if r.1 then p.2.1 + 1 else p.2.1),
             (if r.1 then p.2.2 ++ [(u.nick_name, u.user_name)] else p.2.2)))
          ((writer_fold (user_step (cfg_dry_fresh db0) dept_id_map ruoyi_depts
            ruoyi_dept_map ((db_get_users db0).foldl
              (fun m u => if u.feishu_union_id ≠ "" then
                alist_insert m u.feishu_union_id u else m) []))
            (⟨0, 0, [], [], 0, db0⟩, []) feishu_users).1, 0, [])).2.2,
       (((db_get_users db0).filter (user_disable_filter
          ((feishu_users.map (·.union_id)).filter (· ≠ "")))).foldl
          (fun (p : UserCore × Nat × List (String × String)) u =>
            let r := disable_user (cfg_dry_fresh db0) p.1 u.user_id
            (r.2, (if r.1 then p.2.1 + 1 else p.2.1),
             (if r.1 then p.2.2 ++ [(u.nick_name, u.user_name)] else p.2.2)))
          ((writer_fold (user_step (cfg_dry_fresh db0) dept_id_map ruoyi_depts
            ruoyi_dept_map ((db_get_users db0).foldl
              (fun m u => if u.feishu_union_id ≠ "" then
                alist_insert m u.feishu_union_id u else m) []))
            (⟨0, 0, [], [], 0, db0⟩, []) feishu_users).1, 0, [])).1.db,
       (writer_fold (user_step (cfg_dry_fresh db0) dept_id_map ruoyi_depts
          ruoyi_dept_map ((db_get_users db0).foldl
            (fun m u => if u.feishu_union_id ≠ "" then
              alist_insert m u.feishu_union_id u else m) []))
          (⟨0, 0, [], [], 0, db0⟩, []) feishu_users).2 ++
        ((db_get_users db0).filter (user_disable_filter
          ((feishu_users.map (·.union_id)).filter (· ≠ "")))).map
          (fun u => SyncEvent.disableUser u.user_id u.user_name u.nick_name)⟩ := rfl
  have hsyncR : sync_users cfg_real_ok feishu_users dept_id_map ruoyi_depts
      ruoyi_dept_map dbR =
      ⟨(((db_get_users dbR).filter (user_disable_filter
          ((feishu_users.map (·.union_id)).filter (· ≠ "")))).foldl
          (fun (p : UserCore × Nat × List (String × String)) u =>
            let r := disable_user cfg_real_ok p.1 u.user_id
            (r.2, (if r.1 then p.2.1 + 1 else p.2.1),
             (if r.1 then p.2.2 ++ [(u.nick_name, u.user_name)] else p.2.2)))
          ((writer_fold (user_step cfg_real_ok dept_id_map ruoyi_depts
            ruoyi_dept_map ((db_get_users dbR).foldl
              (fun m u => if u.feishu_union_id ≠ "" then
                alist_insert m u.feishu_union_id u else m) []))
            (⟨0, 0, [], [], 0, dbR⟩, []) feishu_users).1, 0, [])).1.new_count,
       (((db_get_users dbR).filter (user_disable_filter
          ((feishu_users.map (·.union_id)).filter (· ≠ "")))).foldl
          (fun (p : UserCore × Nat × List (String × String)) u =>
            let r := disable_user cfg_real_ok p.1 u.user_id
            (r.2, (if r.1 then p.2.1 + 1 else p.2.1),
             (if r.1 then p.2.2 ++ [(u.nick_name, u.user_name)] else p.2.2)))
          ((writer_fold (user_step cfg_real_ok dept_id_map ruoyi_depts
            ruoyi_dept_map ((db_get_users dbR).foldl
              (fun m u => if u.feishu_union_id ≠ "" then
                alist_insert m u.feishu_union_id u else m) []))
            (⟨0, 0, [], [], 0, dbR⟩, []) feishu_users).1, 0, [])).1.update_count,
       (((db_get_users dbR).filter (user_disable_filter
          ((feishu_users.map (·.union_id)).filter (· ≠ "")))).foldl
          (fun (p : UserCore × Nat × List (String × String)) u =>
            let r := disable_user cfg_real_ok p.1 u.user_id
            (r.2, (if r.1 then p.2.1 + 1 else p.2.1),
             (if r.1 then p.2.2 ++ [(u.nick_name, u.user_name)] else p.2.2)))
          ((writer_fold (user_step cfg_real_ok dept_id_map ruoyi_depts
            ruoyi_dept_map ((db_get_users dbR).foldl
              (fun m u => if u.feishu_union_id ≠ "" then
                alist_insert m u.feishu_union_id u else m) []))
            (⟨0, 0, [], [], 0, dbR⟩, []) feishu_users).1, 0, [])).1.new_users,
       (((db_get_users dbR).filter (user_disable_filter
          ((feishu_users.map (·.union_id)).filter (· ≠ "")))).foldl
          (fun (p : UserCore × Nat × List (String × String)) u =>
            let r := disable_user cfg_real_ok p.1 u.user_id
            (r.2, (if r.1 then p.2.1 + 1 else p.2.1),
             (if r.1 then p.2.2 ++ [(u.nick_name, u.user_name)] else p.2.2)))
          ((writer_fold (user_step cfg_real_ok dept_id_map ruoyi_depts
            ruoyi_dept_map ((db_get_users dbR).foldl
              (fun m u => if u.feishu_union_id ≠ "" then
                alist_insert m u.feishu_union_id u else m) []))
            (⟨0, 0, [], [], 0, dbR⟩, []) feishu_users).1, 0, [])).1.updated_users,
       (((db_get_users dbR).filter (user_disable_filter
          ((feishu_users.map (·.union_id)).filter (· ≠ "")))).foldl
          (fun (p : UserCore × Nat × List (String × String)) u =>
            let r := disable_user cfg_real_ok p.1 u.user_id
            (r.2, (if r.1 then p.2.1 + 1 else p.2.1),
             (if r.1 then p.2.2 ++ [(u.nick_name, u.user_name)] else p.2.2)))
          ((writer_fold (user_step cfg_real_ok dept_id_map ruoyi_depts
            ruoyi_dept_map ((db_get_users dbR).foldl
              (fun m u => if u.feishu_union_id ≠ "" then
                alist_insert m u.feishu_union_id u else m) []))
            (⟨0, 0, [], [], 0, dbR⟩, []) feishu_users).1, 0, [])).2.1,
       (((db_get_users dbR).filter (user_disable_filter
          ((feishu_users.map (·.union_id)).filter (· ≠ "")))).foldl
          (fun (p : UserCore × Nat × List (String × String)) u =>
            let r := disable_user cfg_real_ok p.1 u.user_id
            (r.2, (if r.1 then p.2.1 + 1 else p.2.1),
             (if r.1 then p.2.2 ++ [(u.nick_name, u.user_name)] else p.2.2)))
          ((writer_fold (user_step cfg_real_ok dept_id_map ruoyi_depts
            ruoyi_dept_map ((db_get_users dbR).foldl
              (fun m u => if u.feishu_union_id ≠ "" then
                alist_insert m u.feishu_union_id u else m) []))
            (⟨0, 0, [], [], 0, dbR⟩, []) feishu_users).1, 0, [])).2.2,
       (((db_get_users dbR).filter (user_disable_filter
          ((feishu_users.map (·.union_id)).filter (· ≠ "")))).foldl
          (fun (p : UserCore × Nat × List (String × String)) u =>
            let r := disable_user cfg_real_ok p.1 u.user_id
            (r.2, (if r.1 then p.2.1 + 1 else p.2.1),
             (if r.1 then p.2.2 ++ [(u.nick_name, u.user_name)] else p.2.2)))
          ((writer_fold (user_step cfg_real_ok dept_id_map ruoyi_depts
            ruoyi_dept_map ((db_get_users dbR).foldl
              (fun m u => if u.feishu_union_id ≠ "" then
                alist_insert m u.feishu_union_id u else m) []))
            (⟨0, 0, [], [], 0, dbR⟩, []) feishu_users).1, 0, [])).1.db,
       (writer_fold (user_step cfg_real_ok dept_id_map ruoyi_depts
          ruoyi_dept_map ((db_get_users dbR).foldl
            (fun m u => if u.feishu_union_id ≠ "" then
              alist_insert m u.feishu_union_id u else m) []))
          (⟨0, 0, [], [], 0, dbR⟩, []) feishu_users).2 ++
        ((db_get_users dbR).filter (user_disable_filter
          ((feishu_users.map (·.union_id)).filter (· ≠ "")))).map
          (fun u => SyncEvent.disableUser u.user_id u.user_name u.nick_name)⟩ := rfl
  rw [hru] at hsyncR
  rw [hsyncD, hsyncR]
  obtain ⟨hD1, hD2, hD3⟩ := disable_user_fold_dry db0
    ((db_get_users db0).filter (user_disable_filter
      ((feishu_users.map (·.union_id)).filter (· ≠ ""))))
    ((writer_fold (user_step (cfg_dry_fresh db0) dept_id_map ruoyi_depts
      ruoyi_dept_map ((db_get_users db0).foldl
        (fun m u => if u.feishu_union_id ≠ "" then
          alist_insert m u.feishu_union_id u else m) []))
      (⟨0, 0, [], [], 0, db0⟩, []) feishu_users).1) 0 []
  obtain ⟨hR1, hR2, hR3, hR4, hR5, hR6⟩ := disable_user_fold_real_visible
    ((db_get_users db0).filter (user_disable_filter
      ((feishu_users.map (·.union_id)).filter (· ≠ ""))))
    ((writer_fold (user_step cfg_real_ok dept_id_map ruoyi_depts
      ruoyi_dept_map ((db_get_users db0).foldl
        (fun m u => if u.feishu_union_id ≠ "" then
          alist_insert m u.feishu_union_id u else m) []))
      (⟨0, 0, [], [], 0, dbR⟩, []) feishu_users).1) 0 []
  refine ⟨?_, ?_, ?_, ?_, ?_⟩
  · show ((_ : UserCore × Nat × List (String × String))).1.new_count = _
    rw [hD1, hR1, hsimF.new_eq]
  · show ((_ : UserCore × Nat × List (String × String))).1.update_count = _
    rw [hD1, hR2, hsimF.upd_eq]
  · show ((_ : UserCore × Nat × List (String × String))).2.1 = _
    rw [hD2, hR5]
  · show (writer_fold _ ((⟨0, 0, [], [], 0, db0⟩ : UserCore), []) feishu_users).2 ++ _ = _
    rw [hevF]
  · show ((_ : UserCore × Nat × List (String × String))).1.db = db0
    rw [hD1]
    exact hsimF.dry_db

/-- C2 (amended): dry-run and real-run classify identically whenever the dry
run's simulated ids coincide with the ids the real run would assign AND every
real write succeeds — here the simulated `random.randint` ids are the
successive AUTO_INCREMENT values of the target and `cfg_real_ok` makes every
INSERT, UPDATE and disable succeed: the two runs produce the same department
mapping, the same six counters, and the same event trace (same entities
flagged create/update/disable with the same changed-field lists), and the
dry run returns the database untouched.  Both conditions are necessary: the
dry-run stubs return a random simulated id for create and an unconditional
True for update/disable, so a simulated id that collides with data already
in the target changes the follow-up field-diff classification (the
counterexample), and a failed real UPDATE or disable — expressible through
the `userUpdateOk`/`userDisableOk` oracles, which gate `update_count`,
`updated_users`, `disable_count` and `disabled_users` exactly as the source
gates them on the adapter's return value — breaks the counter and
detail-list equality even when the ids match. -/
theorem dry_run_real_run_lockstep (feishu_depts : List FeishuDept)
    (feishu_users : List FeishuUser) (db0 : DBState) :
    (run_sync (cfg_dry_fresh db0) feishu_depts feishu_users db0).dept_id_map =
      (run_sync cfg_real_ok feishu_depts feishu_users db0).dept_id_map ∧
    (run_sync (cfg_dry_fresh db0) feishu_depts feishu_users db0).dept_created =
      (run_sync cfg_real_ok feishu_depts feishu_users db0).dept_created ∧
    (run_sync (cfg_dry_fresh db0) feishu_depts feishu_users db0).dept_updated =
      (run_sync cfg_real_ok feishu_depts feishu_users db0).dept_updated ∧
    (run_sync (cfg_dry_fresh db0) feishu_depts feishu_users db0).dept_disabled =
      (run_sync cfg_real_ok feishu_depts feishu_users db0).dept_disabled ∧
    (run_sync (cfg_dry_fresh db0) feishu_depts feishu_users db0).user_new =
      (run_sync cfg_real_ok feishu_depts feishu_users db0).user_new ∧
    (run_sync (cfg_dry_fresh db0) feishu_depts feishu_users db0).user_update =
      (run_sync cfg_real_ok feishu_depts feishu_users db0).user_update ∧
    (run_sync (cfg_dry_fresh db0) feishu_depts feishu_users db0).user_disable =
      (run_sync cfg_real_ok feishu_depts feishu_users db0).user_disable ∧
    (run_sync (cfg_dry_fresh db0) feishu_depts feishu_users db0).events =
      (run_sync cfg_real_ok feishu_depts feishu_users db0).events ∧
    (run_sync (cfg_dry_fresh db0) feishu_depts feishu_users db0).db = db0 := by
  obtain ⟨hmap, hrows, hrmap, hcre, hupd, hdis, hevD, hdrydb, hRusers, hRroles, hRnu⟩ :=
    sync_departments_lockstep feishu_depts db0
  have hrunD : run_sync (cfg_dry_fresh db0) feishu_depts feishu_users db0 =
      ⟨(sync_departments (cfg_dry_fresh db0) feishu_depts db0).dept_id_map,
       (sync_departments (cfg_dry_fresh db0) feishu_depts db0).dept_created_count,
       (sync_departments (cfg_dry_fresh db0) feishu_depts db0).dept_updated_count,
       (sync_departments (cfg_dry_fresh db0) feishu_depts db0).dept_disabled_count,
       (sync_users (cfg_dry_fresh db0) feishu_users
         (sync_departments (cfg_dry_fresh db0) feishu_depts db0).dept_id_map
         (sync_departments (cfg_dry_fresh db0) feishu_depts db0).ruoyi_depts
         (sync_departments (cfg_dry_fresh db0) feishu_depts db0).ruoyi_dept_map
         (sync_departments (cfg_dry_fresh db0) feishu_depts db0).db).new_count,
       (sync_users (cfg_dry_fresh db0) feishu_users
         (sync_departments (cfg_dry_fresh db0) feishu_depts db0).dept_id_map
         (sync_departments (cfg_dry_fresh db0) feishu_depts db0).ruoyi_depts
         (sync_departments (cfg_dry_fresh db0) feishu_depts db0).ruoyi_dept_map
         (sync_departments (cfg_dry_fresh db0) feishu_depts db0).db).update_count,
       (sync_users (cfg_dry_fresh db0) feishu_users
         (sync_departments (cfg_dry_fresh db0) feishu_depts db0).dept_id_map
         (sync_departments (cfg_dry_fresh db0) feishu_depts db0).ruoyi_depts
         (sync_departments (cfg_dry_fresh db0) feishu_depts db0).ruoyi_dept_map
         (sync_departments (cfg_dry_fresh db0) feishu_depts db0).db).disable_count,
       (sync_users (cfg_dry_fresh db0) feishu_users
         (sync_departments (cfg_dry_fresh db0) feishu_depts db0).dept_id_map
         (sync_departments (cfg_dry_fresh db0) feishu_depts db0).ruoyi_depts
         (sync_departments (cfg_dry_fresh db0) feishu_depts db0).ruoyi_dept_map
         (sync_departments (cfg_dry_fresh db0) feishu_depts db0).db).db,
       (sync_departments (cfg_dry_fresh db0) feishu_depts db0).events ++
         (sync_users (cfg_dry_fresh db0) feishu_users
           (sync_departments (cfg_dry_fresh db0) feishu_depts db0).dept_id_map
           (sync_departments (cfg_dry_fresh db0) feishu_depts db0).ruoyi_depts
           (sync_departments (cfg_dry_fresh db0) feishu_depts db0).ruoyi_dept_map
           (sync_departments (cfg_dry_fresh db0) feishu_depts db0).db).events⟩ := rfl
  have hrunR : run_sync cfg_real_ok feishu_depts feishu_users db0 =
      ⟨(sync_departments cfg_real_ok feishu_depts db0).dept_id_map,
       (sync_departments cfg_real_ok feishu_depts db0).dept_created_count,
       (sync_departments cfg_real_ok feishu_depts db0).dept_updated_count,
       (sync_departments cfg_real_ok feishu_depts db0).dept_disabled_count,
       (sync_users cfg_real_ok feishu_users
         (sync_departments cfg_real_ok feishu_depts db0).dept_id_map
         (sync_departments cfg_real_ok feishu_depts db0).ruoyi_depts
         (sync_departments cfg_real_ok feishu_depts db0).ruoyi_dept_map
         (sync_departments cfg_real_ok feishu_depts db0).db).new_count,
       (sync_users cfg_real_ok feishu_users
         (sync_departments cfg_real_ok feishu_depts db0).dept_id_map
         (sync_departments cfg_real_ok feishu_depts db0).ruoyi_depts
         (sync_departments cfg_real_ok feishu_depts db0).ruoyi_dept_map
         (sync_departments cfg_real_ok feishu_depts db0).db).update_count,
       (sync_users cfg_real_ok feishu_users
         (sync_departments cfg_real_ok feishu_depts db0).dept_id_map
         (sync_departments cfg_real_ok feishu_depts db0).ruoyi_depts
         (sync_departments cfg_real_ok feishu_depts db0).ruoyi_dept_map
         (sync_departments cfg_real_ok feishu_depts db0).db).disable_count,
       (sync_users cfg_real_ok feishu_users
         (sync_departments cfg_real_ok feishu_depts db0).dept_id_map
         (sync_departments cfg_real_ok feishu_depts db0).ruoyi_depts
         (sync_departments cfg_real_ok feishu_depts db0).ruoyi_dept_map
         (sync_departments cfg_real_ok feishu_depts db0).db).db,
       (sync_departments cfg_real_ok feishu_depts db0).events ++
         (sync_users cfg_real_ok feishu_users
           (sync_departments cfg_real_ok feishu_depts db0).dept_id_map
           (sync_departments cfg_real_ok feishu_depts db0).ruoyi_depts
           (sync_departments cfg_real_ok feishu_depts db0).ruoyi_dept_map
           (sync_departments cfg_real_ok feishu_depts db0).db).events⟩ := rfl
  rw [hdrydb] at hrunD
  rw [← hmap, ← hrows, ← hrmap] at hrunR
  obtain ⟨hun, huu, hud, huev, hudb⟩ := sync_users_lockstep feishu_users
    (sync_departments (cfg_dry_fresh db0) feishu_depts db0).dept_id_map
    (sync_departments (cfg_dry_fresh db0) feishu_depts db0).ruoyi_depts
    (sync_departments (cfg_dry_fresh db0) feishu_depts db0).ruoyi_dept_map
    db0 (sync_departments cfg_real_ok feishu_depts db0).db hRusers hRnu
  rw [hrunD, hrunR]
  dsimp only
  exact ⟨rfl, hcre, hupd, hdis, hun, huu, hud, by rw [hevD, huev], hudb⟩

/-- The second necessity condition of the amended dry-run claim, exercised:
with coinciding ids and every INSERT succeeding, a real run whose user
UPDATE fails (first pair) or whose user disable fails (second pair) diverges
from the dry run, whose stubs report unconditional success — the dry run
counts one update (resp. one disable), the real run none. -/
theorem update_failure_breaks_lockstep :
    (sync_users (cfg_dry_fresh
        ⟨[], [⟨7, "bob", "Old", "e@x", "", "0", 100, "pw", "u1", "o1", "0", "0"⟩], [], 1, 8⟩)
      [⟨"u1", "o1", "bob", "New", "e@x", "d"⟩] [] [] []
      ⟨[], [⟨7, "bob", "Old", "e@x", "", "0", 100, "pw", "u1", "o1", "0", "0"⟩], [], 1, 8⟩
      ).update_count = 1 ∧
    (sync_users
      ⟨false, fun _ => 0, fun _ => 0, fun _ => true, fun _ => true,
       fun _ => true, fun _ => true, fun _ => false, fun _ => true⟩
      [⟨"u1", "o1", "bob", "New", "e@x", "d"⟩] [] [] []
      ⟨[], [⟨7, "bob", "Old", "e@x", "", "0", 100, "pw", "u1", "o1", "0", "0"⟩], [], 1, 8⟩
      ).update_count = 0 ∧
    (sync_users (cfg_dry_fresh stale_db) [] [] [] [] stale_db).disable_count = 1 ∧
    (sync_users
      ⟨false, fun _ => 0, fun _ => 0, fun _ => true, fun _ => true,
       fun _ => true, fun _ => true, fun _ => true, fun _ => false⟩
      [] [] [] [] stale_db).disable_count = 0 := by
  decide
